import Mathlib

/-!
# vulkaninfo: the dump functions and `main`

A shallow embedding of `vulkaninfo/vulkaninfo.cpp`.  A function
`void F(Printer &p, ...)` becomes a Lean function returning the list of
`Printer` calls it makes, in order; the printer's output type `p.Type()` is an
explicit argument.  Query results (`GetGroups`, `GetToolingInfo`, ...) are
fields of the records handed to the dump functions, and the generated
`Dump*` helpers and the printer's decoration methods, which live in other
files, are the fields of `Externals`.  The function `main` becomes a function
from the argument vector to its return value and the list of what it does:
writes to `std::cout`, windows and surfaces created and destroyed, printers
constructed and documents emitted.
-/

namespace VulkanInfo

/-! ## Strings -/

/-- A C string: the bytes before the terminating NUL, each as a number in `0..255`. -/
abbrev CStr := List Nat

/-- The bytes of an ASCII literal of the source text. -/
def cstr (s : String) : CStr := s.toList.map Char.toNat

/-- Decimal digits of an unsigned number, as `std::to_string` produces them. -/
def to_string (n : Nat) : CStr := cstr (toString n)

/-- The byte count of a C string, `strlen`. -/
def strlen (s : CStr) : Nat := s.length

/-- The sign of `std::strcmp (a, b)`: the first differing byte decides, and a
proper prefix is smaller. -/
def strcmp : CStr → CStr → Int
  | [], [] => 0
  | [], _ :: _ => -1
  | _ :: _, [] => 1
  | a :: as, b :: bs => if a < b then -1 else if b < a then 1 else strcmp as bs

/-- The comparison `std::string (a) < std::string (b)`: byte-wise lexicographic. -/
def stringLess (a b : CStr) : Bool := decide (strcmp a b < 0)

/-- A `std::set<std::string>`, kept as its elements in increasing order;
`setInsert` is `std::set::insert`. -/
def setInsert (x : CStr) : List CStr → List CStr
  | [] => [x]
  | y :: ys =>
    if stringLess x y then x :: y :: ys
    else if stringLess y x then y :: setInsert x ys
    else y :: ys

/-! ## `std::sort` -/

/-- A sorting routine taking the comparator and the sequence, as `std::sort` does. -/
abbrev SortFn := (α : Type) → (α → α → Bool) → List α → List α

/-- The requirement `std::sort` puts on its comparator: a strict weak ordering. -/
def StrictWeakOrder {α : Type} (lt : α → α → Bool) : Prop :=
  (∀ a, lt a a = false) ∧
  (∀ a b c, lt a b = true → lt b c = true → lt a c = true) ∧
  (∀ a b c, lt a b = false → lt b a = false → lt b c = false → lt c b = false →
    lt a c = false ∧ lt c a = false)

/-- The postcondition of `std::sort`: for a strict weak ordering the result is a
rearrangement of the input in which no element is smaller than an earlier one.
The relative order of equivalent elements is left open. -/
def SortFn.Conforms (sort : SortFn) : Prop :=
  ∀ (α : Type) (lt : α → α → Bool) (l : List α), StrictWeakOrder lt →
    (sort α lt l).Perm l ∧ (sort α lt l).Pairwise (fun a b => lt b a = false)

/-- Insertion of `a` behind every element that is not greater than it. -/
def insertAfter {α : Type} (lt : α → α → Bool) (a : α) : List α → List α
  | [] => [a]
  | b :: l => if lt a b then a :: b :: l else b :: insertAfter lt a l

/-- A conforming sorting routine: insertion sort that puts each element behind
its equivalents, so equivalent elements come out in reverse input order. -/
def insertionSort : SortFn := fun _ lt l => l.foldr (fun a acc => insertAfter lt a acc) []

/-! ## `std::sort` as GNU libstdc++ implements it

The functions of `bits/stl_algo.h` and `bits/stl_heap.h` behind `std::sort`.
A range is the list of its elements; iterators are positions in it, and `d`
stands for an element that is never read (a position outside the range). -/

/-- The four output types, `OutputType`. -/
inductive OutputType
  | text
  | html
  | json
  | json_full
deriving DecidableEq, Repr

/-- A value handed to `PrintKeyValue` or `PrintElement` (a template parameter
in the source). -/
inductive Value
  | num (n : Nat)
  | text (s : CStr)
  | extent (width height depth : Nat)
deriving DecidableEq, Repr

/-- One call of a `Printer` method.  Omitted arguments carry the defaults of
the declaration (`0` and the empty string). -/
inductive Call
  | ObjectStart (object_name : CStr)
  | ObjectEnd
  | ArrayStart (array_name : CStr) (element_count : Nat)
  | ArrayEnd
  | PrintKeyValue (key : CStr) (value : Value) (min_key_width : Nat) (value_description : CStr)
  | PrintKeyString (key : CStr) (value : CStr) (min_key_width : Nat)
  | PrintString (string : CStr)
  | PrintElement (element : Value)
  | PrintExtension (ext_name : CStr) (revision : Nat) (min_width : Nat)
  | SetHeader
  | SetSubHeader
  | SetAsType
  | SetOpenDetails
  | SetTitleAsType
  | SetElementIndex (index : Nat)
  | IndentIncrease
  | IndentDecrease
  | AddNewline
deriving DecidableEq, Repr

/-- The kind of an open container. -/
inductive Frame
  | object
  | array
deriving DecidableEq, Repr

/-- Modelled from the spec: the printer's stack of open container frames (the
`Printer` class is declared in `outputprinter.h`).  A start pushes a frame, an
end pops the frame of its own kind and is a contract violation (`none`) on an
empty stack or on a frame of the other kind; every other call leaves the
stack alone. -/
def stackStep (st : List Frame) : Call → Option (List Frame)
  | .ObjectStart _ => some (Frame.object :: st)
  | .ArrayStart _ _ => some (Frame.array :: st)
  | .ObjectEnd =>
    match st with
    | Frame.object :: rest => some rest
    | _ => none
  | .ArrayEnd =>
    match st with
    | Frame.array :: rest => some rest
    | _ => none
  | _ => some st

/-- The container stack after a sequence of calls, `none` after a violation. -/
def runStack : List Frame → List Call → Option (List Frame)
  | st, [] => some st
  | st, c :: cs =>
    match stackStep st c with
    | some st1 => runStack st1 cs
    | none => none

/-- A call sequence is balanced when, started on the empty stack, it never
violates the stack discipline and ends on the empty stack. -/
def Balanced (calls : List Call) : Prop := runStack [] calls = some []

instance (calls : List Call) : Decidable (Balanced calls) := by
  unfold Balanced; infer_instance

/-! ## The data handed to the dump functions -/

/-- A Vulkan structure whose members are read only by the generated helpers. -/
abbrev Payload := List Nat

structure VkExtensionProperties where
  extensionName : CStr
  specVersion : Nat
deriving DecidableEq, Repr

structure VkLayerProperties where
  layerName : CStr
  specVersion : Nat
  implementationVersion : Nat
  description : CStr
deriving DecidableEq, Repr

structure LayerExtensionList where
  layer_properties : VkLayerProperties
  extension_properties : List VkExtensionProperties
deriving DecidableEq, Repr

structure SurfaceExtension where
  name : CStr
  supports_present : Bool
deriving DecidableEq, Repr

structure VkSurfaceFormatKHR where
  format : Nat
  colorSpace : Nat
deriving DecidableEq, Repr

structure VkSurfaceFormat2KHR where
  surfaceFormat : VkSurfaceFormatKHR
deriving DecidableEq, Repr

structure VkSurfaceCapabilities2KHR where
  surfaceCapabilities : Payload
  pNext : Payload
deriving DecidableEq, Repr

structure VkSurfaceCapabilities2EXT where
  supportedSurfaceCounters : Nat
  others : Payload
deriving DecidableEq, Repr

structure AppSurface where
  surface_extension : SurfaceExtension
  surf_present_modes : List Nat
  surf_formats : List VkSurfaceFormatKHR
  surf_formats2 : List VkSurfaceFormat2KHR
  surface_capabilities : Payload
  surface_capabilities2_khr : VkSurfaceCapabilities2KHR
  surface_capabilities2_ext : VkSurfaceCapabilities2EXT
deriving DecidableEq, Repr

structure VkDeviceGroupPresentCapabilitiesKHR where
  presentMask : List Nat
  modes : Nat
deriving DecidableEq, Repr

/-- One element of `GetGroups (inst)` together with what `GetGroupProps` and
`GetGroupCapabilities` return for it. -/
structure DeviceGroup where
  physicalDeviceCount : Nat
  subsetAllocation : Nat
  group_props : List CStr
  group_capabilities : Bool × VkDeviceGroupPresentCapabilitiesKHR
deriving DecidableEq, Repr

structure AppInstance where
  CheckExtensionEnabled : CStr → Bool
  vk_version : Nat
  global_extensions : List VkExtensionProperties
  global_layers : List LayerExtensionList
  surface_extensions : List SurfaceExtension
  GetGroups : List DeviceGroup

structure VkPhysicalDeviceProperties where
  apiVersion : Nat
  driverVersion : Nat
  vendorID : Nat
  deviceID : Nat
  deviceType : Nat
  deviceName : CStr
  pipelineCacheUUID : List Nat
  limits : Payload
  sparseProperties : Payload
deriving DecidableEq, Repr

structure VkPhysicalDeviceProperties2 where
  properties : VkPhysicalDeviceProperties
  pNext : Payload
deriving DecidableEq, Repr

structure VkExtent3D where
  width : Nat
  height : Nat
  depth : Nat
deriving DecidableEq, Repr

structure VkQueueFamilyProperties where
  queueFlags : Nat
  queueCount : Nat
  timestampValidBits : Nat
  minImageTransferGranularity : VkExtent3D
deriving DecidableEq, Repr

/-- The record built by `AppQueueFamilyProperties (gpu, i)`; `surfaces` is the
state of `gpu.inst.surface_extensions` the constructor leaves behind. -/
structure AppQueueFamilyProperties where
  props : VkQueueFamilyProperties
  queue_index : Nat
  is_present_platform_agnostic : Bool
  platforms_support_present : Bool
  surfaces : List SurfaceExtension
deriving DecidableEq, Repr

structure VkMemoryHeap where
  size : Nat
  flags : Nat
deriving DecidableEq, Repr

structure VkMemoryType where
  propertyFlags : Nat
  heapIndex : Nat
deriving DecidableEq, Repr

structure VkPhysicalDeviceMemoryProperties where
  memoryTypeCount : Nat
  memoryTypes : List VkMemoryType
  memoryHeapCount : Nat
  memoryHeaps : List VkMemoryHeap
deriving DecidableEq, Repr

structure MemImageSupport where
  regular_supported : Bool
  sparse_supported : Bool
  transient_supported : Bool
  format : Nat
  regular_memtypes : Nat
  sparse_memtypes : Nat
  transient_memtypes : Nat
deriving DecidableEq, Repr

structure VkFormatProperties where
  linearTilingFeatures : Nat
  optimalTilingFeatures : Nat
  bufferFeatures : Nat
deriving DecidableEq, Repr

/-- The key of `FormatPropMap`. -/
structure PropFlags where
  linear : Nat
  optimal : Nat
  buffer : Nat
deriving DecidableEq, Repr

structure VulkanFormatRange where
  first_format : Nat
  last_format : Nat
deriving DecidableEq, Repr

structure VkPhysicalDeviceToolPropertiesEXT where
  name : CStr
  others : Payload
deriving DecidableEq, Repr

structure AppGpu where
  inst : AppInstance
  id : Nat
  props : VkPhysicalDeviceProperties
  props2 : VkPhysicalDeviceProperties2
  GetDeviceProperties : VkPhysicalDeviceProperties
  device_extensions : List VkExtensionProperties
  queue_count : Nat
  queue_family : Nat → AppQueueFamilyProperties
  memory_props : VkPhysicalDeviceMemoryProperties
  heapBudget : List Nat
  heapUsage : List Nat
  mem_type_res_support_image : List (List MemImageSupport)
  features : Payload
  features2_pNext : Payload
  supported_format_ranges : List VulkanFormatRange
  FormatRangeSupported : VulkanFormatRange → Bool
  vkGetPhysicalDeviceFormatProperties : Nat → VkFormatProperties
  FormatPropMap : List (PropFlags × List Nat)
  GetToolingInfo : List VkPhysicalDeviceToolPropertiesEXT
  AppGetPhysicalDeviceLayerExtensions : CStr → List VkExtensionProperties

/-- What the translation unit takes from other files: the decoration methods
of the printer, the string tables, and the generated `Dump*` helpers and chain
iterators, each as the sequence of printer calls it makes. -/
structure Externals where
  DecorateAsType : OutputType → CStr → CStr
  DecorateAsValue : OutputType → CStr → CStr
  VkVersionString : Nat → CStr
  to_hex_str : Nat → CStr
  NumToNiceStr : Nat → CStr
  VkPhysicalDeviceTypeString : Nat → CStr
  VkQueueFlagsString : Nat → CStr
  VkPresentModeKHRString : Nat → CStr
  VkImageTilingString : Nat → CStr
  VkFormatString : Nat → CStr
  DumpVkLayerProperties : OutputType → CStr → VkLayerProperties → List Call
  DumpVkSurfaceFormatKHR : OutputType → CStr → VkSurfaceFormatKHR → List Call
  DumpVkSurfaceCapabilitiesKHR : OutputType → CStr → Payload → List Call
  DumpVkSurfaceCounterFlagsEXT : OutputType → CStr → Nat → List Call
  chain_iterator_surface_capabilities2 :
    OutputType → AppInstance → AppGpu → Payload → Nat → List Call
  DumpVkDeviceGroupPresentModeFlagsKHR : OutputType → CStr → Nat → List Call
  DumpVkPhysicalDeviceLimits : OutputType → CStr → Payload → List Call
  DumpVkPhysicalDeviceSparseProperties : OutputType → CStr → Payload → List Call
  chain_iterator_phys_device_props2 :
    OutputType → AppInstance → AppGpu → Payload → Nat → List Call
  DumpVkExtent3D : OutputType → CStr → VkExtent3D → List Call
  DumpVkMemoryHeapFlags : OutputType → CStr → Nat → Nat → List Call
  DumpVkMemoryPropertyFlags : OutputType → CStr → Nat → List Call
  DumpVkPhysicalDeviceFeatures : OutputType → CStr → Payload → List Call
  chain_iterator_phys_device_features2 : OutputType → AppGpu → Payload → Nat → List Call
  DumpVkFormatFeatureFlags : OutputType → CStr → Nat → List Call
  DumpVkPhysicalDeviceToolPropertiesEXT :
    OutputType → CStr → VkPhysicalDeviceToolPropertiesEXT → List Call

/-- Every generated helper and chain iterator makes a balanced call sequence. -/
def Externals.HelpersBalanced (X : Externals) : Prop :=
  (∀ t n v, Balanced (X.DumpVkLayerProperties t n v)) ∧
  (∀ t n v, Balanced (X.DumpVkSurfaceFormatKHR t n v)) ∧
  (∀ t n v, Balanced (X.DumpVkSurfaceCapabilitiesKHR t n v)) ∧
  (∀ t n v, Balanced (X.DumpVkSurfaceCounterFlagsEXT t n v)) ∧
  (∀ t i g c v, Balanced (X.chain_iterator_surface_capabilities2 t i g c v)) ∧
  (∀ t n v, Balanced (X.DumpVkDeviceGroupPresentModeFlagsKHR t n v)) ∧
  (∀ t n v, Balanced (X.DumpVkPhysicalDeviceLimits t n v)) ∧
  (∀ t n v, Balanced (X.DumpVkPhysicalDeviceSparseProperties t n v)) ∧
  (∀ t i g c v, Balanced (X.chain_iterator_phys_device_props2 t i g c v)) ∧
  (∀ t n v, Balanced (X.DumpVkExtent3D t n v)) ∧
  (∀ t n v w, Balanced (X.DumpVkMemoryHeapFlags t n v w)) ∧
  (∀ t n v, Balanced (X.DumpVkMemoryPropertyFlags t n v)) ∧
  (∀ t n v, Balanced (X.DumpVkPhysicalDeviceFeatures t n v)) ∧
  (∀ t g c v, Balanced (X.chain_iterator_phys_device_features2 t g c v)) ∧
  (∀ t n v, Balanced (X.DumpVkFormatFeatureFlags t n v)) ∧
  (∀ t n v, Balanced (X.DumpVkPhysicalDeviceToolPropertiesEXT t n v))

/-! ## Extension names used as literals (macros of the Vulkan headers) -/

def VK_KHR_GET_SURFACE_CAPABILITIES_2_EXTENSION_NAME : CStr :=
  cstr "VK_KHR_get_surface_capabilities2"

def VK_KHR_DEVICE_GROUP_CREATION_EXTENSION_NAME : CStr :=
  cstr "VK_KHR_device_group_creation"

def VK_KHR_GET_PHYSICAL_DEVICE_PROPERTIES_2_EXTENSION_NAME : CStr :=
  cstr "VK_KHR_get_physical_device_properties2"

/-- The size of `pipelineCacheUUID`. -/
def VK_UUID_SIZE : Nat := 16

/-- The first value of `VkImageTiling`. -/
def VK_IMAGE_TILING_OPTIMAL : Nat := 0

/-- The first value of `VkFormat`. -/
def VK_FORMAT_UNDEFINED : Nat := 0

/-! ## Loops -/

/-- The loop `for (uint32_t i = start; i < start + count; ++i) body (i)`. -/
def forRange (body : Nat → List Call) : Nat → Nat → List Call
  | _, 0 => []
  | i, count + 1 => body i ++ forRange body (i + 1) count

/-- The loop `int i = 0; for (auto &x : xs) { p.SetElementIndex (i++); body (x); }`,
entered with the counter at `i`. -/
def indexedLoop {α : Type} (body : α → List Call) : Nat → List α → List Call
  | _, [] => []
  | i, x :: rest => Call.SetElementIndex i :: body x ++ indexedLoop body (i + 1) rest

/-! ## `DumpExtensions` and `DumpLayers` -/

/-- The comparator of the `std::sort` call in `DumpExtensions`. -/
def extensionLess (a b : VkExtensionProperties) : Bool :=
  stringLess a.extensionName b.extensionName

/-- The loop that raises `max_length` to the longest extension name. -/
def maxLengthLoop : Nat → List VkExtensionProperties → Nat
  | max_length, [] => max_length
  | max_length, ext :: rest =>
    let len := strlen ext.extensionName
    maxLengthLoop (if len > max_length then len else max_length) rest

/-- The extension list as `DumpExtensions` holds it after its `std::sort` call. -/
def sortedExtensions (sort : SortFn) (extensions : List VkExtensionProperties) :
    List VkExtensionProperties :=
  sort VkExtensionProperties extensionLess extensions

def DumpExtensions (sort : SortFn) (layer_name : CStr)
    (extensions0 : List VkExtensionProperties) : List Call :=
  let extensions := sortedExtensions sort extensions0
  let max_length :=
    match extensions with
    | [] => 0
    | first :: _ => maxLengthLoop (strlen first.extensionName) extensions
  [Call.ObjectStart (layer_name ++ cstr " Extensions")] ++
    extensions.map (fun ext => Call.PrintExtension ext.extensionName ext.specVersion max_length) ++
    [Call.ObjectEnd]

/-- The body of the comparator of `DumpLayers` on the two name pointers,
`a && (!b || std::strcmp (a, b) < 0)`; `none` is the null pointer. -/
def layerNameLess (a b : Option CStr) : Bool :=
  match a with
  | none => false
  | some x =>
    match b with
    | none => true
    | some y => decide (strcmp x y < 0)

/-- The comparator of the `std::sort` call in `DumpLayers`.  `layerName` is an
array member, so the two pointers taken from it are not null. -/
def layerLess (left right : LayerExtensionList) : Bool :=
  layerNameLess (some left.layer_properties.layerName) (some right.layer_properties.layerName)

/-- The layer list as `DumpLayers` holds it after its `std::sort` call. -/
def sortedLayers (sort : SortFn) (layers : List LayerExtensionList) : List LayerExtensionList :=
  sort LayerExtensionList layerLess layers

/-- The `header` string of one layer in the text and html branch.  In the html
case the continuation line `+", layer version " + ...` stands behind a
semicolon: it is an expression statement of its own and adds nothing. -/
def layerHeader (X : Externals) (t : OutputType) (props : VkLayerProperties) : CStr :=
  let v_str := X.VkVersionString props.specVersion
  if t = OutputType.text then
    props.layerName ++ cstr " (" ++ props.description ++ cstr ") Vulkan version " ++ v_str ++
      cstr ", layer version " ++ to_string props.implementationVersion
  else if t = OutputType.html then
    X.DecorateAsType t props.layerName ++ cstr " (" ++ props.description ++
      cstr ") Vulkan version " ++ X.DecorateAsValue t v_str
  else []

/-- The body of the loop over the devices in the text and html branch of
`DumpLayers`, for the layer of the given name. -/
def layerDeviceTextHtml (sort : SortFn) (layerName : CStr) (gpu : AppGpu) : List Call :=
  [Call.PrintKeyValue (cstr "GPU id") (Value.num gpu.id) 0 gpu.props.deviceName] ++
    DumpExtensions sort (cstr "Layer-Device") (gpu.AppGetPhysicalDeviceLayerExtensions layerName) ++
    [Call.AddNewline]

/-- The body of the loop over the devices in the json_full branch of
`DumpLayers`, for the layer of the given name. -/
def layerDeviceJsonFull (sort : SortFn) (layerName : CStr) (gpu : AppGpu) : List Call :=
  [Call.ObjectStart gpu.props.deviceName,
    Call.PrintKeyValue (cstr "GPU id") (Value.num gpu.id) 0 gpu.props.deviceName] ++
    DumpExtensions sort (cstr "Layer-Device") (gpu.AppGetPhysicalDeviceLayerExtensions layerName) ++
    [Call.ObjectEnd]

/-- The loop body of the text and html branch of `DumpLayers`. -/
def layerRecordTextHtml (X : Externals) (sort : SortFn) (t : OutputType) (gpus : List AppGpu)
    (layer : LayerExtensionList) : List Call :=
  let props := layer.layer_properties
  [Call.ObjectStart (layerHeader X t props)] ++
    DumpExtensions sort (cstr "Layer") layer.extension_properties ++
    [Call.ArrayStart (cstr "Devices") gpus.length] ++
    gpus.flatMap (layerDeviceTextHtml sort props.layerName) ++
    [Call.ArrayEnd, Call.ObjectEnd]

/-- The loop body of the json branch of `DumpLayers`, behind `SetElementIndex`. -/
def layerRecordJson (X : Externals) (t : OutputType) (layer : LayerExtensionList) : List Call :=
  X.DumpVkLayerProperties t (cstr "layerProperty") layer.layer_properties

/-- The loop body of the json_full branch of `DumpLayers`. -/
def layerRecordJsonFull (X : Externals) (sort : SortFn) (gpus : List AppGpu)
    (layer : LayerExtensionList) : List Call :=
  [Call.ObjectStart layer.layer_properties.layerName,
    Call.PrintKeyString (cstr "layerName") layer.layer_properties.layerName 21,
    Call.PrintKeyString (cstr "version") (X.VkVersionString layer.layer_properties.specVersion) 21,
    Call.PrintKeyValue (cstr "implementation version")
      (Value.num layer.layer_properties.implementationVersion) 21 [],
    Call.PrintKeyString (cstr "description") layer.layer_properties.description 21] ++
    DumpExtensions sort (cstr "Layer") layer.extension_properties ++
    [Call.ObjectStart (cstr "Devices")] ++
    gpus.flatMap (layerDeviceJsonFull sort layer.layer_properties.layerName) ++
    [Call.ObjectEnd, Call.ObjectEnd]

def DumpLayers (X : Externals) (sort : SortFn) (t : OutputType)
    (layers0 : List LayerExtensionList) (gpus : List AppGpu) : List Call :=
  let layers := sortedLayers sort layers0
  if t = OutputType.text ∨ t = OutputType.html then
    [Call.SetHeader, Call.ArrayStart (cstr "Layers") layers.length, Call.IndentDecrease] ++
      layers.flatMap (layerRecordTextHtml X sort t gpus) ++
      [Call.IndentIncrease, Call.ArrayEnd]
  else if t = OutputType.json then
    [Call.ArrayStart (cstr "ArrayOfVkLayerProperties") layers.length] ++
      indexedLoop (layerRecordJson X t) 0 layers ++
      [Call.ArrayEnd]
  else if t = OutputType.json_full then
    [Call.ObjectStart (cstr "Layer Properties")] ++
      layers.flatMap (layerRecordJsonFull X sort gpus) ++
      [Call.ObjectEnd]
  else []

/-! ## Presentable surfaces -/

def DumpSurfaceFormats (X : Externals) (t : OutputType) (inst : AppInstance)
    (surface : AppSurface) : List Call :=
  let formats : List VkSurfaceFormatKHR :=
    if inst.CheckExtensionEnabled VK_KHR_GET_SURFACE_CAPABILITIES_2_EXTENSION_NAME then
      surface.surf_formats2.map (fun format => format.surfaceFormat)
    else surface.surf_formats
  (if t = OutputType.json_full then [Call.ObjectStart (cstr "Formats")]
    else [Call.ArrayStart (cstr "Formats") formats.length]) ++
    indexedLoop (fun format => X.DumpVkSurfaceFormatKHR t (cstr "SurfaceFormat") format) 0
      formats ++
    (if t = OutputType.json_full then [Call.ObjectEnd] else [Call.ArrayEnd])

def DumpPresentModes (X : Externals) (surface : AppSurface) : List Call :=
  [Call.ArrayStart (cstr "Present Modes") surface.surf_present_modes.length] ++
    surface.surf_present_modes.flatMap (fun mode =>
      [Call.SetAsType, Call.PrintString (X.VkPresentModeKHRString mode)]) ++
    [Call.ArrayEnd]

def DumpSurfaceCapabilities (X : Externals) (t : OutputType) (inst : AppInstance) (gpu : AppGpu)
    (surface : AppSurface) : List Call :=
  let surf_cap := surface.surface_capabilities
  [Call.SetSubHeader] ++
    X.DumpVkSurfaceCapabilitiesKHR t (cstr "VkSurfaceCapabilitiesKHR") surf_cap ++
    [Call.SetSubHeader, Call.ObjectStart (cstr "VkSurfaceCapabilities2EXT")] ++
    X.DumpVkSurfaceCounterFlagsEXT t (cstr "supportedSurfaceCounters")
      surface.surface_capabilities2_ext.supportedSurfaceCounters ++
    [Call.ObjectEnd] ++
    X.chain_iterator_surface_capabilities2 t inst gpu surface.surface_capabilities2_khr.pNext
      inst.vk_version

/-- The first two tests of `DumpSurface` both read `surface_types.size () == 1`,
so the second branch is never taken. -/
def DumpSurface (X : Externals) (t : OutputType) (inst : AppInstance) (gpu : AppGpu)
    (surface : AppSurface) (surface_types : List CStr) : List Call :=
  [Call.ObjectStart (cstr "GPU id : " ++ X.DecorateAsValue t (to_string gpu.id) ++ cstr " (" ++
      gpu.props.deviceName ++ cstr ")")] ++
    (if surface_types.length = 1 then
      [Call.SetAsType,
        Call.PrintKeyValue (cstr "Surface type") (Value.text (cstr "No type found")) 0 []]
    else if surface_types.length = 1 then
      [Call.SetAsType,
        Call.PrintKeyValue (cstr "Surface type") (Value.text surface.surface_extension.name) 0 []]
    else
      [Call.ArrayStart (cstr "Surface types") surface_types.length] ++
        surface_types.map (fun name => Call.PrintString name) ++
        [Call.ArrayEnd]) ++
    DumpSurfaceFormats X t inst surface ++
    DumpPresentModes X surface ++
    DumpSurfaceCapabilities X t inst gpu surface ++
    [Call.ObjectEnd, Call.AddNewline]

/-- An element of a `std::vector<std::unique_ptr<T>>`: its position in the
vector, standing for the address of the object, and the object. -/
abbrev Ptr (α : Type) := Nat × α

structure SurfaceTypeGroup where
  surface : Ptr AppSurface
  gpu : Ptr AppGpu
  surface_types : List CStr

/-- The `operator==` on `AppSurface` of the source.  The member comparisons it
uses are declared in a header; they are taken as structural equality. -/
def appSurfaceEq (a b : AppSurface) : Bool :=
  decide (a.surf_present_modes = b.surf_present_modes) &&
  decide (a.surf_formats = b.surf_formats) &&
  decide (a.surf_formats2 = b.surf_formats2) &&
  decide (a.surface_capabilities = b.surface_capabilities) &&
  decide (a.surface_capabilities2_khr = b.surface_capabilities2_khr) &&
  decide (a.surface_capabilities2_ext = b.surface_capabilities2_ext)

/-- The test of the scan: `it->gpu == gpu.get () && *(it->surface) == *(surface.get ())`. -/
def groupMatches (surface : Ptr AppSurface) (gpu : Ptr AppGpu) (it : SurfaceTypeGroup) : Bool :=
  decide (it.gpu.1 = gpu.1) && appSurfaceEq it.surface.2 surface.2

/-- The scan over `surface_list`: the position of the first matching group,
`none` when `exists` stays `surface_list.end ()`. -/
def findGroup (surface : Ptr AppSurface) (gpu : Ptr AppGpu) :
    List SurfaceTypeGroup → Option Nat
  | [] => none
  | it :: rest =>
    if groupMatches surface gpu it then some 0
    else (findGroup surface gpu rest).map (fun k => k + 1)

/-- The update `exists->surface_types.insert (name)` at position `k`. -/
def insertTypeAt (name : CStr) : Nat → List SurfaceTypeGroup → List SurfaceTypeGroup
  | _, [] => []
  | 0, g :: rest => { g with surface_types := setInsert name g.surface_types } :: rest
  | k + 1, g :: rest => g :: insertTypeAt name k rest

/-- The body of the inner loop of `DumpPresentableSurfaces` for one surface and
one device. -/
def groupStep (surface_list : List SurfaceTypeGroup) (surface : Ptr AppSurface)
    (gpu : Ptr AppGpu) : List SurfaceTypeGroup :=
  match findGroup surface gpu surface_list with
  | some k => insertTypeAt surface.2.surface_extension.name k surface_list
  | none =>
    surface_list ++
      [{ surface := surface, gpu := gpu, surface_types := [surface.2.surface_extension.name] }]

/-- The grouping loops of `DumpPresentableSurfaces`, continued from a given
`surface_list`: surfaces outermost, devices innermost. -/
def groupLoop (gpus : List (Ptr AppGpu)) :
    List SurfaceTypeGroup → List (Ptr AppSurface) → List SurfaceTypeGroup
  | surface_list, [] => surface_list
  | surface_list, surface :: rest =>
    groupLoop gpus (gpus.foldl (fun acc gpu => groupStep acc surface gpu) surface_list) rest

/-- The `surface_list` that `DumpPresentableSurfaces` builds. -/
def surfaceGroups (gpus : List AppGpu) (surfaces : List AppSurface) : List SurfaceTypeGroup :=
  groupLoop gpus.enum [] surfaces.enum

def DumpPresentableSurfaces (X : Externals) (t : OutputType) (inst : AppInstance)
    (gpus : List AppGpu) (surfaces : List AppSurface) : List Call :=
  let surface_list := surfaceGroups gpus surfaces
  [Call.SetHeader, Call.ObjectStart (cstr "Presentable Surfaces"), Call.IndentDecrease] ++
    surface_list.flatMap (fun group =>
      DumpSurface X t inst group.gpu.2 group.surface.2 group.surface_types) ++
    [Call.IndentIncrease, Call.ObjectEnd, Call.AddNewline]

/-! ## Device groups -/

/-- The label `deviceName + " (ID: " + p.DecorateAsValue (std::to_string (id)) + ")"`. -/
def deviceLabel (X : Externals) (t : OutputType) (deviceName : CStr) (id : Nat) : CStr :=
  deviceName ++ cstr " (ID: " ++ X.DecorateAsValue t (to_string id) ++ cstr ")"

/-- The loop over `group_props` that prints the devices of a group, with its
counter `id`. -/
def physicalDevicesLoop (X : Externals) (t : OutputType) : Nat → List CStr → List Call
  | _, [] => []
  | id, deviceName :: rest =>
    Call.PrintString (deviceLabel X t deviceName id) :: physicalDevicesLoop X t (id + 1) rest

/-- The value of `uint32_t mask = 1 << j`, the shift taken in 32 bits. -/
def presentMaskBit (j : Nat) : Nat := (1 <<< j) % 2 ^ 32

/-- The body of the loop over `j` in `DumpGroups`, for the device `i` of the group. -/
def presentEntry (X : Externals) (t : OutputType) (group : DeviceGroup) (i j : Nat) : List Call :=
  let mask := presentMaskBit j
  if (group.group_capabilities.2.presentMask.getD i 0) &&& mask ≠ 0 then
    [Call.PrintString (deviceLabel X t (group.group_props.getD j []) j)]
  else []

/-- The body of the loop over `i` in `DumpGroups`: the object of device `i`
with its array of presentable devices. -/
def presentRow (X : Externals) (t : OutputType) (group : DeviceGroup) (i : Nat) : List Call :=
  [Call.ObjectStart (deviceLabel X t (group.group_props.getD i []) i),
    Call.ArrayStart (cstr "Can present images from the following devices")
      group.physicalDeviceCount] ++
    forRange (presentEntry X t group i) 0 group.physicalDeviceCount ++
    [Call.ArrayEnd, Call.ObjectEnd]

/-- The body of the loop over the groups in `DumpGroups`. -/
def dumpGroup (X : Externals) (t : OutputType) (group_id : Nat) (group : DeviceGroup) :
    List Call :=
  [Call.ObjectStart (cstr "Group " ++ to_string group_id),
    Call.ObjectStart (cstr "Properties"),
    Call.ArrayStart (cstr "physicalDevices") group.physicalDeviceCount] ++
    physicalDevicesLoop X t 0 group.group_props ++
    [Call.ArrayEnd,
      Call.PrintKeyValue (cstr "subsetAllocation") (Value.num group.subsetAllocation) 0 [],
      Call.ObjectEnd, Call.AddNewline] ++
    (if group.group_capabilities.1 = false then
      [Call.PrintElement (Value.text (cstr
        "Group does not support VK_KHR_device_group, skipping printing present capabilities"))]
    else
      [Call.ObjectStart (cstr "Present Capabilities")] ++
        forRange (presentRow X t group) 0 group.physicalDeviceCount ++
        X.DumpVkDeviceGroupPresentModeFlagsKHR t (cstr "Present modes")
          group.group_capabilities.2.modes ++
        [Call.ObjectEnd]) ++
    [Call.ObjectEnd, Call.AddNewline]

/-- The loop over the groups, with its counter `group_id`. -/
def deviceGroupsLoop (X : Externals) (t : OutputType) : Nat → List DeviceGroup → List Call
  | _, [] => []
  | group_id, group :: rest =>
    dumpGroup X t group_id group ++ deviceGroupsLoop X t (group_id + 1) rest

def DumpGroups (X : Externals) (t : OutputType) (inst : AppInstance) : List Call :=
  if inst.CheckExtensionEnabled VK_KHR_DEVICE_GROUP_CREATION_EXTENSION_NAME then
    let groups := inst.GetGroups
    if groups.length = 0 then
      [Call.SetHeader, Call.ObjectStart (cstr "Groups"),
        Call.PrintElement (Value.text (cstr "No Device Groups Found")),
        Call.ObjectEnd, Call.AddNewline]
    else
      [Call.SetHeader, Call.ObjectStart (cstr "Device Groups"), Call.IndentDecrease] ++
        deviceGroupsLoop X t 0 groups ++
        [Call.IndentIncrease, Call.ObjectEnd, Call.AddNewline]
  else []

/-! ## Per-device sections -/

def GpuDumpProps (X : Externals) (t : OutputType) (gpu : AppGpu) : List Call :=
  let props := gpu.GetDeviceProperties
  let props2_enabled :=
    gpu.inst.CheckExtensionEnabled VK_KHR_GET_PHYSICAL_DEVICE_PROPERTIES_2_EXTENSION_NAME
  [Call.SetSubHeader, Call.ObjectStart (cstr "VkPhysicalDeviceProperties"),
    Call.PrintKeyValue (cstr "apiVersion") (Value.num props.apiVersion) 14
      (X.VkVersionString props.apiVersion),
    Call.PrintKeyValue (cstr "driverVersion") (Value.num props.driverVersion) 14
      (X.to_hex_str props.driverVersion)] ++
    (if t = OutputType.json then
      [Call.PrintKeyValue (cstr "vendorID") (Value.num props.vendorID) 14 [],
        Call.PrintKeyValue (cstr "deviceID") (Value.num props.deviceID) 14 [],
        Call.PrintKeyValue (cstr "deviceType") (Value.num props.deviceType) 14 []]
    else
      [Call.PrintKeyString (cstr "vendorID") (X.to_hex_str props.vendorID) 14,
        Call.PrintKeyString (cstr "deviceID") (X.to_hex_str props.deviceID) 14,
        Call.PrintKeyString (cstr "deviceType") (X.VkPhysicalDeviceTypeString props.deviceType)
          14]) ++
    [Call.PrintKeyString (cstr "deviceName") props.deviceName 14] ++
    (if t = OutputType.json ∨ t = OutputType.json_full then
      [Call.ArrayStart (cstr "pipelineCacheUUID") VK_UUID_SIZE] ++
        forRange (fun i => [Call.PrintElement (Value.num (props.pipelineCacheUUID.getD i 0))])
          0 VK_UUID_SIZE ++
        [Call.ArrayEnd]
    else []) ++
    [Call.AddNewline] ++
    (if t ≠ OutputType.json then [Call.ObjectEnd] else []) ++
    X.DumpVkPhysicalDeviceLimits t (cstr "VkPhysicalDeviceLimits")
      (if props2_enabled then gpu.props2.properties.limits else gpu.props.limits) ++
    [Call.AddNewline] ++
    X.DumpVkPhysicalDeviceSparseProperties t (cstr "VkPhysicalDeviceSparseProperties")
      (if props2_enabled then gpu.props2.properties.sparseProperties
        else gpu.props.sparseProperties) ++
    [Call.AddNewline] ++
    (if t = OutputType.json then [Call.ObjectEnd] else []) ++
    (if t ≠ OutputType.json then
      (if props2_enabled then
        X.chain_iterator_phys_device_props2 t gpu.inst gpu gpu.props2.pNext gpu.inst.vk_version
      else [])
    else []) ++
    [Call.AddNewline]

/-- The loop of `GpuDumpQueueProps` that finds the longest surface name. -/
def surfaceNameWidth : Nat → List SurfaceExtension → Nat
  | width, [] => width
  | width, surface :: rest =>
    surfaceNameWidth (if surface.name.length > width then surface.name.length else width) rest

/-- The literal `"true"` or `"false"` chosen by a conditional expression. -/
def boolText (b : Bool) : CStr := if b then cstr "true" else cstr "false"

def GpuDumpQueueProps (X : Externals) (t : OutputType) (surfaces : List SurfaceExtension)
    (queue : AppQueueFamilyProperties) : List Call :=
  [Call.SetHeader, Call.SetElementIndex queue.queue_index,
    Call.ObjectStart (cstr "VkQueueFamilyProperties")] ++
    (if t = OutputType.json ∨ t = OutputType.json_full then
      X.DumpVkExtent3D t (cstr "minImageTransferGranularity")
        queue.props.minImageTransferGranularity
    else
      [Call.PrintKeyValue (cstr "minImageTransferGranularity")
        (Value.extent queue.props.minImageTransferGranularity.width
          queue.props.minImageTransferGranularity.height
          queue.props.minImageTransferGranularity.depth) 27 []]) ++
    [Call.PrintKeyValue (cstr "queueCount") (Value.num queue.props.queueCount) 27 []] ++
    (if t = OutputType.json then
      [Call.PrintKeyValue (cstr "queueFlags") (Value.num queue.props.queueFlags) 27 []]
    else
      [Call.PrintKeyString (cstr "queueFlags") (X.VkQueueFlagsString queue.props.queueFlags) 27]) ++
    [Call.PrintKeyValue (cstr "timestampValidBits") (Value.num queue.props.timestampValidBits)
      27 []] ++
    (if t = OutputType.text ∨ t = OutputType.html ∨ t = OutputType.json_full then
      (if queue.is_present_platform_agnostic then
        [Call.PrintKeyString (cstr "present support") (boolText queue.platforms_support_present) 0]
      else
        let width := surfaceNameWidth 0 surfaces
        [Call.ObjectStart (cstr "present support")] ++
          surfaces.map (fun surface =>
            Call.PrintKeyString surface.name (boolText surface.supports_present) width) ++
          [Call.ObjectEnd])
    else []) ++
    [Call.ObjectEnd, Call.AddNewline]

/-- The function `append_human_readible`.  `NumToNiceStr` formats a `double`
and is taken from `Externals`. -/
def append_human_readible (X : Externals) (memory : Nat) : CStr :=
  to_string memory ++ cstr " (" ++ X.to_hex_str memory ++ cstr ") (" ++ X.NumToNiceStr memory ++
    cstr ")"

/-- The value of `const uint32_t memtype_bit = 1U << i`. -/
def memtypeBit (i : Nat) : Nat := (1 <<< i) % 2 ^ 32

/-- The value of `regular_compatible` for one format and one memory type bit. -/
def regularCompatible (image_support : MemImageSupport) (memtype_bit : Nat) : Bool :=
  image_support.regular_supported && decide (image_support.regular_memtypes &&& memtype_bit ≠ 0)

/-- The value of `sparse_compatible`. -/
def sparseCompatible (image_support : MemImageSupport) (memtype_bit : Nat) : Bool :=
  image_support.sparse_supported && decide (image_support.sparse_memtypes &&& memtype_bit ≠ 0)

/-- The value of `transient_compatible`. -/
def transientCompatible (image_support : MemImageSupport) (memtype_bit : Nat) : Bool :=
  image_support.transient_supported &&
    decide (image_support.transient_memtypes &&& memtype_bit ≠ 0)

/-- The text the `if` chain of `GpuDumpMemoryProps` appends behind the name of
a listed format. -/
def usableAnnotation (image_support : MemImageSupport) (memtype_bit : Nat) : CStr :=
  let regular_compatible := regularCompatible image_support memtype_bit
  let sparse_compatible := sparseCompatible image_support memtype_bit
  let transient_compatible := transientCompatible image_support memtype_bit
  if regular_compatible && !sparse_compatible && !transient_compatible &&
      image_support.sparse_supported && image_support.transient_supported then
    cstr "(non-sparse, non-transient)"
  else if regular_compatible && !sparse_compatible && image_support.sparse_supported then
    (if image_support.sparse_supported then cstr "(non-sparse)" else [])
  else if regular_compatible && !transient_compatible && image_support.transient_supported then
    (if image_support.transient_supported then cstr "(non-transient)" else [])
  else if !regular_compatible && sparse_compatible && !transient_compatible &&
      image_support.sparse_supported then
    (if image_support.sparse_supported then cstr "(sparse only)" else [])
  else if !regular_compatible && !sparse_compatible && transient_compatible &&
      image_support.transient_supported then
    (if image_support.transient_supported then cstr "(transient only)" else [])
  else if !regular_compatible && sparse_compatible && transient_compatible &&
      image_support.sparse_supported && image_support.transient_supported then
    cstr "(sparse and transient only)"
  else []

/-- The name a listed format is given: `"color images"` at index 0, else its
`VkFormatString`. -/
def usableName (X : Externals) (fmt_i : Nat) (image_support : MemImageSupport) : CStr :=
  if fmt_i = 0 then cstr "color images" else X.VkFormatString image_support.format

/-- The loop over `fmt_i` in `GpuDumpMemoryProps`, with its state `usable`
and `first`; the result is the final `usable`. -/
def usableLoop (X : Externals) (memtype_bit : Nat) :
    Nat → List MemImageSupport → CStr → Bool → CStr
  | _, [], usable, _ => usable
  | fmt_i, image_support :: rest, usable, first =>
    if regularCompatible image_support memtype_bit || sparseCompatible image_support memtype_bit ||
        transientCompatible image_support memtype_bit then
      let usable1 := if !first then usable ++ cstr ", " else usable
      let usable2 := usable1 ++ usableName X fmt_i image_support
      let usable3 := usable2 ++ usableAnnotation image_support memtype_bit
      usableLoop X memtype_bit (fmt_i + 1) rest usable3 false
    else usableLoop X memtype_bit (fmt_i + 1) rest usable first

/-- The string `usable` that is printed for one tiling mode. -/
def usableString (X : Externals) (memtype_bit : Nat) (tiling : Nat)
    (formats : List MemImageSupport) : CStr :=
  let usable0 := X.VkImageTilingString tiling ++ cstr ": "
  let orig_usable_str_size := usable0.length
  let usable := usableLoop X memtype_bit 0 formats usable0 true
  if usable.length = orig_usable_str_size then usable ++ cstr "None" else usable

/-- The loop over `tiling`, entered at the given tiling value with the
remaining elements of `mem_type_res_support.image`. -/
def tilingLoop (X : Externals) (memtype_bit : Nat) :
    Nat → List (List MemImageSupport) → List Call
  | _, [] => []
  | tiling, formats :: rest =>
    Call.PrintString (usableString X memtype_bit tiling formats) ::
      tilingLoop X memtype_bit (tiling + 1) rest

/-- The body of the loop over the memory heaps. -/
def memoryHeapEntry (X : Externals) (t : OutputType) (gpu : AppGpu) (i : Nat) : List Call :=
  let heap := gpu.memory_props.memoryHeaps.getD i { size := 0, flags := 0 }
  [Call.SetElementIndex i, Call.ObjectStart (cstr "memoryHeaps")] ++
    (if t = OutputType.json then
      [Call.PrintKeyValue (cstr "flags") (Value.num heap.flags) 0 [],
        Call.PrintKeyValue (cstr "size") (Value.num heap.size) 0 []]
    else
      [Call.PrintKeyString (cstr "size") (append_human_readible X heap.size) 6,
        Call.PrintKeyString (cstr "budget") (append_human_readible X (gpu.heapBudget.getD i 0)) 6,
        Call.PrintKeyString (cstr "usage") (append_human_readible X (gpu.heapUsage.getD i 0)) 6] ++
        X.DumpVkMemoryHeapFlags t (cstr "flags") heap.flags 6) ++
    [Call.ObjectEnd]

/-- The body of the loop over the memory types. -/
def memoryTypeEntry (X : Externals) (t : OutputType) (gpu : AppGpu) (i : Nat) : List Call :=
  let memoryType := gpu.memory_props.memoryTypes.getD i { propertyFlags := 0, heapIndex := 0 }
  [Call.SetElementIndex i, Call.ObjectStart (cstr "memoryTypes"),
    Call.PrintKeyValue (cstr "heapIndex") (Value.num memoryType.heapIndex) 13 []] ++
    (if t = OutputType.json then
      [Call.PrintKeyValue (cstr "propertyFlags") (Value.num memoryType.propertyFlags) 13 []]
    else
      let flags := memoryType.propertyFlags
      X.DumpVkMemoryPropertyFlags t (cstr "propertyFlags = " ++ X.to_hex_str flags) flags ++
        [Call.ArrayStart (cstr "usable for") 0] ++
        tilingLoop X (memtypeBit i) VK_IMAGE_TILING_OPTIMAL
          (gpu.mem_type_res_support_image.drop VK_IMAGE_TILING_OPTIMAL) ++
        [Call.ArrayEnd]) ++
    [Call.ObjectEnd]

def GpuDumpMemoryProps (X : Externals) (t : OutputType) (gpu : AppGpu) : List Call :=
  [Call.SetHeader, Call.ObjectStart (cstr "VkPhysicalDeviceMemoryProperties"),
    Call.IndentDecrease] ++
    (if t = OutputType.json_full then [Call.ObjectStart (cstr "memoryHeaps")]
      else [Call.ArrayStart (cstr "memoryHeaps") gpu.memory_props.memoryHeapCount]) ++
    forRange (memoryHeapEntry X t gpu) 0 gpu.memory_props.memoryHeapCount ++
    (if t = OutputType.json_full then [Call.ObjectEnd, Call.ObjectStart (cstr "memoryTypes")]
      else
        [Call.ArrayEnd,
          Call.ArrayStart (cstr "memoryTypes") gpu.memory_props.memoryTypeCount]) ++
    forRange (memoryTypeEntry X t gpu) 0 gpu.memory_props.memoryTypeCount ++
    (if t = OutputType.json_full then [Call.ObjectEnd] else [Call.ArrayEnd]) ++
    [Call.IndentIncrease, Call.ObjectEnd, Call.AddNewline]

def GpuDumpFeatures (X : Externals) (t : OutputType) (gpu : AppGpu) : List Call :=
  [Call.SetHeader] ++
    X.DumpVkPhysicalDeviceFeatures t (cstr "VkPhysicalDeviceFeatures") gpu.features ++
    [Call.AddNewline] ++
    (if t ≠ OutputType.json then
      (if gpu.inst.CheckExtensionEnabled VK_KHR_GET_PHYSICAL_DEVICE_PROPERTIES_2_EXTENSION_NAME then
        X.chain_iterator_phys_device_features2 t gpu gpu.features2_pNext gpu.inst.vk_version
      else [])
    else [])

def GpuDumpFormatProperty (X : Externals) (t : OutputType) (fmt : Nat)
    (prop : VkFormatProperties) : List Call :=
  (if t = OutputType.html ∨ t = OutputType.text then
    (if t = OutputType.html then [Call.SetTitleAsType, Call.ObjectStart (X.VkFormatString fmt)]
      else if t = OutputType.text then [Call.ObjectStart (cstr "Properties")]
      else []) ++
      [Call.SetOpenDetails] ++
      X.DumpVkFormatFeatureFlags t (cstr "linearTiling") prop.linearTilingFeatures ++
      [Call.SetOpenDetails] ++
      X.DumpVkFormatFeatureFlags t (cstr "optimalTiling") prop.optimalTilingFeatures ++
      [Call.SetOpenDetails] ++
      X.DumpVkFormatFeatureFlags t (cstr "bufferFeatures") prop.bufferFeatures
  else if t = OutputType.json then
    [Call.ObjectStart [],
      Call.PrintKeyValue (cstr "formatID") (Value.num fmt) 0 [],
      Call.PrintKeyValue (cstr "linearTilingFeatures") (Value.num prop.linearTilingFeatures) 0 [],
      Call.PrintKeyValue (cstr "optimalTilingFeatures") (Value.num prop.optimalTilingFeatures) 0 [],
      Call.PrintKeyValue (cstr "bufferFeatures") (Value.num prop.bufferFeatures) 0 []]
  else if t = OutputType.json_full then
    [Call.ObjectStart (X.VkFormatString fmt)] ++
      X.DumpVkFormatFeatureFlags t (cstr "linearTiling") prop.linearTilingFeatures ++
      X.DumpVkFormatFeatureFlags t (cstr "optimalTiling") prop.optimalTilingFeatures ++
      X.DumpVkFormatFeatureFlags t (cstr "bufferFeatures") prop.bufferFeatures
  else []) ++
    [Call.ObjectEnd]

def GpuDumpToolingInfo (X : Externals) (t : OutputType) (gpu : AppGpu) : List Call :=
  let tools := gpu.GetToolingInfo
  if tools.length > 0 then
    [Call.SetSubHeader, Call.ObjectStart (cstr "Tooling Info")] ++
      tools.flatMap (fun tool => X.DumpVkPhysicalDeviceToolPropertiesEXT t tool.name tool) ++
      [Call.ObjectEnd]
  else []

/-- The calls that print a list of format names, `SetAsType ().PrintString (...)` each. -/
def formatNames (X : Externals) (formats : List Nat) : List Call :=
  formats.flatMap (fun fmt => [Call.SetAsType, Call.PrintString (X.VkFormatString fmt)])

/-- The loop over `fmtPropMap` in the text branch of `GpuDevDump`, with its
state `counter` and `unsupported_formats`; the result is the calls made and the
final `unsupported_formats`. -/
def formatGroupLoop (X : Externals) (t : OutputType) :
    Nat → List Nat → List (PropFlags × List Nat) → List Call × List Nat
  | _, unsupported_formats, [] => ([], unsupported_formats)
  | counter, unsupported_formats, prop :: rest =>
    let props : VkFormatProperties :=
      { linearTilingFeatures := prop.1.linear, optimalTilingFeatures := prop.1.optimal,
        bufferFeatures := prop.1.buffer }
    if props.linearTilingFeatures = 0 ∧ props.optimalTilingFeatures = 0 ∧
        props.bufferFeatures = 0 then
      formatGroupLoop X t counter prop.2 rest
    else
      let later := formatGroupLoop X t (counter + 1) unsupported_formats rest
      ([Call.SetElementIndex counter, Call.ObjectStart (cstr "Common Format Group"),
          Call.IndentDecrease, Call.ArrayStart (cstr "Formats") prop.2.length] ++
        formatNames X prop.2 ++
        [Call.ArrayEnd] ++
        GpuDumpFormatProperty X t VK_FORMAT_UNDEFINED props ++
        [Call.IndentIncrease, Call.ObjectEnd, Call.AddNewline] ++ later.1, later.2)

/-- The body of the loop over `fmt_counter` in `GpuDevDump`. -/
def formatEntry (X : Externals) (t : OutputType) (gpu : AppGpu) (fmt : Nat) : List Call :=
  let props := gpu.vkGetPhysicalDeviceFormatProperties fmt
  if t = OutputType.json ∧
      (decide (props.linearTilingFeatures ≠ 0) || decide (props.optimalTilingFeatures ≠ 0) ||
        decide (props.bufferFeatures ≠ 0)) = false then
    []
  else GpuDumpFormatProperty X t fmt props

def GpuDevDump (X : Externals) (t : OutputType) (gpu : AppGpu) : List Call :=
  (if t = OutputType.json then [Call.ArrayStart (cstr "ArrayOfVkFormatProperties") 0]
    else [Call.SetHeader, Call.ObjectStart (cstr "Format Properties"), Call.IndentDecrease]) ++
    (if t = OutputType.text then
      let groups := formatGroupLoop X t 0 [] gpu.FormatPropMap
      groups.1 ++
        [Call.ArrayStart (cstr "Unsupported Formats") groups.2.length] ++
        formatNames X groups.2 ++
        [Call.ArrayEnd]
    else
      gpu.supported_format_ranges.flatMap (fun format =>
        if gpu.FormatRangeSupported format then
          forRange (formatEntry X t gpu) format.first_format
            (format.last_format + 1 - format.first_format)
        else [])) ++
    (if t = OutputType.json then [Call.ArrayEnd] else [Call.IndentIncrease, Call.ObjectEnd]) ++
    [Call.AddNewline]

/-! ## `DumpGpu`, `DumpGpuJson` and the printer loop of `main`

The three functions that sequence the sections are written as lists of steps:
a step is the calls of one statement, tagged with the section when the
statement is the call of a section's dump function and untagged when the
statement calls the printer directly.  The call sequence of the function is
the concatenation of its steps. -/

/-- The sections of one device. -/
inductive DeviceSection
  | Properties
  | Extensions
  | QueueFamilies
  | Memory
  | Features
  | Tooling
  | FormatProperties
deriving DecidableEq, Repr

/-- The sections of a document; a device section carries the position of the
device in `gpus`. -/
inductive DocSection
  | InstanceExtensions
  | Layers
  | PresentableSurfaces
  | DeviceGroups
  | Device (gpu : Nat) (part : DeviceSection)
deriving DecidableEq, Repr

/-- The loop over the queue families in `DumpGpu` and `DumpGpuJson`. -/
def queueFamiliesLoop (X : Externals) (t : OutputType) (gpu : AppGpu) : List Call :=
  forRange (fun i =>
    let queue_props := gpu.queue_family i
    GpuDumpQueueProps X t queue_props.surfaces queue_props) 0 gpu.queue_count

def DumpGpuSteps (X : Externals) (sort : SortFn) (t : OutputType) (gpu : AppGpu)
    (show_formats : Bool) : List (Option DeviceSection × List Call) :=
  [(none, [Call.ObjectStart (cstr "GPU" ++ to_string gpu.id), Call.IndentDecrease]),
    (some DeviceSection.Properties, GpuDumpProps X t gpu),
    (some DeviceSection.Extensions, DumpExtensions sort (cstr "Device") gpu.device_extensions),
    (none, [Call.AddNewline]),
    (some DeviceSection.QueueFamilies,
      [Call.SetSubHeader, Call.ObjectStart (cstr "VkQueueFamilyProperties")] ++
        queueFamiliesLoop X t gpu ++ [Call.ObjectEnd]),
    (some DeviceSection.Memory, GpuDumpMemoryProps X t gpu),
    (some DeviceSection.Features, GpuDumpFeatures X t gpu),
    (some DeviceSection.Tooling, GpuDumpToolingInfo X t gpu)] ++
    (if t ≠ OutputType.text ∨ show_formats = true then
      [(some DeviceSection.FormatProperties, GpuDevDump X t gpu)]
    else []) ++
    [(none, [Call.IndentIncrease, Call.ObjectEnd, Call.AddNewline])]

/-- The calls of a list of steps, in order. -/
def stepCalls {σ : Type} (steps : List (Option σ × List Call)) : List Call :=
  steps.flatMap (fun step => step.2)

/-- The sections a list of steps enters, in order. -/
def stepSections {σ : Type} (steps : List (Option σ × List Call)) : List σ :=
  steps.filterMap (fun step => step.1)

def DumpGpu (X : Externals) (sort : SortFn) (t : OutputType) (gpu : AppGpu)
    (show_formats : Bool) : List Call :=
  stepCalls (DumpGpuSteps X sort t gpu show_formats)

def DumpGpuJsonSteps (X : Externals) (t : OutputType) (gpu : AppGpu) :
    List (Option DeviceSection × List Call) :=
  [(some DeviceSection.Properties, GpuDumpProps X t gpu),
    (some DeviceSection.QueueFamilies,
      [Call.ArrayStart (cstr "ArrayOfVkQueueFamilyProperties") 0] ++
        queueFamiliesLoop X t gpu ++ [Call.ArrayEnd]),
    (some DeviceSection.Memory, GpuDumpMemoryProps X t gpu),
    (some DeviceSection.Features, GpuDumpFeatures X t gpu),
    (some DeviceSection.FormatProperties, GpuDevDump X t gpu)]

def DumpGpuJson (X : Externals) (t : OutputType) (gpu : AppGpu) : List Call :=
  stepCalls (DumpGpuJsonSteps X t gpu)

/-- The steps of a device, tagged with the position of the device. -/
def deviceSteps (i : Nat) (steps : List (Option DeviceSection × List Call)) :
    List (Option DocSection × List Call) :=
  steps.map (fun step => (step.1.map (fun part => DocSection.Device i part), step.2))

/-- The body of the loop `for (auto &p : printers)` of `main` for a printer of
type `t`.  `windowing` tells whether one of the `VK_USE_PLATFORM_*` macros of
the two `#if` lines is defined.  `gpus.at (selected_gpu)` throws when the index
is out of range; the pass then has no result (`none`). -/
def printerPassSteps (X : Externals) (sort : SortFn) (windowing : Bool) (t : OutputType)
    (inst : AppInstance) (gpus : List AppGpu) (surfaces : List AppSurface)
    (selected_gpu : Nat) (show_formats : Bool) : Option (List (Option DocSection × List Call)) :=
  if t = OutputType.json then
    match gpus[selected_gpu]? with
    | none => none
    | some gpu =>
      some ([(some DocSection.Layers, DumpLayers X sort t inst.global_layers gpus)] ++
        deviceSteps selected_gpu (DumpGpuJsonSteps X t gpu))
  else
    some ([(none, [Call.SetHeader]),
        (some DocSection.InstanceExtensions,
          DumpExtensions sort (cstr "Instance") inst.global_extensions),
        (none, [Call.AddNewline]),
        (some DocSection.Layers, DumpLayers X sort t inst.global_layers gpus)] ++
      (if windowing then
        [(some DocSection.PresentableSurfaces, DumpPresentableSurfaces X t inst gpus surfaces)]
      else []) ++
      [(some DocSection.DeviceGroups, DumpGroups X t inst),
        (none, [Call.SetHeader, Call.ObjectStart (cstr "Device Properties and Extensions"),
          Call.IndentDecrease])] ++
      gpus.enum.flatMap (fun gpu => deviceSteps gpu.1 (DumpGpuSteps X sort t gpu.2 show_formats)) ++
      [(none, [Call.IndentIncrease, Call.ObjectEnd])])

/-- The printer calls of one pass of the printer loop of `main`. -/
def printerPass (X : Externals) (sort : SortFn) (windowing : Bool) (t : OutputType)
    (inst : AppInstance) (gpus : List AppGpu) (surfaces : List AppSurface)
    (selected_gpu : Nat) (show_formats : Bool) : Option (List Call) :=
  (printerPassSteps X sort windowing t inst gpus surfaces selected_gpu show_formats).map stepCalls

/-- The sections one pass of the printer loop of `main` enters, in order. -/
def printerPassSections (X : Externals) (sort : SortFn) (windowing : Bool) (t : OutputType)
    (inst : AppInstance) (gpus : List AppGpu) (surfaces : List AppSurface)
    (selected_gpu : Nat) (show_formats : Bool) : Option (List DocSection) :=
  (printerPassSteps X sort windowing t inst gpus surfaces selected_gpu show_formats).map
    stepSections

/-! ## `main`

The model is of a build without `_WIN32`.  What `main` does is recorded as a
list of effects in program order, together with its return value. -/

/-- The four output-mode globals that the argument loop of `main` sets. -/
structure OutputFlags where
  human_readable_output : Bool
  html_output : Bool
  json_output : Bool
  json_full_output : Bool
deriving DecidableEq, Repr

/-- The values the four output-mode globals have when `main` starts.  Their
initialisers stand in `vulkaninfo.h`; they are such that a run without format
flags gives the human-readable document and no other, the case
`human readable only` of the comment above the argument loop. -/
def defaultOutputFlags : OutputFlags where
  human_readable_output := true
  html_output := false
  json_output := false
  json_full_output := false

/-- The state the argument loop of `main` works on: the output-mode globals and
the locals `selected_gpu` and `show_formats`. -/
structure Options where
  flags : OutputFlags
  selected_gpu : Nat
  show_formats : Bool
deriving DecidableEq, Repr

/-- The test `strncmp (a, b, n) == 0`: the two strings agree on their first `n`
bytes, or on all bytes when they end earlier (no byte of a C string is 0). -/
def strncmpEqual (a b : CStr) (n : Nat) : Bool := decide (a.take n = b.take n)

/-- The white-space bytes `isspace` accepts in the C locale. -/
def isspace (c : Nat) : Bool := decide (c = 32) || (decide (9 ≤ c) && decide (c ≤ 13))

/-- The value of the leading decimal digits of a string, continued from `acc`. -/
def digitsValue : Nat → CStr → Nat
  | acc, [] => acc
  | acc, c :: rest => if 48 ≤ c ∧ c ≤ 57 then digitsValue (10 * acc + (c - 48)) rest else acc

/-- The library call `strtol (s, nullptr, 10)` with a 64-bit `long`: white space is
skipped, an optional sign and the decimal digits are read, and a value out of
range is replaced by `LONG_MAX` or `LONG_MIN`. -/
def strtol (s : CStr) : Int :=
  match s.dropWhile isspace with
  | 45 :: digits => max (-(Int.ofNat (digitsValue 0 digits))) (-(2 ^ 63))
  | 43 :: digits => min (Int.ofNat (digitsValue 0 digits)) (2 ^ 63 - 1)
  | digits => min (Int.ofNat (digitsValue 0 digits)) (2 ^ 63 - 1)

/-- The conversion `static_cast<uint32_t>` of a `long`. -/
def castUint32 (v : Int) : Nat := (v % 2 ^ 32).toNat

/-- The body of the argument loop of `main` for one argument; `none` stands for
the two branches that call `print_usage (argv[0])` and return 1. -/
def argStep (o : Options) (arg : CStr) : Option Options :=
  if strcmp arg (cstr "--full-json") = 0 then
    some { o with
      flags := { o.flags with human_readable_output := false, json_full_output := true } }
  else if strncmpEqual (cstr "--json") arg 6 || decide (strcmp arg (cstr "-j") = 0) then
    let selected_gpu :=
      if strlen arg > 7 ∧ strncmpEqual (cstr "--json=") arg 7 = true then
        castUint32 (strtol (arg.drop 7))
      else o.selected_gpu
    some { o with
      selected_gpu := selected_gpu
      flags := { o.flags with human_readable_output := false, json_output := true } }
  else if strcmp arg (cstr "--html") = 0 then
    some { o with
      flags := { o.flags with human_readable_output := false, html_output := true } }
  else if strcmp arg (cstr "--show-formats") = 0 then
    some { o with show_formats := true }
  else if strcmp arg (cstr "--help") = 0 ∨ strcmp arg (cstr "-h") = 0 then none
  else none

/-- The argument loop of `main` over `argv[1] .. argv[argc-1]`. -/
def argLoop : Options → List CStr → Option Options
  | o, [] => some o
  | o, arg :: rest =>
    match argStep o arg with
    | some o1 => argLoop o1 rest
    | none => none

/-- Something `main` does that can be observed from outside. -/
inductive Effect
  | cout (text : CStr)
  | create_window (surface_extension : CStr)
  | create_surface (surface_extension : CStr)
  | new_Printer (type : OutputType)
  | document (type : OutputType) (calls : Option (List Call))
  | AppDestroySurface (surface_extension : CStr)
  | destroy_window (surface_extension : CStr)
deriving DecidableEq, Repr

/-- The statements of `print_usage`, each one write to `std::cout`. -/
def print_usage (argv0 : CStr) : List Effect :=
  [Effect.cout (cstr
      "\nvulkaninfo - Summarize Vulkan information in relation to the current environment.\n\n"),
    Effect.cout (cstr "USAGE: " ++ argv0 ++ cstr " [options]\n\n"),
    Effect.cout (cstr "OPTIONS:\n"),
    Effect.cout (cstr "-h, --help            Print this help.\n"),
    Effect.cout (cstr
      "--html                Produce an html version of vulkaninfo output, saved as\n"),
    Effect.cout (cstr
      "                      \"vulkaninfo.html\" in the directory in which the command is\n"),
    Effect.cout (cstr "                      run.\n"),
    Effect.cout (cstr
      "-j, --json            Produce a json version of vulkaninfo to standard output of the\n"),
    Effect.cout (cstr
      "                      first gpu in the system conforming to the DevSim schema.\n"),
    Effect.cout (cstr
      "--json=<gpu-number>   For a multi-gpu system, a single gpu can be targetted by\n"),
    Effect.cout (cstr
      "                      specifying the gpu-number associated with the gpu of \n"),
    Effect.cout (cstr
      "                      interest. This number can be determined by running\n"),
    Effect.cout (cstr "                      vulkaninfo without any options specified.\n"),
    Effect.cout (cstr
      "--full-json           Produce a json version of all of vulkaninfo to standard output\n"),
    Effect.cout (cstr
      "--show-formats        Display the format properties of each physical device.\n"),
    Effect.cout (cstr
      "                      Note: This option does not affect html or json output;\n"),
    Effect.cout (cstr "                      they will always print format properties.\n\n")]

/-- What `main` finds outside its arguments: the build (`windowing` tells
whether a `VK_USE_PLATFORM_*` macro of the `#if` lines is defined), the initial
output-mode globals, the instance after `SetupWindowExtensions`, the `AppGpu`
built for each physical device, and the `AppSurface` built for a surface
extension and the physical device at a position. -/
structure MainEnv where
  X : Externals
  sort : SortFn
  windowing : Bool
  flags0 : OutputFlags
  inst : AppInstance
  gpus : List AppGpu
  newAppSurface : SurfaceExtension → Nat → AppSurface

/-- The value of `gpus.size () - 1` in `size_t` arithmetic of 64 bits. -/
def sizeMinusOne (size : Nat) : Nat := (size + (2 ^ 64 - 1)) % 2 ^ 64

/-- The line the bounds check of `main` writes. -/
def rangeMessage (selected_gpu size : Nat) : CStr :=
  cstr "The selected gpu (" ++ to_string selected_gpu ++
    cstr ") is not in the valid range of 0 to " ++ to_string (sizeMinusOne size) ++ cstr ".\n"

/-- The loop of `main` that creates a window and a surface per surface
extension (present in a windowing build only). -/
def createSurfaces (env : MainEnv) : List Effect :=
  if env.windowing then
    env.inst.surface_extensions.flatMap (fun surface_extension =>
      [Effect.create_window surface_extension.name,
        Effect.create_surface surface_extension.name])
  else []

/-- The vector `surfaces` that loop fills: one `AppSurface` per surface
extension and physical device. -/
def mainSurfaces (env : MainEnv) : List AppSurface :=
  if env.windowing then
    env.inst.surface_extensions.flatMap (fun surface_extension =>
      (List.range env.gpus.length).map (env.newAppSurface surface_extension))
  else []

/-- The loop at the end of `main` that destroys the surfaces and windows. -/
def destroySurfaces (env : MainEnv) : List Effect :=
  if env.windowing then
    env.inst.surface_extensions.flatMap (fun surface_extension =>
      [Effect.AppDestroySurface surface_extension.name,
        Effect.destroy_window surface_extension.name])
  else []

/-- The output types of the vector `printers`, in the order of the four
`push_back` statements. -/
def mainPrinters (flags : OutputFlags) : List OutputType :=
  (if flags.human_readable_output then [OutputType.text] else []) ++
    (if flags.html_output then [OutputType.html] else []) ++
    (if flags.json_output then [OutputType.json] else []) ++
    (if flags.json_full_output then [OutputType.json_full] else [])

/-- The result of `main`: what it did, in order, and its return value. -/
structure MainResult where
  effects : List Effect
  status : Int
deriving DecidableEq, Repr

/-- The options `main` has after its argument loop, which starts at `argv[1]`
with `selected_gpu = 0` and `show_formats = false`. -/
def mainOptions (flags0 : OutputFlags) (argv : List CStr) : Option Options :=
  argLoop { flags := flags0, selected_gpu := 0, show_formats := false } (argv.drop 1)

/-- The function `main`: the argument loop, the creation of windows and
surfaces, the bounds check of `selected_gpu`, the construction of the printers,
the printer loop (one document per printer) and the destruction of the surfaces
and windows. -/
def main (env : MainEnv) (argv : List CStr) : MainResult :=
  match mainOptions env.flags0 argv with
  | none => { effects := print_usage (argv.headD []), status := 1 }
  | some o =>
    if o.selected_gpu ≥ env.gpus.length then
      { effects := createSurfaces env ++
          [Effect.cout (rangeMessage o.selected_gpu env.gpus.length)],
        status := 0 }
    else
      let printers := mainPrinters o.flags
      { effects := createSurfaces env ++
          printers.map Effect.new_Printer ++
          printers.map (fun t => Effect.document t
            (printerPass env.X env.sort env.windowing t env.inst env.gpus (mainSurfaces env)
              o.selected_gpu o.show_formats)) ++
          destroySurfaces env,
        status := 0 }

/-! ## Sample data -/

/-- A helper that opens and closes one object named after its argument. -/
def sampleObject (name : CStr) : List Call := [Call.ObjectStart name, Call.ObjectEnd]

/-- Externals whose helpers each print one empty object, whose chain iterators
print nothing, and whose string tables give decimal digits (behind
`VK_FORMAT_` for a format). -/
def sampleExternals : Externals where
  DecorateAsType := fun _ s => s
  DecorateAsValue := fun _ s => s
  VkVersionString := to_string
  to_hex_str := to_string
  NumToNiceStr := to_string
  VkPhysicalDeviceTypeString := to_string
  VkQueueFlagsString := to_string
  VkPresentModeKHRString := to_string
  VkImageTilingString := to_string
  VkFormatString := fun fmt => cstr "VK_FORMAT_" ++ to_string fmt
  DumpVkLayerProperties := fun _ n _ => sampleObject n
  DumpVkSurfaceFormatKHR := fun _ n _ => sampleObject n
  DumpVkSurfaceCapabilitiesKHR := fun _ n _ => sampleObject n
  DumpVkSurfaceCounterFlagsEXT := fun _ n _ => sampleObject n
  chain_iterator_surface_capabilities2 := fun _ _ _ _ _ => []
  DumpVkDeviceGroupPresentModeFlagsKHR := fun _ n _ => sampleObject n
  DumpVkPhysicalDeviceLimits := fun _ n _ => sampleObject n
  DumpVkPhysicalDeviceSparseProperties := fun _ n _ => sampleObject n
  chain_iterator_phys_device_props2 := fun _ _ _ _ _ => []
  DumpVkExtent3D := fun _ n _ => sampleObject n
  DumpVkMemoryHeapFlags := fun _ n _ _ => sampleObject n
  DumpVkMemoryPropertyFlags := fun _ n _ => sampleObject n
  DumpVkPhysicalDeviceFeatures := fun _ n _ => sampleObject n
  chain_iterator_phys_device_features2 := fun _ _ _ _ => []
  DumpVkFormatFeatureFlags := fun _ n _ => sampleObject n
  DumpVkPhysicalDeviceToolPropertiesEXT := fun _ n _ => sampleObject n

/-- Two extensions with the same name and different revisions. -/
def sampleExtensions : List VkExtensionProperties :=
  [{ extensionName := cstr "VK_KHR_surface", specVersion := 1 },
    { extensionName := cstr "VK_KHR_surface", specVersion := 2 }]

def sampleLayer : LayerExtensionList where
  layer_properties :=
    { layerName := cstr "VK_LAYER_TEST", specVersion := 1, implementationVersion := 7,
      description := cstr "test layer" }
  extension_properties := []

def sampleGroup : DeviceGroup where
  physicalDeviceCount := 2
  subsetAllocation := 0
  group_props := [cstr "gpu a", cstr "gpu b"]
  group_capabilities := (true, { presentMask := [1, 3], modes := 1 })

def sampleInstance : AppInstance where
  CheckExtensionEnabled := fun _ => true
  vk_version := 0
  global_extensions := sampleExtensions
  global_layers := [sampleLayer]
  surface_extensions := []
  GetGroups := [sampleGroup]

def sampleDeviceProperties : VkPhysicalDeviceProperties where
  apiVersion := 1
  driverVersion := 1
  vendorID := 1
  deviceID := 1
  deviceType := 1
  deviceName := cstr "gpu a"
  pipelineCacheUUID := []
  limits := []
  sparseProperties := []

def sampleQueue : AppQueueFamilyProperties where
  props :=
    { queueFlags := 1, queueCount := 1, timestampValidBits := 0,
      minImageTransferGranularity := { width := 1, height := 1, depth := 1 } }
  queue_index := 0
  is_present_platform_agnostic := true
  platforms_support_present := true
  surfaces := []

/-- A format supported as a regular image for memory types 0 and 1 only. -/
def sampleImageSupport : MemImageSupport where
  regular_supported := true
  sparse_supported := false
  transient_supported := false
  format := 37
  regular_memtypes := 3
  sparse_memtypes := 0
  transient_memtypes := 0

def sampleGpu : AppGpu where
  inst := sampleInstance
  id := 0
  props := sampleDeviceProperties
  props2 := { properties := sampleDeviceProperties, pNext := [] }
  GetDeviceProperties := sampleDeviceProperties
  device_extensions := sampleExtensions
  queue_count := 1
  queue_family := fun _ => sampleQueue
  memory_props :=
    { memoryTypeCount := 1, memoryTypes := [{ propertyFlags := 1, heapIndex := 0 }],
      memoryHeapCount := 1, memoryHeaps := [{ size := 1024, flags := 1 }] }
  heapBudget := [1024]
  heapUsage := [0]
  mem_type_res_support_image := [[sampleImageSupport], [sampleImageSupport]]
  features := []
  features2_pNext := []
  supported_format_ranges := [{ first_format := 0, last_format := 1 }]
  FormatRangeSupported := fun _ => true
  vkGetPhysicalDeviceFormatProperties := fun _ =>
    { linearTilingFeatures := 1, optimalTilingFeatures := 1, bufferFeatures := 0 }
  FormatPropMap := [({ linear := 0, optimal := 0, buffer := 0 }, [0])]
  GetToolingInfo := []
  AppGetPhysicalDeviceLayerExtensions := fun _ => []

def sampleSurface : AppSurface where
  surface_extension := { name := cstr "VK_KHR_xcb_surface", supports_present := true }
  surf_present_modes := [2]
  surf_formats := [{ format := 44, colorSpace := 0 }]
  surf_formats2 := []
  surface_capabilities := []
  surface_capabilities2_khr := { surfaceCapabilities := [], pNext := [] }
  surface_capabilities2_ext := { supportedSurfaceCounters := 0, others := [] }

/-- A group whose capability query reports `VK_KHR_device_group` as unsupported. -/
def sampleUnsupportedGroup : DeviceGroup :=
  { sampleGroup with group_capabilities := (false, { presentMask := [1, 3], modes := 1 }) }

/-- An instance whose first group lacks `VK_KHR_device_group`. -/
def sampleDegradedInstance : AppInstance :=
  { sampleInstance with GetGroups := [sampleUnsupportedGroup, sampleGroup] }

/-- An instance with one surface extension. -/
def sampleWindowInstance : AppInstance :=
  { sampleInstance with
    surface_extensions := [{ name := cstr "VK_KHR_xcb_surface", supports_present := true }] }

/-- A windowing build with one surface extension and one device. -/
def sampleEnv : MainEnv where
  X := sampleExternals
  sort := insertionSort
  windowing := true
  flags0 := defaultOutputFlags
  inst := sampleWindowInstance
  gpus := [sampleGpu]
  newAppSurface := fun surface_extension _ =>
    { sampleSurface with surface_extension := surface_extension }

/-! ## Notions used in the statements -/

/-- The capability set of a surface: the six members `operator==` compares. -/
def capabilitySet (s : AppSurface) :
    List Nat × List VkSurfaceFormatKHR × List VkSurfaceFormat2KHR × Payload ×
      VkSurfaceCapabilities2KHR × VkSurfaceCapabilities2EXT :=
  (s.surf_present_modes, s.surf_formats, s.surf_formats2, s.surface_capabilities,
    s.surface_capabilities2_khr, s.surface_capabilities2_ext)

/-- What the scan of `DumpPresentableSurfaces` compares of a group: the address
of its device and the capability set of its surface. -/
def groupKey (g : SurfaceTypeGroup) :
    Nat × (List Nat × List VkSurfaceFormatKHR × List VkSurfaceFormat2KHR × Payload ×
      VkSurfaceCapabilities2KHR × VkSurfaceCapabilities2EXT) :=
  (g.gpu.1, capabilitySet g.surface.2)

/-- A surface with the capability set of `sampleSurface` from another extension. -/
def sampleSurfaceXlib : AppSurface :=
  { sampleSurface with
    surface_extension := { name := cstr "VK_KHR_xlib_surface", supports_present := true } }

/-- A pair is represented in a group list: some group has its key and lists
its extension name. -/
def Represented (l : List SurfaceTypeGroup)
    (key : Nat × (List Nat × List VkSurfaceFormatKHR × List VkSurfaceFormat2KHR × Payload ×
      VkSurfaceCapabilities2KHR × VkSurfaceCapabilities2EXT)) (name : CStr) : Prop :=
  ∃ g, g ∈ l ∧ groupKey g = key ∧ name ∈ g.surface_types

/-- The test `regular_compatible || sparse_compatible || transient_compatible`
that decides whether a format is listed for a memory type bit. -/
def usableCompatible (memtype_bit : Nat) (image_support : MemImageSupport) : Bool :=
  regularCompatible image_support memtype_bit || sparseCompatible image_support memtype_bit ||
    transientCompatible image_support memtype_bit

/-- The entry of a listed format: its name and the annotation behind it. -/
def usableEntry (X : Externals) (memtype_bit : Nat) (p : Nat × MemImageSupport) : CStr :=
  usableName X p.1 p.2 ++ usableAnnotation p.2 memtype_bit

/-- The entries of the compatible formats, in the order of the format index;
the formats are numbered from `start`. -/
def usableEntries (X : Externals) (memtype_bit : Nat) (start : Nat)
    (formats : List MemImageSupport) : List CStr :=
  ((formats.enumFrom start).filter (fun p => usableCompatible memtype_bit p.2)).map
    (usableEntry X memtype_bit)

/-- A member of a record: a keyed scalar entry or a nested container. -/
inductive Member
  | key (name : CStr)
  | container (name : CStr)
deriving DecidableEq, Repr

/-- The members a call sequence gives to the container that is open at depth
1, the sequence being entered at the given depth: the keys of the entries
printed directly in it and the names of the containers opened directly in it,
in order.  What nested containers hold is not counted. -/
def membersAt : Nat → List Call → List Member
  | _, [] => []
  | depth, Call.ObjectStart name :: rest =>
    if depth = 1 then Member.container name :: membersAt (depth + 1) rest
    else membersAt (depth + 1) rest
  | depth, Call.ArrayStart name _ :: rest =>
    if depth = 1 then Member.container name :: membersAt (depth + 1) rest
    else membersAt (depth + 1) rest
  | depth, Call.ObjectEnd :: rest => membersAt (depth - 1) rest
  | depth, Call.ArrayEnd :: rest => membersAt (depth - 1) rest
  | depth, Call.PrintKeyValue key _ _ _ :: rest =>
    if depth = 1 then Member.key key :: membersAt depth rest else membersAt depth rest
  | depth, Call.PrintKeyString key _ _ :: rest =>
    if depth = 1 then Member.key key :: membersAt depth rest else membersAt depth rest
  | depth, Call.PrintExtension key _ _ :: rest =>
    if depth = 1 then Member.key key :: membersAt depth rest else membersAt depth rest
  | depth, _ :: rest => membersAt depth rest

/-- The members of a record, a call sequence that opens the record's object
first and closes it last. -/
def recordMembers (record : List Call) : List Member := membersAt 0 record

/-- The sections of the device at position `i` in a text, html or json_full
document: the format properties come last and are left out of a text document
unless `show_formats` is set. -/
def deviceSections (t : OutputType) (show_formats : Bool) (i : Nat) : List DocSection :=
  [DocSection.Device i DeviceSection.Properties, DocSection.Device i DeviceSection.Extensions,
    DocSection.Device i DeviceSection.QueueFamilies, DocSection.Device i DeviceSection.Memory,
    DocSection.Device i DeviceSection.Features, DocSection.Device i DeviceSection.Tooling] ++
    (if t ≠ OutputType.text ∨ show_formats = true then
      [DocSection.Device i DeviceSection.FormatProperties]
    else [])

/-- The sections of a text, html or json_full document for `n` devices. -/
def documentSections (windowing : Bool) (t : OutputType) (show_formats : Bool) (n : Nat) :
    List DocSection :=
  [DocSection.InstanceExtensions, DocSection.Layers] ++
    (if windowing then [DocSection.PresentableSurfaces] else []) ++
    [DocSection.DeviceGroups] ++
    (List.range n).flatMap (deviceSections t show_formats)

/-- The sections of a json document for the selected device. -/
def jsonSections (selected_gpu : Nat) : List DocSection :=
  [DocSection.Layers, DocSection.Device selected_gpu DeviceSection.Properties,
    DocSection.Device selected_gpu DeviceSection.QueueFamilies,
    DocSection.Device selected_gpu DeviceSection.Memory,
    DocSection.Device selected_gpu DeviceSection.Features,
    DocSection.Device selected_gpu DeviceSection.FormatProperties]

/-- The place of a device section in the order of `DumpGpu`. -/
def DeviceSection.rank : DeviceSection → Nat
  | DeviceSection.Properties => 0
  | DeviceSection.Extensions => 1
  | DeviceSection.QueueFamilies => 2
  | DeviceSection.Memory => 3
  | DeviceSection.Features => 4
  | DeviceSection.Tooling => 5
  | DeviceSection.FormatProperties => 6

/-- The place of a section in the linear order of a document: the four
instance sections first, then the sections of device 0, of device 1, ... -/
def DocSection.rank : DocSection → Nat
  | DocSection.InstanceExtensions => 0
  | DocSection.Layers => 1
  | DocSection.PresentableSurfaces => 2
  | DocSection.DeviceGroups => 3
  | DocSection.Device gpu part => 4 + 7 * gpu + part.rank

/-! ## Notions used in the statements about `main`, the groups and the layers -/

/-- The output type of the printer an effect constructs, if it constructs one. -/
def Effect.printerType : Effect → Option OutputType
  | Effect.new_Printer t => some t
  | _ => none

/-- The output type of the document an effect emits, if it emits one. -/
def Effect.documentType : Effect → Option OutputType
  | Effect.document t _ => some t
  | _ => none

/-- The text an effect writes to `std::cout` outside the printers, if any. -/
def Effect.coutText : Effect → Option CStr
  | Effect.cout text => some text
  | _ => none

/-- The output types of the printers `main` constructs, in order. -/
def constructedPrinters (r : MainResult) : List OutputType :=
  r.effects.filterMap Effect.printerType

/-- The output types of the documents `main` emits, in order. -/
def emittedDocuments (r : MainResult) : List OutputType :=
  r.effects.filterMap Effect.documentType

/-- The texts `main` itself writes to `std::cout`, in order. -/
def coutTexts (r : MainResult) : List CStr :=
  r.effects.filterMap Effect.coutText

/-- An argument that asks for the json document: `-j`, or one that begins with
`--json`. -/
def isJsonArg (arg : CStr) : Bool :=
  decide (arg = cstr "-j") || decide (arg.take 6 = cstr "--json")

/-- An argument that carries a device index: longer than `--json=` and
beginning with it. -/
def isIndexArg (arg : CStr) : Bool :=
  decide (strlen arg > 7) && decide (arg.take 7 = cstr "--json=")

/-- An argument the loop of `main` accepts. -/
def isAcceptedArg (arg : CStr) : Bool :=
  decide (arg = cstr "--full-json") || isJsonArg arg || decide (arg = cstr "--html") ||
    decide (arg = cstr "--show-formats")

/-- A non-empty string of decimal digits. -/
def isDecimal (s : CStr) : Bool :=
  !s.isEmpty && s.all (fun c => decide (48 ≤ c) && decide (c ≤ 57))

/-- One of the three spellings of the json flag in the usage text: `-j`,
`--json` and `--json=<gpu-number>`. -/
def isJsonOption (arg : CStr) : Bool :=
  decide (arg = cstr "-j") || decide (arg = cstr "--json") ||
    (decide (arg.take 7 = cstr "--json=") && isDecimal (arg.drop 7))

/-- An option of the usage text other than the two help options. -/
def isOutputOption (arg : CStr) : Bool :=
  decide (arg = cstr "--html") || isJsonOption arg || decide (arg = cstr "--full-json") ||
    decide (arg = cstr "--show-formats")

/-- The header the html branch of `DumpLayers` would build if the continuation
line `+", layer version " + p.DecorateAsValue (...)` belonged to the assignment:
the same four parts as the text header, decorated. -/
def layerHeaderHtmlSpec (X : Externals) (props : VkLayerProperties) : CStr :=
  X.DecorateAsType OutputType.html props.layerName ++ cstr " (" ++ props.description ++
    cstr ") Vulkan version " ++
    X.DecorateAsValue OutputType.html (X.VkVersionString props.specVersion) ++
    cstr ", layer version " ++
    X.DecorateAsValue OutputType.html (to_string props.implementationVersion)

/-- The notice `DumpGroups` prints for a group without `VK_KHR_device_group`. -/
def groupNotice : Call :=
  Call.PrintElement (Value.text (cstr
    "Group does not support VK_KHR_device_group, skipping printing present capabilities"))

/-- An extensions object: the object labelled `label + " Extensions"` with one
`PrintExtension` entry per extension of the list, in the order of the list. -/
def extensionsObject (label : CStr) (extensions : List VkExtensionProperties)
    (max_length : Nat) : List Call :=
  [Call.ObjectStart (label ++ cstr " Extensions")] ++
    extensions.map (fun ext => Call.PrintExtension ext.extensionName ext.specVersion max_length) ++
    [Call.ObjectEnd]

/-! ## Balance of the call sequences -/

/-- A call sequence that runs from every stack without a violation and gives
the stack back as it found it. -/
def Neutral (calls : List Call) : Prop := ∀ st, runStack st calls = some st

theorem runStack_nil (st : List Frame) : runStack st [] = some st := rfl

theorem runStack_cons (st : List Frame) (c : Call) (cs : List Call) :
    runStack st (c :: cs) = (stackStep st c).bind (fun st1 => runStack st1 cs) := by
  simp only [runStack]
  cases stackStep st c <;> rfl

theorem runStack_append (st : List Frame) (a b : List Call) :
    runStack st (a ++ b) = (runStack st a).bind (fun st1 => runStack st1 b) := by
  induction a generalizing st with
  | nil => simp [runStack]
  | cons c cs ih =>
    simp only [List.cons_append, runStack]
    cases h : stackStep st c with
    | none => simp
    | some st1 => simpa using ih st1

theorem stackStep_frame (st st1 extra : List Frame) (c : Call)
    (h : stackStep st c = some st1) : stackStep (st ++ extra) c = some (st1 ++ extra) := by
  cases c <;> simp [stackStep] at h ⊢ <;> try (subst h; rfl)
  all_goals
    cases st with
    | nil => simp at h
    | cons f rest => cases f <;> simp at h ⊢ <;> exact h

theorem runStack_frame (calls : List Call) (st st1 extra : List Frame)
    (h : runStack st calls = some st1) : runStack (st ++ extra) calls = some (st1 ++ extra) := by
  induction calls generalizing st with
  | nil => simp [runStack] at h ⊢; exact h
  | cons c cs ih =>
    simp only [runStack] at h ⊢
    cases hc : stackStep st c with
    | none => simp [hc] at h
    | some st2 =>
      rw [hc] at h
      rw [stackStep_frame st st2 extra c hc]
      exact ih st2 h

theorem Balanced.neutral {calls : List Call} (h : Balanced calls) : Neutral calls := by
  intro st
  have := runStack_frame calls [] [] st h
  simpa using this

theorem Neutral.balanced {calls : List Call} (h : Neutral calls) : Balanced calls := h []

theorem neutral_nil : Neutral [] := fun _ => rfl

theorem Neutral.append {a b : List Call} (ha : Neutral a) (hb : Neutral b) : Neutral (a ++ b) := by
  intro st
  rw [runStack_append, ha st]
  exact hb st

theorem neutral_flatMap {α : Type} (l : List α) (f : α → List Call)
    (h : ∀ x, x ∈ l → Neutral (f x)) : Neutral (l.flatMap f) := by
  induction l with
  | nil => exact neutral_nil
  | cons x xs ih =>
    rw [List.flatMap_cons]
    exact (h x (List.mem_cons_self x xs)).append
      (ih (fun y hy => h y (List.mem_cons_of_mem x hy)))

theorem neutral_map {α : Type} (l : List α) (f : α → Call)
    (h : ∀ x st, stackStep st (f x) = some st) : Neutral (l.map f) := by
  induction l with
  | nil => exact neutral_nil
  | cons x xs ih =>
    intro st
    simp only [List.map_cons, runStack, h x st]
    exact ih st

theorem neutral_forRange (body : Nat → List Call) (h : ∀ i, Neutral (body i))
    (start count : Nat) :
    Neutral (forRange body start count) := by
  induction count generalizing start with
  | zero => exact neutral_nil
  | succ n ih => exact (h start).append (ih (start + 1))

theorem neutral_indexedLoop {α : Type} (body : α → List Call) (h : ∀ x, Neutral (body x))
    (i : Nat) (l : List α) : Neutral (indexedLoop body i l) := by
  induction l generalizing i with
  | nil => exact neutral_nil
  | cons x xs ih =>
    intro st
    simp only [indexedLoop, runStack, stackStep]
    exact (h x).append (ih (i + 1)) st

theorem runStack_ite (c : Prop) [Decidable c] (a b : List Call) (st : List Frame) :
    runStack st (if c then a else b) = if c then runStack st a else runStack st b := by
  split_ifs <;> rfl

theorem runStack_flatMap {α : Type} (l : List α) (f : α → List Call) (st : List Frame)
    (h : ∀ x st1, runStack st1 (f x) = some st1) : runStack st (l.flatMap f) = some st :=
  neutral_flatMap l f (fun x _ => h x) st

theorem runStack_map {α : Type} (l : List α) (f : α → Call) (st : List Frame)
    (h : ∀ x st1, stackStep st1 (f x) = some st1) : runStack st (l.map f) = some st :=
  neutral_map l f h st

theorem runStack_forRange (body : Nat → List Call) (start count : Nat) (st : List Frame)
    (h : ∀ i st1, runStack st1 (body i) = some st1) :
    runStack st (forRange body start count) = some st :=
  neutral_forRange body h start count st

theorem runStack_indexedLoop {α : Type} (body : α → List Call) (i : Nat) (l : List α)
    (st : List Frame) (h : ∀ x st1, runStack st1 (body x) = some st1) :
    runStack st (indexedLoop body i l) = some st :=
  neutral_indexedLoop body h i l st

theorem runStack_DumpExtensions (sort : SortFn) (layer_name : CStr)
    (extensions : List VkExtensionProperties) (st : List Frame) :
    runStack st (DumpExtensions sort layer_name extensions) = some st := by
  unfold DumpExtensions
  simp [runStack_append, runStack_cons, runStack_nil, stackStep, runStack_map]

theorem DumpLayers_neutral (X : Externals) (hX : X.HelpersBalanced) (sort : SortFn)
    (t : OutputType) (layers : List LayerExtensionList) (gpus : List AppGpu) :
    Neutral (DumpLayers X sort t layers gpus) := by
  have hL : ∀ n v st, runStack st (X.DumpVkLayerProperties t n v) = some st :=
    fun n v => (hX.1 t n v).neutral
  intro st
  unfold DumpLayers
  cases t <;>
    simp [layerRecordTextHtml, layerRecordJsonFull, layerRecordJson, layerDeviceTextHtml,
      layerDeviceJsonFull, runStack_append,
      runStack_cons, runStack_nil, stackStep, runStack_flatMap, runStack_map,
      runStack_indexedLoop, runStack_DumpExtensions, hL]

/-- The helpers of a balanced `Externals` leave every stack as they find it. -/
theorem helpers_run (X : Externals) (hX : X.HelpersBalanced) :
    (∀ t n v st, runStack st (X.DumpVkLayerProperties t n v) = some st) ∧
    (∀ t n v st, runStack st (X.DumpVkSurfaceFormatKHR t n v) = some st) ∧
    (∀ t n v st, runStack st (X.DumpVkSurfaceCapabilitiesKHR t n v) = some st) ∧
    (∀ t n v st, runStack st (X.DumpVkSurfaceCounterFlagsEXT t n v) = some st) ∧
    (∀ t i g c v st, runStack st (X.chain_iterator_surface_capabilities2 t i g c v) = some st) ∧
    (∀ t n v st, runStack st (X.DumpVkDeviceGroupPresentModeFlagsKHR t n v) = some st) ∧
    (∀ t n v st, runStack st (X.DumpVkPhysicalDeviceLimits t n v) = some st) ∧
    (∀ t n v st, runStack st (X.DumpVkPhysicalDeviceSparseProperties t n v) = some st) ∧
    (∀ t i g c v st, runStack st (X.chain_iterator_phys_device_props2 t i g c v) = some st) ∧
    (∀ t n v st, runStack st (X.DumpVkExtent3D t n v) = some st) ∧
    (∀ t n v w st, runStack st (X.DumpVkMemoryHeapFlags t n v w) = some st) ∧
    (∀ t n v st, runStack st (X.DumpVkMemoryPropertyFlags t n v) = some st) ∧
    (∀ t n v st, runStack st (X.DumpVkPhysicalDeviceFeatures t n v) = some st) ∧
    (∀ t g c v st, runStack st (X.chain_iterator_phys_device_features2 t g c v) = some st) ∧
    (∀ t n v st, runStack st (X.DumpVkFormatFeatureFlags t n v) = some st) ∧
    (∀ t n v st, runStack st (X.DumpVkPhysicalDeviceToolPropertiesEXT t n v) = some st) := by
  obtain ⟨h1, h2, h3, h4, h5, h6, h7, h8, h9, h10, h11, h12, h13, h14, h15, h16⟩ := hX
  exact ⟨fun t n v => (h1 t n v).neutral, fun t n v => (h2 t n v).neutral,
    fun t n v => (h3 t n v).neutral, fun t n v => (h4 t n v).neutral,
    fun t i g c v => (h5 t i g c v).neutral, fun t n v => (h6 t n v).neutral,
    fun t n v => (h7 t n v).neutral, fun t n v => (h8 t n v).neutral,
    fun t i g c v => (h9 t i g c v).neutral, fun t n v => (h10 t n v).neutral,
    fun t n v w => (h11 t n v w).neutral, fun t n v => (h12 t n v).neutral,
    fun t n v => (h13 t n v).neutral, fun t g c v => (h14 t g c v).neutral,
    fun t n v => (h15 t n v).neutral, fun t n v => (h16 t n v).neutral⟩

theorem runStack_DumpLayers (X : Externals) (hX : X.HelpersBalanced) (sort : SortFn)
    (t : OutputType) (layers : List LayerExtensionList) (gpus : List AppGpu) (st : List Frame) :
    runStack st (DumpLayers X sort t layers gpus) = some st :=
  DumpLayers_neutral X hX sort t layers gpus st

theorem runStack_DumpSurface (X : Externals) (hX : X.HelpersBalanced) (t : OutputType)
    (inst : AppInstance) (gpu : AppGpu) (surface : AppSurface) (surface_types : List CStr)
    (st : List Frame) :
    runStack st (DumpSurface X t inst gpu surface surface_types) = some st := by
  obtain ⟨_, n2, n3, n4, n5, _⟩ := helpers_run X hX
  unfold DumpSurface DumpSurfaceFormats DumpPresentModes DumpSurfaceCapabilities
  cases t <;>
    simp [runStack_append, runStack_cons, runStack_nil, runStack_ite, stackStep, runStack_flatMap,
      runStack_map, runStack_indexedLoop, n2, n3, n4, n5]

theorem runStack_DumpPresentableSurfaces (X : Externals) (hX : X.HelpersBalanced)
    (t : OutputType) (inst : AppInstance) (gpus : List AppGpu) (surfaces : List AppSurface)
    (st : List Frame) :
    runStack st (DumpPresentableSurfaces X t inst gpus surfaces) = some st := by
  unfold DumpPresentableSurfaces
  simp [runStack_append, runStack_cons, runStack_nil, stackStep, runStack_flatMap,
    runStack_DumpSurface X hX]

theorem runStack_physicalDevicesLoop (X : Externals) (t : OutputType) (id : Nat)
    (names : List CStr) (st : List Frame) :
    runStack st (physicalDevicesLoop X t id names) = some st := by
  induction names generalizing id with
  | nil => rfl
  | cons n rest ih => simp [physicalDevicesLoop, runStack_cons, stackStep, ih]

theorem runStack_presentRow (X : Externals) (t : OutputType) (group : DeviceGroup) (i : Nat)
    (st : List Frame) : runStack st (presentRow X t group i) = some st := by
  unfold presentRow presentEntry
  simp [runStack_append, runStack_cons, runStack_nil, runStack_ite, stackStep, runStack_forRange]

theorem runStack_dumpGroup (X : Externals) (hX : X.HelpersBalanced) (t : OutputType)
    (group_id : Nat) (group : DeviceGroup) (st : List Frame) :
    runStack st (dumpGroup X t group_id group) = some st := by
  obtain ⟨_, _, _, _, _, n6, _⟩ := helpers_run X hX
  unfold dumpGroup
  simp [runStack_append, runStack_cons, runStack_nil, runStack_ite, stackStep, runStack_forRange,
    runStack_physicalDevicesLoop, runStack_presentRow, n6]

theorem runStack_deviceGroupsLoop (X : Externals) (hX : X.HelpersBalanced) (t : OutputType)
    (group_id : Nat) (groups : List DeviceGroup) (st : List Frame) :
    runStack st (deviceGroupsLoop X t group_id groups) = some st := by
  induction groups generalizing group_id with
  | nil => rfl
  | cons g rest ih =>
    simp [deviceGroupsLoop, runStack_append, runStack_dumpGroup X hX, ih]

theorem runStack_DumpGroups (X : Externals) (hX : X.HelpersBalanced) (t : OutputType)
    (inst : AppInstance) (st : List Frame) : runStack st (DumpGroups X t inst) = some st := by
  unfold DumpGroups
  simp [runStack_append, runStack_cons, runStack_nil, runStack_ite, stackStep,
    runStack_deviceGroupsLoop X hX]

theorem runStack_GpuDumpProps (X : Externals) (hX : X.HelpersBalanced) (t : OutputType)
    (gpu : AppGpu) (st : List Frame) : runStack st (GpuDumpProps X t gpu) = some st := by
  obtain ⟨_, _, _, _, _, _, n7, n8, n9, _⟩ := helpers_run X hX
  unfold GpuDumpProps
  cases t <;>
    simp [runStack_append, runStack_cons, runStack_nil, runStack_ite, stackStep,
      runStack_forRange, n7, n8, n9]

theorem runStack_GpuDumpQueueProps (X : Externals) (hX : X.HelpersBalanced) (t : OutputType)
    (surfaces : List SurfaceExtension) (queue : AppQueueFamilyProperties) (st : List Frame) :
    runStack st (GpuDumpQueueProps X t surfaces queue) = some st := by
  obtain ⟨_, _, _, _, _, _, _, _, _, n10, _⟩ := helpers_run X hX
  unfold GpuDumpQueueProps
  cases t <;>
    simp [runStack_append, runStack_cons, runStack_nil, runStack_ite, stackStep, runStack_map, n10]

theorem runStack_tilingLoop (X : Externals) (memtype_bit tiling : Nat)
    (image : List (List MemImageSupport)) (st : List Frame) :
    runStack st (tilingLoop X memtype_bit tiling image) = some st := by
  induction image generalizing tiling with
  | nil => rfl
  | cons f rest ih => simp [tilingLoop, runStack_cons, stackStep, ih]

theorem runStack_GpuDumpMemoryProps (X : Externals) (hX : X.HelpersBalanced) (t : OutputType)
    (gpu : AppGpu) (st : List Frame) : runStack st (GpuDumpMemoryProps X t gpu) = some st := by
  obtain ⟨_, _, _, _, _, _, _, _, _, _, n11, n12, _⟩ := helpers_run X hX
  have hheap : ∀ i st1, runStack st1 (memoryHeapEntry X t gpu i) = some st1 := by
    intro i st1
    unfold memoryHeapEntry
    simp [runStack_append, runStack_cons, runStack_nil, runStack_ite, stackStep, n11]
  have htype : ∀ i st1, runStack st1 (memoryTypeEntry X t gpu i) = some st1 := by
    intro i st1
    unfold memoryTypeEntry
    simp [runStack_append, runStack_cons, runStack_nil, runStack_ite, stackStep,
      runStack_tilingLoop, n12]
  unfold GpuDumpMemoryProps
  cases t <;>
    simp [runStack_append, runStack_cons, runStack_nil, runStack_ite, stackStep,
      runStack_forRange, hheap, htype]

theorem runStack_GpuDumpFeatures (X : Externals) (hX : X.HelpersBalanced) (t : OutputType)
    (gpu : AppGpu) (st : List Frame) : runStack st (GpuDumpFeatures X t gpu) = some st := by
  obtain ⟨_, _, _, _, _, _, _, _, _, _, _, _, n13, n14, _⟩ := helpers_run X hX
  unfold GpuDumpFeatures
  simp [runStack_append, runStack_cons, runStack_nil, runStack_ite, stackStep, n13, n14]

theorem runStack_GpuDumpFormatProperty (X : Externals) (hX : X.HelpersBalanced)
    (t : OutputType) (fmt : Nat) (prop : VkFormatProperties) (st : List Frame) :
    runStack st (GpuDumpFormatProperty X t fmt prop) = some st := by
  obtain ⟨_, _, _, _, _, _, _, _, _, _, _, _, _, _, n15, _⟩ := helpers_run X hX
  unfold GpuDumpFormatProperty
  cases t <;>
    simp [runStack_append, runStack_cons, runStack_nil, runStack_ite, stackStep, n15]

theorem runStack_GpuDumpToolingInfo (X : Externals) (hX : X.HelpersBalanced) (t : OutputType)
    (gpu : AppGpu) (st : List Frame) : runStack st (GpuDumpToolingInfo X t gpu) = some st := by
  obtain ⟨_, _, _, _, _, _, _, _, _, _, _, _, _, _, _, n16⟩ := helpers_run X hX
  unfold GpuDumpToolingInfo
  simp [runStack_append, runStack_cons, runStack_nil, runStack_ite, stackStep, runStack_flatMap,
    n16]

theorem runStack_formatNames (X : Externals) (formats : List Nat) (st : List Frame) :
    runStack st (formatNames X formats) = some st := by
  unfold formatNames
  simp [runStack_cons, runStack_nil, stackStep, runStack_flatMap]

theorem runStack_formatGroupLoop (X : Externals) (hX : X.HelpersBalanced) (t : OutputType)
    (counter : Nat) (unsupported : List Nat) (groups : List (PropFlags × List Nat))
    (st : List Frame) :
    runStack st (formatGroupLoop X t counter unsupported groups).1 = some st := by
  induction groups generalizing counter unsupported with
  | nil => rfl
  | cons g rest ih =>
    unfold formatGroupLoop
    dsimp only
    split_ifs
    · exact ih counter g.2
    · simp [runStack_append, runStack_cons, runStack_nil, stackStep, runStack_formatNames,
        runStack_GpuDumpFormatProperty X hX, ih]

theorem runStack_GpuDevDump (X : Externals) (hX : X.HelpersBalanced) (t : OutputType)
    (gpu : AppGpu) (st : List Frame) : runStack st (GpuDevDump X t gpu) = some st := by
  have hentry : ∀ fmt st1, runStack st1 (formatEntry X t gpu fmt) = some st1 := by
    intro fmt st1
    unfold formatEntry
    simp [runStack_nil, runStack_ite, runStack_GpuDumpFormatProperty X hX]
  unfold GpuDevDump
  cases t <;>
    simp [runStack_append, runStack_cons, runStack_nil, runStack_ite, stackStep,
      runStack_flatMap, runStack_forRange, runStack_formatNames,
      runStack_formatGroupLoop X hX, hentry]

theorem runStack_queueFamiliesLoop (X : Externals) (hX : X.HelpersBalanced) (t : OutputType)
    (gpu : AppGpu) (st : List Frame) : runStack st (queueFamiliesLoop X t gpu) = some st := by
  unfold queueFamiliesLoop
  simp [runStack_forRange, runStack_GpuDumpQueueProps X hX]

theorem runStack_DumpGpu (X : Externals) (hX : X.HelpersBalanced) (sort : SortFn)
    (t : OutputType) (gpu : AppGpu) (show_formats : Bool) (st : List Frame) :
    runStack st (DumpGpu X sort t gpu show_formats) = some st := by
  unfold DumpGpu DumpGpuSteps stepCalls
  by_cases h : t ≠ OutputType.text ∨ show_formats = true <;>
    simp [h, runStack_append, runStack_cons, runStack_nil, stackStep, runStack_GpuDumpProps X hX,
      runStack_DumpExtensions, runStack_queueFamiliesLoop X hX,
      runStack_GpuDumpMemoryProps X hX, runStack_GpuDumpFeatures X hX,
      runStack_GpuDumpToolingInfo X hX, runStack_GpuDevDump X hX]

theorem runStack_DumpGpuJson (X : Externals) (hX : X.HelpersBalanced)
    (t : OutputType) (gpu : AppGpu) (st : List Frame) :
    runStack st (DumpGpuJson X t gpu) = some st := by
  unfold DumpGpuJson DumpGpuJsonSteps stepCalls
  simp [runStack_append, runStack_cons, runStack_nil, stackStep, runStack_GpuDumpProps X hX,
    runStack_queueFamiliesLoop X hX, runStack_GpuDumpMemoryProps X hX,
    runStack_GpuDumpFeatures X hX, runStack_GpuDevDump X hX]

theorem stepCalls_deviceSteps (i : Nat) (steps : List (Option DeviceSection × List Call)) :
    stepCalls (deviceSteps i steps) = stepCalls steps := by
  unfold stepCalls deviceSteps
  induction steps with
  | nil => rfl
  | cons s rest ih => simp [List.flatMap_cons, ih]

theorem stepCalls_append {σ : Type} (a b : List (Option σ × List Call)) :
    stepCalls (a ++ b) = stepCalls a ++ stepCalls b := by
  simp [stepCalls, List.flatMap_append]

theorem stepCalls_flatMap {α σ : Type} (l : List α) (f : α → List (Option σ × List Call)) :
    stepCalls (l.flatMap f) = l.flatMap (fun x => stepCalls (f x)) := by
  induction l with
  | nil => rfl
  | cons x rest ih => simp [List.flatMap_cons, stepCalls_append, ih]

theorem sampleExternals_balanced : sampleExternals.HelpersBalanced := by
  unfold Externals.HelpersBalanced
  repeat' constructor
  all_goals
    intros
    rfl

theorem runStack_printerPassSteps (X : Externals) (hX : X.HelpersBalanced) (sort : SortFn)
    (windowing : Bool) (t : OutputType) (inst : AppInstance) (gpus : List AppGpu)
    (surfaces : List AppSurface) (selected_gpu : Nat) (show_formats : Bool)
    (steps : List (Option DocSection × List Call))
    (h : printerPassSteps X sort windowing t inst gpus surfaces selected_gpu show_formats =
      some steps) (st : List Frame) :
    runStack st (stepCalls steps) = some st := by
  unfold printerPassSteps at h
  by_cases hj : t = OutputType.json
  · rw [if_pos hj] at h
    cases hg : gpus[selected_gpu]? with
    | none => rw [hg] at h; cases h
    | some gpu =>
      rw [hg] at h
      injection h with h
      subst h
      have h1 := runStack_DumpGpuJson X hX t gpu
      unfold DumpGpuJson at h1
      rw [stepCalls_append, stepCalls_deviceSteps, runStack_append]
      simp [stepCalls, runStack_append, h1, runStack_DumpLayers X hX]
      exact h1 st
  · rw [if_neg hj] at h
    injection h with h
    subst h
    have h1 : ∀ (l : List (Nat × AppGpu)) st1, runStack st1 (stepCalls (l.flatMap (fun gpu =>
        deviceSteps gpu.1 (DumpGpuSteps X sort t gpu.2 show_formats)))) = some st1 := by
      intro l st1
      rw [stepCalls_flatMap]
      apply runStack_flatMap
      intro x st2
      rw [stepCalls_deviceSteps]
      exact runStack_DumpGpu X hX sort t x.2 show_formats st2
    simp only [stepCalls_append, runStack_append]
    cases windowing <;>
      simp [stepCalls, runStack_append, runStack_cons, runStack_nil, stackStep, h1,
        runStack_DumpExtensions, runStack_DumpLayers X hX, runStack_DumpGroups X hX,
        runStack_DumpPresentableSurfaces X hX]
    all_goals
      have h2 := h1 gpus.enum (Frame.object :: st)
      simp only [stepCalls] at h2
      simp [h2, runStack_cons, runStack_nil, stackStep]

/-- C1: for each of the four output types and every input, the printer calls
of one pass of the printer loop of `main` form a balanced sequence: run on the
empty container stack they never pop an empty stack or a frame of the wrong
kind, and they leave the stack empty, provided the generated helpers and chain
iterators are balanced.  (The device index of the json pass is in range, as
`main` has checked before the loop; then the pass has a result.) -/
theorem C1_printer_pass_balanced (X : Externals) (sort : SortFn) (windowing : Bool)
    (t : OutputType) (inst : AppInstance) (gpus : List AppGpu) (surfaces : List AppSurface)
    (selected_gpu : Nat) (show_formats : Bool)
    (hX : X.HelpersBalanced)
    (hsel : t = OutputType.json → selected_gpu < gpus.length) :
    ∃ calls, printerPass X sort windowing t inst gpus surfaces selected_gpu show_formats =
        some calls ∧ Balanced calls := by
  have hsome : ∃ steps,
      printerPassSteps X sort windowing t inst gpus surfaces selected_gpu show_formats =
        some steps := by
    unfold printerPassSteps
    by_cases hj : t = OutputType.json
    · rw [if_pos hj]
      have hlt := hsel hj
      rw [List.getElem?_eq_getElem hlt]
      exact ⟨_, rfl⟩
    · rw [if_neg hj]
      exact ⟨_, rfl⟩
  obtain ⟨steps, hsteps⟩ := hsome
  refine ⟨stepCalls steps, ?_, ?_⟩
  · unfold printerPass
    rw [hsteps]
    rfl
  · exact runStack_printerPassSteps X hX sort windowing t inst gpus surfaces selected_gpu
      show_formats steps hsteps []

theorem C1_printer_pass_balanced_witness :
    sampleExternals.HelpersBalanced ∧
    (OutputType.json = OutputType.json → 0 < [sampleGpu].length) ∧
    ∃ calls, printerPass sampleExternals insertionSort true OutputType.json sampleInstance
        [sampleGpu] [sampleSurface] 0 false = some calls ∧ Balanced calls :=
  ⟨sampleExternals_balanced, fun _ => by decide,
    C1_printer_pass_balanced sampleExternals insertionSort true OutputType.json sampleInstance
      [sampleGpu] [sampleSurface] 0 false sampleExternals_balanced (fun _ => by decide)⟩

/-! ## Sorting and surface grouping -/

theorem strcmp_self (a : CStr) : strcmp a a = 0 := by
  induction a with
  | nil => rfl
  | cons x xs ih => simp [strcmp, ih]

theorem strcmp_eq_zero (a b : CStr) (h : strcmp a b = 0) : a = b := by
  induction a generalizing b with
  | nil => cases b with
    | nil => rfl
    | cons y ys => simp [strcmp] at h
  | cons x xs ih => cases b with
    | nil => simp [strcmp] at h
    | cons y ys =>
      simp only [strcmp] at h
      split_ifs at h with h1 h2
      all_goals first
        | (have hxy : x = y := by omega
           rw [hxy, ih ys h])
        | (exfalso; omega)

theorem strcmp_neg_swap (a b : CStr) (h : strcmp a b < 0) : 0 < strcmp b a := by
  induction a generalizing b with
  | nil => cases b with
    | nil => simp [strcmp] at h
    | cons y ys => simp [strcmp]
  | cons x xs ih => cases b with
    | nil => simp [strcmp] at h
    | cons y ys =>
      simp only [strcmp] at h ⊢
      split_ifs at h ⊢ <;> first | omega | exact ih ys h

theorem strcmp_pos_swap (a b : CStr) (h : 0 < strcmp a b) : strcmp b a < 0 := by
  induction a generalizing b with
  | nil => cases b with
    | nil => simp [strcmp] at h
    | cons y ys => simp [strcmp] at h
  | cons x xs ih => cases b with
    | nil => simp [strcmp]
    | cons y ys =>
      simp only [strcmp] at h ⊢
      split_ifs at h ⊢ <;> first | omega | exact ih ys h

theorem strcmp_trans (a b c : CStr) (h1 : strcmp a b < 0) (h2 : strcmp b c < 0) :
    strcmp a c < 0 := by
  induction a generalizing b c with
  | nil => cases c with
    | nil => cases b <;> simp [strcmp] at h1 h2
    | cons z zs => simp [strcmp]
  | cons x xs ih => cases b with
    | nil => simp [strcmp] at h1
    | cons y ys => cases c with
      | nil => simp [strcmp] at h2
      | cons z zs =>
        simp only [strcmp] at h1 h2 ⊢
        split_ifs at h1 h2 ⊢ <;> first | omega | exact ih ys zs h1 h2

theorem strcmp_nonneg_swap (a b : CStr) (h : ¬ strcmp a b < 0) : strcmp b a ≤ 0 := by
  by_contra hc
  have := strcmp_pos_swap b a (by omega)
  exact h this

theorem strcmp_antisymm (a b : CStr) (h1 : strcmp a b ≤ 0) (h2 : strcmp b a ≤ 0) : a = b := by
  apply strcmp_eq_zero
  by_contra hc
  have := strcmp_neg_swap a b (by omega)
  omega

theorem stringLess_swo : StrictWeakOrder stringLess := by
  refine ⟨fun a => ?_, fun a b c hab hbc => ?_, fun a b c h1 h2 h3 h4 => ?_⟩
  · simp [stringLess, strcmp_self]
  · simp only [stringLess, decide_eq_true_eq] at hab hbc ⊢
    exact strcmp_trans a b c hab hbc
  · simp only [stringLess, decide_eq_false_iff_not] at h1 h2 h3 h4 ⊢
    have hab : a = b :=
      strcmp_antisymm a b (strcmp_nonneg_swap b a h2) (strcmp_nonneg_swap a b h1)
    subst hab
    exact ⟨h3, h4⟩

theorem swo_comap {α κ : Type} (key : α → κ) (lt : κ → κ → Bool)
    (h : StrictWeakOrder lt) :
    StrictWeakOrder (fun a b => lt (key a) (key b)) :=
  ⟨fun a => h.1 (key a), fun a b c => h.2.1 (key a) (key b) (key c),
    fun a b c => h.2.2 (key a) (key b) (key c)⟩

theorem extensionLess_swo : StrictWeakOrder extensionLess :=
  swo_comap (fun e : VkExtensionProperties => e.extensionName) stringLess stringLess_swo

theorem layerNameLess_swo : StrictWeakOrder layerNameLess := by
  refine ⟨fun a => ?_, fun a b c hab hbc => ?_, fun a b c h1 h2 h3 h4 => ?_⟩
  · cases a with
    | none => rfl
    | some x => simp [layerNameLess, strcmp_self]
  · cases a with
    | none => simp [layerNameLess] at hab
    | some x => cases b with
      | none => simp [layerNameLess] at hbc
      | some y => cases c with
        | none => rfl
        | some z =>
          simp only [layerNameLess, decide_eq_true_eq] at hab hbc ⊢
          exact strcmp_trans x y z hab hbc
  · cases a with
    | none => cases b with
      | none => exact ⟨h3, h4⟩
      | some y => simp [layerNameLess] at h2
    | some x => cases b with
      | none => simp [layerNameLess] at h1
      | some y =>
        simp only [layerNameLess, decide_eq_false_iff_not] at h1 h2
        have hxy : x = y :=
          strcmp_antisymm x y (strcmp_nonneg_swap y x h2) (strcmp_nonneg_swap x y h1)
        subst hxy
        exact ⟨h3, h4⟩

theorem layerLess_swo : StrictWeakOrder layerLess :=
  swo_comap (fun l : LayerExtensionList => some l.layer_properties.layerName) layerNameLess
    layerNameLess_swo

theorem swo_asymm {α : Type} {lt : α → α → Bool} (h : StrictWeakOrder lt) (a b : α)
    (hab : lt a b = true) : lt b a = false := by
  cases hba : lt b a with
  | false => rfl
  | true =>
    have := h.2.1 a b a hab hba
    rw [h.1 a] at this
    cases this

theorem insertAfter_perm {α : Type} (lt : α → α → Bool) (a : α) (l : List α) :
    (insertAfter lt a l).Perm (a :: l) := by
  induction l with
  | nil => exact List.Perm.refl _
  | cons b rest ih =>
    unfold insertAfter
    split_ifs
    · exact List.Perm.refl _
    · exact (List.Perm.cons b ih).trans (List.Perm.swap a b rest)

theorem insertAfter_sorted {α : Type} (lt : α → α → Bool) (h : StrictWeakOrder lt) (a : α)
    (l : List α) (hl : l.Pairwise (fun x y => lt y x = false)) :
    (insertAfter lt a l).Pairwise (fun x y => lt y x = false) := by
  induction l with
  | nil => simp [insertAfter]
  | cons b rest ih =>
    rw [List.pairwise_cons] at hl
    unfold insertAfter
    split_ifs with hab
    · refine List.Pairwise.cons ?_ (List.Pairwise.cons hl.1 hl.2)
      intro c hc
      rcases List.mem_cons.1 hc with hcb | hcr
      · subst hcb
        exact swo_asymm h a c hab
      · cases hca : lt c a with
        | false => rfl
        | true =>
          have := h.2.1 c a b hca hab
          rw [hl.1 c hcr] at this
          cases this
    · refine List.Pairwise.cons ?_ (ih hl.2)
      intro c hc
      have hc2 := (insertAfter_perm lt a rest).subset hc
      rcases List.mem_cons.1 hc2 with hca | hcr
      · subst hca
        simpa using hab
      · exact hl.1 c hcr

theorem insertionSort_conforms : insertionSort.Conforms := by
  intro α lt l h
  induction l with
  | nil => exact ⟨List.Perm.refl _, List.Pairwise.nil⟩
  | cons a rest ih =>
    have hstep :
        insertionSort α lt (a :: rest) = insertAfter lt a (insertionSort α lt rest) := rfl
    rw [hstep]
    exact ⟨(insertAfter_perm lt a _).trans (List.Perm.cons a ih.1),
      insertAfter_sorted lt h a _ ih.2⟩

theorem indexedLoop_eq_enumFrom {α : Type} (body : α → List Call) (i : Nat) (l : List α) :
    indexedLoop body i l =
      (l.enumFrom i).flatMap (fun p => Call.SetElementIndex p.1 :: body p.2) := by
  induction l generalizing i with
  | nil => rfl
  | cons x rest ih => simp [indexedLoop, List.enumFrom, List.flatMap_cons, ih]

theorem sorted_of_not_less {α : Type} (key : α → CStr) (l : List α)
    (h : l.Pairwise (fun a b => stringLess (key b) (key a) = false)) :
    l.Pairwise (fun a b => strcmp (key a) (key b) ≤ 0) := by
  refine h.imp ?_
  intro a b hab
  simp only [stringLess, decide_eq_false_iff_not] at hab
  exact strcmp_nonneg_swap _ _ hab

theorem not_less_of_sorted {α : Type} (key : α → CStr) (l : List α)
    (h : l.Pairwise (fun a b => strcmp (key a) (key b) ≤ 0)) :
    l.Pairwise (fun a b => stringLess (key b) (key a) = false) := by
  refine h.imp ?_
  intro a b hab
  simp only [stringLess, decide_eq_false_iff_not]
  intro hlt
  have := strcmp_neg_swap _ _ hlt
  omega

theorem sortedExtensions_spec (sort : SortFn) (hsort : sort.Conforms)
    (extensions : List VkExtensionProperties) :
    (sortedExtensions sort extensions).Perm extensions ∧
    (sortedExtensions sort extensions).Pairwise
      (fun a b => strcmp a.extensionName b.extensionName ≤ 0) := by
  have h := hsort VkExtensionProperties extensionLess extensions extensionLess_swo
  exact ⟨h.1, sorted_of_not_less (fun e : VkExtensionProperties => e.extensionName) _ h.2⟩

theorem sortedLayers_spec (sort : SortFn) (hsort : sort.Conforms)
    (layers : List LayerExtensionList) :
    (sortedLayers sort layers).Perm layers ∧
    (sortedLayers sort layers).Pairwise
      (fun a b => strcmp a.layer_properties.layerName b.layer_properties.layerName ≤ 0) := by
  have h := hsort LayerExtensionList layerLess layers layerLess_swo
  refine ⟨h.1, ?_⟩
  refine h.2.imp ?_
  intro a b hab
  simp only [layerLess, layerNameLess, decide_eq_false_iff_not] at hab
  exact strcmp_nonneg_swap _ _ hab

/-- C4: `DumpExtensions` makes one `PrintExtension` call per input extension;
the extensions printed are a rearrangement of the input in non-decreasing
byte-lexicographic order of `extensionName`, and the calls stand inside one
object labelled `layer_name + " Extensions"`. -/
theorem C4_DumpExtensions_sorted_permutation (sort : SortFn) (layer_name : CStr)
    (extensions : List VkExtensionProperties) (hsort : sort.Conforms) :
    ∃ (sorted : List VkExtensionProperties) (max_length : Nat),
      sorted.Perm extensions ∧
      sorted.Pairwise (fun a b => strcmp a.extensionName b.extensionName ≤ 0) ∧
      DumpExtensions sort layer_name extensions =
        [Call.ObjectStart (layer_name ++ cstr " Extensions")] ++
          sorted.map (fun ext =>
            Call.PrintExtension ext.extensionName ext.specVersion max_length) ++
          [Call.ObjectEnd] := by
  have h := sortedExtensions_spec sort hsort extensions
  exact ⟨sortedExtensions sort extensions, _, h.1, h.2, rfl⟩

theorem C4_DumpExtensions_sorted_permutation_witness :
    insertionSort.Conforms ∧
    ∃ (sorted : List VkExtensionProperties) (max_length : Nat),
      sorted.Perm sampleExtensions ∧
      sorted.Pairwise (fun a b => strcmp a.extensionName b.extensionName ≤ 0) ∧
      DumpExtensions insertionSort (cstr "Instance") sampleExtensions =
        [Call.ObjectStart (cstr "Instance" ++ cstr " Extensions")] ++
          sorted.map (fun ext =>
            Call.PrintExtension ext.extensionName ext.specVersion max_length) ++
          [Call.ObjectEnd] :=
  ⟨insertionSort_conforms,
    C4_DumpExtensions_sorted_permutation insertionSort (cstr "Instance") sampleExtensions
      insertionSort_conforms⟩

/-- C5: in each output type `DumpLayers` emits one record per input layer, the
layers being a rearrangement of the input in non-decreasing `strcmp` order of
`layerName` (no layer is smaller than an earlier one under the comparator, which
puts a null name behind every non-null name); in the json type the record at
position `i` follows `SetElementIndex (i)`, for `i = 0 .. n-1`. -/
theorem C5_DumpLayers_sorted_records (X : Externals) (sort : SortFn) (t : OutputType)
    (layers : List LayerExtensionList) (gpus : List AppGpu) (hsort : sort.Conforms) :
    ∃ sorted : List LayerExtensionList,
      sorted.Perm layers ∧
      sorted.Pairwise (fun a b => layerLess b a = false) ∧
      sorted.Pairwise
        (fun a b => strcmp a.layer_properties.layerName b.layer_properties.layerName ≤ 0) ∧
      (∀ x y : CStr, layerNameLess (some x) none = true ∧ layerNameLess none (some x) = false ∧
        layerNameLess none none = false ∧
        layerNameLess (some x) (some y) = decide (strcmp x y < 0)) ∧
      DumpLayers X sort t layers gpus =
        match t with
        | OutputType.json =>
          [Call.ArrayStart (cstr "ArrayOfVkLayerProperties") sorted.length] ++
            sorted.enum.flatMap (fun p =>
              Call.SetElementIndex p.1 ::
                X.DumpVkLayerProperties t (cstr "layerProperty") p.2.layer_properties) ++
            [Call.ArrayEnd]
        | OutputType.json_full =>
          [Call.ObjectStart (cstr "Layer Properties")] ++
            sorted.flatMap (layerRecordJsonFull X sort gpus) ++ [Call.ObjectEnd]
        | _ =>
          [Call.SetHeader, Call.ArrayStart (cstr "Layers") sorted.length, Call.IndentDecrease] ++
            sorted.flatMap (layerRecordTextHtml X sort t gpus) ++
            [Call.IndentIncrease, Call.ArrayEnd] := by
  have h := hsort LayerExtensionList layerLess layers layerLess_swo
  refine ⟨sortedLayers sort layers, h.1, h.2, (sortedLayers_spec sort hsort layers).2,
    fun x y => ⟨rfl, rfl, rfl, rfl⟩, ?_⟩
  cases t <;> simp [DumpLayers, indexedLoop_eq_enumFrom, List.enum, layerRecordJson]

theorem C5_DumpLayers_sorted_records_witness :
    insertionSort.Conforms ∧
    ∃ sorted : List LayerExtensionList,
      sorted.Perm [sampleLayer] ∧
      sorted.Pairwise (fun a b => layerLess b a = false) ∧
      sorted.Pairwise
        (fun a b => strcmp a.layer_properties.layerName b.layer_properties.layerName ≤ 0) ∧
      (∀ x y : CStr, layerNameLess (some x) none = true ∧ layerNameLess none (some x) = false ∧
        layerNameLess none none = false ∧
        layerNameLess (some x) (some y) = decide (strcmp x y < 0)) ∧
      DumpLayers sampleExternals insertionSort OutputType.json [sampleLayer] [sampleGpu] =
        match OutputType.json with
        | OutputType.json =>
          [Call.ArrayStart (cstr "ArrayOfVkLayerProperties") sorted.length] ++
            sorted.enum.flatMap (fun p =>
              Call.SetElementIndex p.1 ::
                sampleExternals.DumpVkLayerProperties OutputType.json (cstr "layerProperty")
                  p.2.layer_properties) ++
            [Call.ArrayEnd]
        | OutputType.json_full =>
          [Call.ObjectStart (cstr "Layer Properties")] ++
            sorted.flatMap (layerRecordJsonFull sampleExternals insertionSort [sampleGpu]) ++
            [Call.ObjectEnd]
        | _ =>
          [Call.SetHeader, Call.ArrayStart (cstr "Layers") sorted.length, Call.IndentDecrease] ++
            sorted.flatMap
              (layerRecordTextHtml sampleExternals insertionSort OutputType.json [sampleGpu]) ++
            [Call.IndentIncrease, Call.ArrayEnd] :=
  ⟨insertionSort_conforms,
    C5_DumpLayers_sorted_records sampleExternals insertionSort OutputType.json [sampleLayer]
      [sampleGpu] insertionSort_conforms⟩

theorem sorted_keys_unique (l1 l2 : List CStr) (hp : l1.Perm l2)
    (h1 : l1.Pairwise (fun a b => strcmp a b ≤ 0))
    (h2 : l2.Pairwise (fun a b => strcmp a b ≤ 0)) : l1 = l2 :=
  @List.eq_of_perm_of_sorted CStr (fun a b => strcmp a b ≤ 0)
    ⟨fun a b hab hba => strcmp_antisymm a b hab hba⟩ l1 l2 hp h1 h2

theorem sorted_perm_keys_eq {α : Type} (key : α → CStr) (l1 l2 : List α) (hp : l1.Perm l2)
    (h1 : l1.Pairwise (fun a b => strcmp (key a) (key b) ≤ 0))
    (h2 : l2.Pairwise (fun a b => strcmp (key a) (key b) ≤ 0)) :
    l1.map key = l2.map key :=
  sorted_keys_unique _ _ (hp.map key) (List.pairwise_map.2 h1) (List.pairwise_map.2 h2)

theorem eq_of_map_eq_of_perm {α : Type} (key : α → CStr) (l1 l2 : List α) (hp : l1.Perm l2)
    (hk : l1.map key = l2.map key) (hn : (l2.map key).Nodup) : l1 = l2 := by
  induction l1 generalizing l2 with
  | nil => exact (List.Perm.nil_eq hp)
  | cons a t1 ih =>
    cases l2 with
    | nil => cases hp.length_eq
    | cons b t2 =>
      simp only [List.map_cons, List.cons.injEq] at hk
      rw [List.map_cons, List.nodup_cons] at hn
      have hmem : a ∈ b :: t2 := hp.subset (List.mem_cons_self a t1)
      have hab : a = b := by
        rcases List.mem_cons.1 hmem with h | h
        · exact h
        · exfalso
          apply hn.1
          rw [← hk.1]
          exact List.mem_map_of_mem key h
      subst hab
      rw [ih t2 (List.Perm.cons_inv hp) hk.2 hn.2]

theorem strict_sorted_weaken {α : Type} (key : α → CStr) (l : List α)
    (h : l.Pairwise (fun a b => strcmp (key a) (key b) < 0)) :
    l.Pairwise (fun a b => strcmp (key a) (key b) ≤ 0) :=
  h.imp (fun hab => le_of_lt hab)

theorem strict_sorted_nodup {α : Type} (key : α → CStr) (l : List α)
    (h : l.Pairwise (fun a b => strcmp (key a) (key b) < 0)) : (l.map key).Nodup := by
  rw [List.Nodup, List.pairwise_map]
  refine h.imp ?_
  intro a b hab heq
  rw [heq, strcmp_self] at hab
  exact lt_irrefl _ hab

theorem sorted_fixed {α : Type} (key : α → CStr) (l1 l2 : List α) (hp : l1.Perm l2)
    (h1 : l1.Pairwise (fun a b => strcmp (key a) (key b) ≤ 0))
    (h2 : l2.Pairwise (fun a b => strcmp (key a) (key b) < 0)) : l1 = l2 :=
  eq_of_map_eq_of_perm key l1 l2 hp
    (sorted_perm_keys_eq key l1 l2 hp h1 (strict_sorted_weaken key l2 h2))
    (strict_sorted_nodup key l2 h2)

theorem appSurfaceEq_iff (a b : AppSurface) :
    appSurfaceEq a b = true ↔ capabilitySet a = capabilitySet b := by
  simp [appSurfaceEq, capabilitySet, and_assoc]

theorem groupMatches_iff (s : Ptr AppSurface) (d : Ptr AppGpu) (g : SurfaceTypeGroup) :
    groupMatches s d g = true ↔ groupKey g = (d.1, capabilitySet s.2) := by
  simp [groupMatches, groupKey, appSurfaceEq_iff]

theorem mem_setInsert_self (x : CStr) (l : List CStr) : x ∈ setInsert x l := by
  induction l with
  | nil => simp [setInsert]
  | cons y ys ih =>
    unfold setInsert
    split_ifs with h1 h2
    · simp
    · simp [ih]
    · have hxy : x = y := by
        simp only [stringLess, decide_eq_true_eq] at h1 h2
        exact strcmp_antisymm x y (strcmp_nonneg_swap y x h2) (strcmp_nonneg_swap x y h1)
      simp [hxy]

theorem mem_setInsert_of_mem (x z : CStr) (l : List CStr) (h : z ∈ l) : z ∈ setInsert x l := by
  induction l with
  | nil => cases h
  | cons y ys ih =>
    unfold setInsert
    split_ifs with h1 h2
    · exact List.mem_cons_of_mem x h
    · rcases List.mem_cons.1 h with hz | hz
      · simp [hz]
      · exact List.mem_cons_of_mem y (ih hz)
    · exact h

theorem groupStep_nil (s : Ptr AppSurface) (d : Ptr AppGpu) :
    groupStep [] s d =
      [{ surface := s, gpu := d, surface_types := [s.2.surface_extension.name] }] := rfl

theorem groupStep_cons (g : SurfaceTypeGroup) (l : List SurfaceTypeGroup) (s : Ptr AppSurface)
    (d : Ptr AppGpu) :
    groupStep (g :: l) s d =
      if groupMatches s d g then
        { g with surface_types := setInsert s.2.surface_extension.name g.surface_types } :: l
      else g :: groupStep l s d := by
  unfold groupStep
  simp only [findGroup]
  split_ifs with h
  · rfl
  · cases findGroup s d l with
    | none => rfl
    | some k => rfl

theorem groupStep_keys (l : List SurfaceTypeGroup) (s : Ptr AppSurface) (d : Ptr AppGpu) :
    (groupStep l s d).map groupKey =
      if (d.1, capabilitySet s.2) ∈ l.map groupKey then l.map groupKey
      else l.map groupKey ++ [(d.1, capabilitySet s.2)] := by
  induction l with
  | nil => simp [groupStep_nil, groupKey]
  | cons g rest ih =>
    rw [groupStep_cons]
    by_cases hm : groupMatches s d g = true
    · rw [if_pos hm]
      have hk := (groupMatches_iff s d g).1 hm
      have : groupKey { g with
          surface_types := setInsert s.2.surface_extension.name g.surface_types } =
          groupKey g := rfl
      simp [this, hk]
    · rw [if_neg hm]
      have hk : ¬ groupKey g = (d.1, capabilitySet s.2) := fun h =>
        hm ((groupMatches_iff s d g).2 h)
      simp only [List.map_cons, ih, List.mem_cons]
      have hk2 : ¬ (d.1, capabilitySet s.2) = groupKey g := fun h => hk h.symm
      by_cases hin : (d.1, capabilitySet s.2) ∈ rest.map groupKey
      · simp [hin]
      · simp [hin, hk2]

theorem groupStep_nodup (l : List SurfaceTypeGroup) (s : Ptr AppSurface) (d : Ptr AppGpu)
    (h : (l.map groupKey).Nodup) : ((groupStep l s d).map groupKey).Nodup := by
  rw [groupStep_keys]
  split_ifs with hin
  · exact h
  · rw [List.nodup_append]
    refine ⟨h, List.nodup_singleton _, ?_⟩
    intro k hk hk2
    rw [List.mem_singleton] at hk2
    subst hk2
    exact hin hk

theorem groupStep_represents (l : List SurfaceTypeGroup) (s : Ptr AppSurface) (d : Ptr AppGpu) :
    Represented (groupStep l s d) (d.1, capabilitySet s.2) s.2.surface_extension.name := by
  induction l with
  | nil => exact ⟨_, List.mem_singleton_self _, rfl, List.mem_singleton_self _⟩
  | cons g rest ih =>
    rw [groupStep_cons]
    by_cases hm : groupMatches s d g = true
    · rw [if_pos hm]
      exact ⟨_, List.mem_cons_self _ _, (groupMatches_iff s d g).1 hm, mem_setInsert_self _ _⟩
    · rw [if_neg hm]
      obtain ⟨g2, hg2, hk, hn⟩ := ih
      exact ⟨g2, List.mem_cons_of_mem _ hg2, hk, hn⟩

theorem groupStep_keeps (l : List SurfaceTypeGroup) (s : Ptr AppSurface) (d : Ptr AppGpu)
    (key : Nat × (List Nat × List VkSurfaceFormatKHR × List VkSurfaceFormat2KHR × Payload ×
      VkSurfaceCapabilities2KHR × VkSurfaceCapabilities2EXT)) (name : CStr)
    (h : Represented l key name) : Represented (groupStep l s d) key name := by
  induction l with
  | nil => obtain ⟨g, hg, _⟩ := h; cases hg
  | cons g rest ih =>
    rw [groupStep_cons]
    obtain ⟨g2, hg2, hk, hn⟩ := h
    by_cases hm : groupMatches s d g = true
    · rw [if_pos hm]
      rcases List.mem_cons.1 hg2 with heq | hrest
      · subst heq
        exact ⟨_, List.mem_cons_self _ _, hk, mem_setInsert_of_mem _ _ _ hn⟩
      · exact ⟨g2, List.mem_cons_of_mem _ hrest, hk, hn⟩
    · rw [if_neg hm]
      rcases List.mem_cons.1 hg2 with heq | hrest
      · subst heq
        exact ⟨g2, List.mem_cons_self _ _, hk, hn⟩
      · obtain ⟨g3, hg3, hk3, hn3⟩ := ih ⟨g2, hrest, hk, hn⟩
        exact ⟨g3, List.mem_cons_of_mem _ hg3, hk3, hn3⟩

theorem innerLoop_invariant (gpus : List (Ptr AppGpu)) (s : Ptr AppSurface)
    (l : List SurfaceTypeGroup) (h : (l.map groupKey).Nodup) :
    ((gpus.foldl (fun acc gpu => groupStep acc s gpu) l).map groupKey).Nodup ∧
    (∀ key name, Represented l key name →
      Represented (gpus.foldl (fun acc gpu => groupStep acc s gpu) l) key name) ∧
    (∀ d, d ∈ gpus → Represented (gpus.foldl (fun acc gpu => groupStep acc s gpu) l)
      (d.1, capabilitySet s.2) s.2.surface_extension.name) := by
  induction gpus generalizing l with
  | nil => exact ⟨h, fun _ _ hr => hr, fun d hd => by cases hd⟩
  | cons d rest ih =>
    simp only [List.foldl_cons]
    obtain ⟨h1, h2, h3⟩ := ih (groupStep l s d) (groupStep_nodup l s d h)
    refine ⟨h1, fun key name hr => h2 key name (groupStep_keeps l s d key name hr), ?_⟩
    intro d2 hd2
    rcases List.mem_cons.1 hd2 with heq | hrest
    · subst heq
      exact h2 _ _ (groupStep_represents l s d2)
    · exact h3 d2 hrest

theorem groupLoop_invariant (gpus : List (Ptr AppGpu)) (surfaces : List (Ptr AppSurface))
    (l : List SurfaceTypeGroup) (h : (l.map groupKey).Nodup) :
    ((groupLoop gpus l surfaces).map groupKey).Nodup ∧
    (∀ key name, Represented l key name → Represented (groupLoop gpus l surfaces) key name) ∧
    (∀ s d, s ∈ surfaces → d ∈ gpus → Represented (groupLoop gpus l surfaces)
      (d.1, capabilitySet s.2) s.2.surface_extension.name) := by
  induction surfaces generalizing l with
  | nil => exact ⟨h, fun _ _ hr => hr, fun s d hs => by cases hs⟩
  | cons s rest ih =>
    simp only [groupLoop]
    obtain ⟨i1, i2, i3⟩ := innerLoop_invariant gpus s l h
    obtain ⟨h1, h2, h3⟩ := ih _ i1
    refine ⟨h1, fun key name hr => h2 key name (i2 key name hr), ?_⟩
    intro s2 d hs2 hd
    rcases List.mem_cons.1 hs2 with heq | hrest
    · subst heq
      exact h2 _ _ (i3 d hd)
    · exact h3 s2 d hrest hd

theorem nodup_index_inj {α : Type} (l : List α) (h : l.Nodup) (i j : Nat) (a : α)
    (hi : l[i]? = some a) (hj : l[j]? = some a) : i = j := by
  induction l generalizing i j with
  | nil => simp at hi
  | cons x rest ih =>
    rw [List.nodup_cons] at h
    cases i with
    | zero =>
      cases j with
      | zero => rfl
      | succ j =>
        simp only [List.getElem?_cons_zero, List.getElem?_cons_succ, Option.some.injEq] at hi hj
        subst hi
        exact absurd (List.getElem?_mem hj) h.1
    | succ i =>
      cases j with
      | zero =>
        simp only [List.getElem?_cons_zero, List.getElem?_cons_succ, Option.some.injEq] at hi hj
        subst hj
        exact absurd (List.getElem?_mem hi) h.1
      | succ j =>
        simp only [List.getElem?_cons_succ] at hi hj
        rw [ih h.2 i j hi hj]

theorem surfaceGroups_keys_nodup (gpus : List AppGpu) (surfaces : List AppSurface) :
    ((surfaceGroups gpus surfaces).map groupKey).Nodup :=
  (groupLoop_invariant gpus.enum surfaces.enum [] List.nodup_nil).1

theorem surfaceGroups_index_unique (gpus : List AppGpu) (surfaces : List AppSurface)
    (k1 k2 : Nat) (g1 g2 : SurfaceTypeGroup)
    (h1 : (surfaceGroups gpus surfaces)[k1]? = some g1)
    (h2 : (surfaceGroups gpus surfaces)[k2]? = some g2)
    (hk : groupKey g1 = groupKey g2) : k1 = k2 := by
  apply nodup_index_inj _ (surfaceGroups_keys_nodup gpus surfaces) k1 k2 (groupKey g1)
  · rw [List.getElem?_map, h1]; rfl
  · rw [List.getElem?_map, h2, hk]; rfl

theorem surfaceGroups_represents (gpus : List AppGpu) (surfaces : List AppSurface)
    (s : Ptr AppSurface) (d : Ptr AppGpu) (hs : s ∈ surfaces.enum) (hd : d ∈ gpus.enum) :
    ∃ (k : Nat) (g : SurfaceTypeGroup), (surfaceGroups gpus surfaces)[k]? = some g ∧
      groupMatches s d g = true ∧
      s.2.surface_extension.name ∈ g.surface_types := by
  obtain ⟨g, hg, hk, hn⟩ := (groupLoop_invariant gpus.enum surfaces.enum [] List.nodup_nil).2.2
    s d hs hd
  obtain ⟨k, hk2⟩ := List.mem_iff_getElem?.1 hg
  exact ⟨k, g, hk2, (groupMatches_iff s d g).2 hk, hn⟩

theorem surfaceGroups_partition (gpus : List AppGpu) (surfaces : List AppSurface) :
    (∀ s d, s ∈ surfaces.enum → d ∈ gpus.enum →
      ∃ (k : Nat) (g : SurfaceTypeGroup), (surfaceGroups gpus surfaces)[k]? = some g ∧
        groupMatches s d g = true ∧
        s.2.surface_extension.name ∈ g.surface_types ∧
        ∀ (k2 : Nat) (g2 : SurfaceTypeGroup), (surfaceGroups gpus surfaces)[k2]? = some g2 →
          groupMatches s d g2 = true → k2 = k) ∧
    (∀ (k1 k2 : Nat) (g1 g2 : SurfaceTypeGroup), (surfaceGroups gpus surfaces)[k1]? = some g1 →
      (surfaceGroups gpus surfaces)[k2]? = some g2 →
      g1.gpu.1 = g2.gpu.1 → appSurfaceEq g1.surface.2 g2.surface.2 = true → k1 = k2) := by
  constructor
  · intro s d hs hd
    obtain ⟨k, g, hk, hm, hn⟩ := surfaceGroups_represents gpus surfaces s d hs hd
    refine ⟨k, g, hk, hm, hn, ?_⟩
    intro k2 g2 hk2 hm2
    apply surfaceGroups_index_unique gpus surfaces k2 k g2 g hk2 hk
    rw [(groupMatches_iff s d g2).1 hm2, (groupMatches_iff s d g).1 hm]
  · intro k1 k2 g1 g2 h1 h2 hgpu heq
    apply surfaceGroups_index_unique gpus surfaces k1 k2 g1 g2 h1 h2
    unfold groupKey
    rw [hgpu, (appSurfaceEq_iff _ _).1 heq]

/-- C2: after the grouping loops of `DumpPresentableSurfaces`, every pair of an
element of `surfaces` and an element of `gpus` has exactly one group of
`surface_list` that passes the test of the scan for it (`g.gpu` is the device
and `*g.surface == ` the surface); that group's `surface_types` holds the
extension name of the surface; and no two groups of the list have the same
device and equal surfaces. -/
theorem C2_surface_groups_partition (gpus : List AppGpu) (surfaces : List AppSurface) :
    (∀ s d, s ∈ surfaces.enum → d ∈ gpus.enum →
      ∃ (k : Nat) (g : SurfaceTypeGroup), (surfaceGroups gpus surfaces)[k]? = some g ∧
        groupMatches s d g = true ∧
        s.2.surface_extension.name ∈ g.surface_types ∧
        ∀ (k2 : Nat) (g2 : SurfaceTypeGroup), (surfaceGroups gpus surfaces)[k2]? = some g2 →
          groupMatches s d g2 = true → k2 = k) ∧
    (∀ (k1 k2 : Nat) (g1 g2 : SurfaceTypeGroup), (surfaceGroups gpus surfaces)[k1]? = some g1 →
      (surfaceGroups gpus surfaces)[k2]? = some g2 →
      g1.gpu.1 = g2.gpu.1 → appSurfaceEq g1.surface.2 g2.surface.2 = true → k1 = k2) :=
  surfaceGroups_partition gpus surfaces

/-- C3 as stated fails: with one surface and two devices the two pairs share
the surface, so their capability sets are identical, yet the scan finds the
first pair in group 0 and the second in group 1. -/
theorem C3_same_capabilities_two_devices :
    appSurfaceEq sampleSurface sampleSurface = true ∧
    (surfaceGroups [sampleGpu, sampleGpu] [sampleSurface]).length = 2 ∧
    findGroup (0, sampleSurface) (0, sampleGpu)
      (surfaceGroups [sampleGpu, sampleGpu] [sampleSurface]) = some 0 ∧
    findGroup (0, sampleSurface) (1, sampleGpu)
      (surfaceGroups [sampleGpu, sampleGpu] [sampleSurface]) = some 1 := by
  decide

theorem findGroup_of_unique (s : Ptr AppSurface) (d : Ptr AppGpu) (l : List SurfaceTypeGroup)
    (k : Nat) (g : SurfaceTypeGroup) (hk : l[k]? = some g) (hm : groupMatches s d g = true)
    (hu : ∀ k2 g2, l[k2]? = some g2 → groupMatches s d g2 = true → k2 = k) :
    findGroup s d l = some k := by
  induction l generalizing k with
  | nil => simp at hk
  | cons g0 rest ih =>
    unfold findGroup
    by_cases h0 : groupMatches s d g0 = true
    · rw [if_pos h0]
      rw [hu 0 g0 List.getElem?_cons_zero h0]
    · rw [if_neg h0]
      cases k with
      | zero =>
        rw [List.getElem?_cons_zero, Option.some.injEq] at hk
        subst hk
        exact absurd hm h0
      | succ k1 =>
        rw [List.getElem?_cons_succ] at hk
        have := ih k1 hk (fun k2 g2 hk2 hm2 => by
          have := hu (k2 + 1) g2 (by rw [List.getElem?_cons_succ]; exact hk2) hm2
          omega)
        rw [this]
        rfl

theorem findGroup_matches (s : Ptr AppSurface) (d : Ptr AppGpu) (l : List SurfaceTypeGroup)
    (k : Nat) (h : findGroup s d l = some k) :
    ∃ g, l[k]? = some g ∧ groupMatches s d g = true := by
  induction l generalizing k with
  | nil => simp [findGroup] at h
  | cons g0 rest ih =>
    unfold findGroup at h
    by_cases h0 : groupMatches s d g0 = true
    · rw [if_pos h0] at h
      injection h with hk
      subst hk
      exact ⟨g0, List.getElem?_cons_zero, h0⟩
    · rw [if_neg h0] at h
      cases hr : findGroup s d rest with
      | none => rw [hr] at h; simp at h
      | some k1 =>
        rw [hr] at h
        simp only [Option.map_some', Option.some.injEq] at h
        subst h
        obtain ⟨g, hg, hm⟩ := ih k1 hr
        exact ⟨g, by rw [List.getElem?_cons_succ]; exact hg, hm⟩

/-- C3, amended: for every list of surfaces and devices, in whatever order,
every (surface, device) pair is placed in one group of `surface_list`, the one
the scan finds for it, which belongs to the device of the pair and holds the
extension name of its surface; two pairs are placed in the same group exactly
when they have the same device and their surfaces compare equal under
`operator==`. So pairs with the same device and identical capability sets
share a group, and pairs with different devices never do. -/
theorem C3_same_group_iff_same_device_and_capabilities (gpus : List AppGpu)
    (surfaces : List AppSurface) (s1 s2 : Ptr AppSurface) (d1 d2 : Ptr AppGpu)
    (h1 : s1 ∈ surfaces.enum) (h2 : s2 ∈ surfaces.enum)
    (hd1 : d1 ∈ gpus.enum) (hd2 : d2 ∈ gpus.enum) :
    ∃ (k1 k2 : Nat) (g1 g2 : SurfaceTypeGroup),
      (surfaceGroups gpus surfaces)[k1]? = some g1 ∧
      (surfaceGroups gpus surfaces)[k2]? = some g2 ∧
      findGroup s1 d1 (surfaceGroups gpus surfaces) = some k1 ∧
      findGroup s2 d2 (surfaceGroups gpus surfaces) = some k2 ∧
      g1.gpu.1 = d1.1 ∧ g2.gpu.1 = d2.1 ∧
      s1.2.surface_extension.name ∈ g1.surface_types ∧
      s2.2.surface_extension.name ∈ g2.surface_types ∧
      (k1 = k2 ↔ (d1.1 = d2.1 ∧ appSurfaceEq s1.2 s2.2 = true)) ∧
      (d1.1 ≠ d2.1 → k1 ≠ k2) := by
  obtain ⟨k1, g1, hk1, hm1, hn1, hu1⟩ := (surfaceGroups_partition gpus surfaces).1 s1 d1 h1 hd1
  obtain ⟨k2, g2, hk2, hm2, hn2, hu2⟩ := (surfaceGroups_partition gpus surfaces).1 s2 d2 h2 hd2
  have e1 := (groupMatches_iff s1 d1 g1).1 hm1
  have e2 := (groupMatches_iff s2 d2 g2).1 hm2
  have hiff : k1 = k2 ↔ (d1.1 = d2.1 ∧ appSurfaceEq s1.2 s2.2 = true) := by
    constructor
    · intro hkk
      subst hkk
      rw [hk1] at hk2
      injection hk2 with hgg
      subst hgg
      rw [e1] at e2
      injection e2 with ha hb
      exact ⟨ha, (appSurfaceEq_iff _ _).2 hb⟩
    · rintro ⟨hd, hs⟩
      have hm12 : groupMatches s1 d1 g2 = true := by
        rw [groupMatches_iff, e2, hd, (appSurfaceEq_iff _ _).1 hs]
      exact (hu1 k2 g2 hk2 hm12).symm
  refine ⟨k1, k2, g1, g2, hk1, hk2, findGroup_of_unique s1 d1 _ k1 g1 hk1 hm1 hu1,
    findGroup_of_unique s2 d2 _ k2 g2 hk2 hm2 hu2, ?_, ?_, hn1, hn2, hiff,
    fun hne hkk => hne (hiff.1 hkk).1⟩
  · exact (congrArg Prod.fst e1 : _)
  · exact (congrArg Prod.fst e2 : _)

theorem C3_same_group_iff_same_device_and_capabilities_witness :
    ((0, sampleSurface) : Ptr AppSurface) ∈ [sampleSurface, sampleSurfaceXlib].enum ∧
    ((1, sampleSurfaceXlib) : Ptr AppSurface) ∈ [sampleSurface, sampleSurfaceXlib].enum ∧
    ((0, sampleGpu) : Ptr AppGpu) ∈ [sampleGpu, sampleGpu].enum ∧
    ((1, sampleGpu) : Ptr AppGpu) ∈ [sampleGpu, sampleGpu].enum ∧
    findGroup (0, sampleSurface) (0, sampleGpu)
      (surfaceGroups [sampleGpu, sampleGpu] [sampleSurface, sampleSurfaceXlib]) = some 0 ∧
    findGroup (1, sampleSurfaceXlib) (0, sampleGpu)
      (surfaceGroups [sampleGpu, sampleGpu] [sampleSurface, sampleSurfaceXlib]) = some 0 ∧
    findGroup (1, sampleSurfaceXlib) (1, sampleGpu)
      (surfaceGroups [sampleGpu, sampleGpu] [sampleSurface, sampleSurfaceXlib]) = some 1 ∧
    ∃ (k1 k2 : Nat) (g1 g2 : SurfaceTypeGroup),
      (surfaceGroups [sampleGpu, sampleGpu] [sampleSurface, sampleSurfaceXlib])[k1]? = some g1 ∧
      (surfaceGroups [sampleGpu, sampleGpu] [sampleSurface, sampleSurfaceXlib])[k2]? = some g2 ∧
      findGroup (0, sampleSurface) (0, sampleGpu)
        (surfaceGroups [sampleGpu, sampleGpu] [sampleSurface, sampleSurfaceXlib]) = some k1 ∧
      findGroup (1, sampleSurfaceXlib) (1, sampleGpu)
        (surfaceGroups [sampleGpu, sampleGpu] [sampleSurface, sampleSurfaceXlib]) = some k2 ∧
      g1.gpu.1 = 0 ∧ g2.gpu.1 = 1 ∧
      sampleSurface.surface_extension.name ∈ g1.surface_types ∧
      sampleSurfaceXlib.surface_extension.name ∈ g2.surface_types ∧
      (k1 = k2 ↔ ((0 : Nat) = 1 ∧ appSurfaceEq sampleSurface sampleSurfaceXlib = true)) ∧
      ((0 : Nat) ≠ 1 → k1 ≠ k2) :=
  ⟨List.mem_cons_self _ _, List.mem_cons_of_mem _ (List.mem_cons_self _ _),
    List.mem_cons_self _ _, List.mem_cons_of_mem _ (List.mem_cons_self _ _),
    by decide, by decide, by decide,
    C3_same_group_iff_same_device_and_capabilities [sampleGpu, sampleGpu]
      [sampleSurface, sampleSurfaceXlib] (0, sampleSurface) (1, sampleSurfaceXlib)
      (0, sampleGpu) (1, sampleGpu) (List.mem_cons_self _ _)
      (List.mem_cons_of_mem _ (List.mem_cons_self _ _)) (List.mem_cons_self _ _)
      (List.mem_cons_of_mem _ (List.mem_cons_self _ _))⟩

/-! ## The usability summary and the presentation masks -/

theorem intercalate_cons_eq (sep : CStr) (e : CStr) (es : List CStr) :
    List.intercalate sep (e :: es) = e ++ es.flatMap (fun x => sep ++ x) := by
  induction es generalizing e with
  | nil => simp [List.intercalate]
  | cons y ys ih =>
    have h := ih y
    simp only [List.intercalate, List.intersperse, List.flatMap_cons] at h ⊢
    simp [List.flatten, h]

theorem usableLoop_false (X : Externals) (bit : Nat) (fmt_i : Nat)
    (formats : List MemImageSupport) (usable : CStr) :
    usableLoop X bit fmt_i formats usable false =
      usable ++ (usableEntries X bit fmt_i formats).flatMap (fun x => cstr ", " ++ x) := by
  induction formats generalizing fmt_i usable with
  | nil => simp [usableLoop, usableEntries]
  | cons f rest ih =>
    unfold usableLoop
    by_cases hc : usableCompatible bit f = true
    · have hc2 := hc
      unfold usableCompatible at hc2
      rw [if_pos hc2]
      simp only [Bool.not_false, if_true]
      rw [ih]
      simp [usableEntries, List.enumFrom, List.filter_cons, hc, usableEntry, List.flatMap_cons]
    · have hc2 := hc
      unfold usableCompatible at hc2
      rw [if_neg hc2, ih]
      simp [usableEntries, List.enumFrom, List.filter_cons, hc]

theorem usableLoop_true (X : Externals) (bit : Nat) (fmt_i : Nat)
    (formats : List MemImageSupport) (usable : CStr) :
    usableLoop X bit fmt_i formats usable true =
      usable ++ List.intercalate (cstr ", ") (usableEntries X bit fmt_i formats) := by
  induction formats generalizing fmt_i usable with
  | nil => simp [usableLoop, usableEntries, List.intercalate]
  | cons f rest ih =>
    unfold usableLoop
    by_cases hc : usableCompatible bit f = true
    · have hc2 := hc
      unfold usableCompatible at hc2
      rw [if_pos hc2]
      simp only [Bool.not_true, Bool.false_eq_true, if_false]
      rw [usableLoop_false]
      have he : usableEntries X bit fmt_i (f :: rest) =
          usableEntry X bit (fmt_i, f) :: usableEntries X bit (fmt_i + 1) rest := by
        simp [usableEntries, List.enumFrom, List.filter_cons, hc]
      rw [he, intercalate_cons_eq]
      simp [usableEntry]
    · have hc2 := hc
      unfold usableCompatible at hc2
      rw [if_neg hc2, ih]
      simp [usableEntries, List.enumFrom, List.filter_cons, hc]

theorem usableEntry_ne_nil (X : Externals) (hname : ∀ fmt, X.VkFormatString fmt ≠ [])
    (bit : Nat) (p : Nat × MemImageSupport) : usableEntry X bit p ≠ [] := by
  unfold usableEntry usableName
  split_ifs
  · exact List.append_ne_nil_of_left_ne_nil (by decide) _
  · exact List.append_ne_nil_of_left_ne_nil (hname _) _

theorem usableEntries_eq_nil_iff (X : Externals) (bit start : Nat)
    (formats : List MemImageSupport) :
    usableEntries X bit start formats = [] ↔ formats.any (usableCompatible bit) = false := by
  induction formats generalizing start with
  | nil => simp [usableEntries]
  | cons f rest ih =>
    have h := ih (start + 1)
    by_cases hc : usableCompatible bit f = true
    · simp [usableEntries, List.enumFrom, List.filter_cons, hc]
    · simp only [usableEntries, List.enumFrom, List.filter_cons, hc, List.any_cons] at h ⊢
      simpa using h

theorem usableEntries_length (X : Externals) (bit start : Nat)
    (formats : List MemImageSupport) :
    (usableEntries X bit start formats).length =
      (formats.filter (usableCompatible bit)).length := by
  induction formats generalizing start with
  | nil => simp [usableEntries]
  | cons f rest ih =>
    have h := ih (start + 1)
    by_cases hc : usableCompatible bit f = true
    · simp only [usableEntries, List.enumFrom, List.filter_cons, hc, if_true, List.map_cons,
        List.length_cons, List.length_map] at h ⊢
      omega
    · simp only [usableEntries, List.enumFrom, List.filter_cons, hc, List.length_map] at h ⊢
      simpa using h

theorem tilingLoop_eq (X : Externals) (bit start : Nat) (image : List (List MemImageSupport)) :
    tilingLoop X bit start image =
      (image.enumFrom start).map (fun p => Call.PrintString (usableString X bit p.1 p.2)) := by
  induction image generalizing start with
  | nil => rfl
  | cons f rest ih => simp [tilingLoop, List.enumFrom, ih]

theorem intercalate_ne_nil (sep : CStr) (es : List CStr) (h : es ≠ [])
    (hne : ∀ e, e ∈ es → e ≠ []) : List.intercalate sep es ≠ [] := by
  cases es with
  | nil => exact absurd rfl h
  | cons e rest =>
    rw [intercalate_cons_eq]
    exact List.append_ne_nil_of_left_ne_nil (hne e (List.mem_cons_self e rest)) _

theorem usableString_eq (X : Externals) (hname : ∀ fmt, X.VkFormatString fmt ≠ [])
    (bit tiling : Nat) (formats : List MemImageSupport) :
    usableString X bit tiling formats =
      X.VkImageTilingString tiling ++ cstr ": " ++
        (if formats.any (usableCompatible bit) = true then
          List.intercalate (cstr ", ") (usableEntries X bit 0 formats)
        else cstr "None") := by
  unfold usableString
  simp only [usableLoop_true]
  by_cases hany : formats.any (usableCompatible bit) = true
  · have hne : usableEntries X bit 0 formats ≠ [] := by
      intro h
      rw [usableEntries_eq_nil_iff] at h
      rw [h] at hany
      cases hany
    have hj := intercalate_ne_nil (cstr ", ") _ hne (fun e he => by
      obtain ⟨p, _, hp⟩ := List.mem_map.1 he
      rw [← hp]
      exact usableEntry_ne_nil X hname bit p)
    have hlen : 0 < (List.intercalate (cstr ", ") (usableEntries X bit 0 formats)).length :=
      List.length_pos.2 hj
    rw [if_pos hany, if_neg]
    rw [List.length_append]
    omega
  · have hnil : usableEntries X bit 0 formats = [] := by
      rw [usableEntries_eq_nil_iff]
      simpa using hany
    rw [if_neg hany, hnil]
    simp [List.intercalate]

theorem forRange_eq_flatMap (body : Nat → List Call) (start count : Nat) :
    forRange body start count = (List.range' start count).flatMap body := by
  induction count generalizing start with
  | zero => rfl
  | succ n ih => simp [forRange, List.range'_succ, List.flatMap_cons, ih]

/-- The two loops of `GpuDumpMemoryProps`, over the heaps and over the memory
types, as the entries of the indices below the two counts, in order. -/
theorem GpuDumpMemoryProps_eq (X : Externals) (t : OutputType) (gpu : AppGpu) :
    GpuDumpMemoryProps X t gpu =
      [Call.SetHeader, Call.ObjectStart (cstr "VkPhysicalDeviceMemoryProperties"),
        Call.IndentDecrease] ++
        (if t = OutputType.json_full then [Call.ObjectStart (cstr "memoryHeaps")]
          else [Call.ArrayStart (cstr "memoryHeaps") gpu.memory_props.memoryHeapCount]) ++
        (List.range gpu.memory_props.memoryHeapCount).flatMap (memoryHeapEntry X t gpu) ++
        (if t = OutputType.json_full then
          [Call.ObjectEnd, Call.ObjectStart (cstr "memoryTypes")]
          else
            [Call.ArrayEnd,
              Call.ArrayStart (cstr "memoryTypes") gpu.memory_props.memoryTypeCount]) ++
        (List.range gpu.memory_props.memoryTypeCount).flatMap (memoryTypeEntry X t gpu) ++
        (if t = OutputType.json_full then [Call.ObjectEnd] else [Call.ArrayEnd]) ++
        [Call.IndentIncrease, Call.ObjectEnd, Call.AddNewline] := by
  unfold GpuDumpMemoryProps
  rw [forRange_eq_flatMap, forRange_eq_flatMap, ← List.range_eq_range', ← List.range_eq_range']

theorem memoryTypeEntry_eq (X : Externals) (t : OutputType) (gpu : AppGpu) (i : Nat)
    (ht : t ≠ OutputType.json) :
    memoryTypeEntry X t gpu i =
      [Call.SetElementIndex i, Call.ObjectStart (cstr "memoryTypes"),
        Call.PrintKeyValue (cstr "heapIndex")
          (Value.num (gpu.memory_props.memoryTypes.getD i
            { propertyFlags := 0, heapIndex := 0 }).heapIndex) 13 []] ++
        X.DumpVkMemoryPropertyFlags t
          (cstr "propertyFlags = " ++ X.to_hex_str (gpu.memory_props.memoryTypes.getD i
            { propertyFlags := 0, heapIndex := 0 }).propertyFlags)
          (gpu.memory_props.memoryTypes.getD i
            { propertyFlags := 0, heapIndex := 0 }).propertyFlags ++
        [Call.ArrayStart (cstr "usable for") 0] ++
        gpu.mem_type_res_support_image.enum.map
          (fun p => Call.PrintString (usableString X (memtypeBit i) p.1 p.2)) ++
        [Call.ArrayEnd, Call.ObjectEnd] := by
  unfold memoryTypeEntry
  simp [ht, tilingLoop_eq, VK_IMAGE_TILING_OPTIMAL, List.enum]

/-- C7: in a non-json output `GpuDumpMemoryProps` emits, inside its
`memoryTypes` container, the entry of every memory type `i` below
`memoryTypeCount`, in order; the `usable for` array of that entry holds one
string per tiling mode, and the string of a tiling mode is the tiling name and
`": "` followed by `"None"` when no format of that mode is regular-, sparse- or
transient-compatible with bit `i`, and otherwise by the non-empty `", "`-separated
list of the entries of the compatible formats, one each, in format-index
order, given that `VkFormatString` never gives the empty string. -/
theorem C7_usable_for_never_empty (X : Externals) (t : OutputType) (gpu : AppGpu)
    (hname : ∀ fmt, X.VkFormatString fmt ≠ []) (ht : t ≠ OutputType.json) :
    GpuDumpMemoryProps X t gpu =
      [Call.SetHeader, Call.ObjectStart (cstr "VkPhysicalDeviceMemoryProperties"),
        Call.IndentDecrease] ++
        (if t = OutputType.json_full then [Call.ObjectStart (cstr "memoryHeaps")]
          else [Call.ArrayStart (cstr "memoryHeaps") gpu.memory_props.memoryHeapCount]) ++
        (List.range gpu.memory_props.memoryHeapCount).flatMap (memoryHeapEntry X t gpu) ++
        (if t = OutputType.json_full then
          [Call.ObjectEnd, Call.ObjectStart (cstr "memoryTypes")]
          else
            [Call.ArrayEnd,
              Call.ArrayStart (cstr "memoryTypes") gpu.memory_props.memoryTypeCount]) ++
        (List.range gpu.memory_props.memoryTypeCount).flatMap (memoryTypeEntry X t gpu) ++
        (if t = OutputType.json_full then [Call.ObjectEnd] else [Call.ArrayEnd]) ++
        [Call.IndentIncrease, Call.ObjectEnd, Call.AddNewline] ∧
    ∀ i : Nat,
      memoryTypeEntry X t gpu i =
        [Call.SetElementIndex i, Call.ObjectStart (cstr "memoryTypes"),
          Call.PrintKeyValue (cstr "heapIndex")
            (Value.num (gpu.memory_props.memoryTypes.getD i
              { propertyFlags := 0, heapIndex := 0 }).heapIndex) 13 []] ++
          X.DumpVkMemoryPropertyFlags t
            (cstr "propertyFlags = " ++ X.to_hex_str (gpu.memory_props.memoryTypes.getD i
              { propertyFlags := 0, heapIndex := 0 }).propertyFlags)
            (gpu.memory_props.memoryTypes.getD i
              { propertyFlags := 0, heapIndex := 0 }).propertyFlags ++
          [Call.ArrayStart (cstr "usable for") 0] ++
          gpu.mem_type_res_support_image.enum.map
            (fun p => Call.PrintString (usableString X (memtypeBit i) p.1 p.2)) ++
          [Call.ArrayEnd, Call.ObjectEnd] ∧
      ∀ (tiling : Nat) (formats : List MemImageSupport),
        (formats.any (usableCompatible (memtypeBit i)) = false →
          usableString X (memtypeBit i) tiling formats =
            X.VkImageTilingString tiling ++ cstr ": " ++ cstr "None") ∧
        (formats.any (usableCompatible (memtypeBit i)) = true →
          usableString X (memtypeBit i) tiling formats =
            X.VkImageTilingString tiling ++ cstr ": " ++
              List.intercalate (cstr ", ") (usableEntries X (memtypeBit i) 0 formats) ∧
          List.intercalate (cstr ", ") (usableEntries X (memtypeBit i) 0 formats) ≠ [] ∧
          (usableEntries X (memtypeBit i) 0 formats).length =
            (formats.filter (usableCompatible (memtypeBit i))).length) := by
  refine ⟨GpuDumpMemoryProps_eq X t gpu, fun i => ⟨memoryTypeEntry_eq X t gpu i ht, ?_⟩⟩
  intro tiling formats
  have h := usableString_eq X hname (memtypeBit i) tiling formats
  constructor
  · intro hany
    rw [h, hany]
    rfl
  · intro hany
    rw [h, if_pos hany]
    refine ⟨rfl, ?_, usableEntries_length X _ 0 formats⟩
    apply intercalate_ne_nil
    · intro hnil
      rw [usableEntries_eq_nil_iff] at hnil
      rw [hnil] at hany
      cases hany
    · intro e he
      obtain ⟨p, _, hp⟩ := List.mem_map.1 he
      rw [← hp]
      exact usableEntry_ne_nil X hname _ p

theorem sampleExternals_format_names (fmt : Nat) : sampleExternals.VkFormatString fmt ≠ [] :=
  List.append_ne_nil_of_left_ne_nil (by decide) _

theorem C7_usable_for_never_empty_witness :
    (∀ fmt, sampleExternals.VkFormatString fmt ≠ []) ∧
    OutputType.text ≠ OutputType.json ∧
    usableString sampleExternals (memtypeBit 2) 0 [sampleImageSupport] = cstr "0: None" ∧
    GpuDumpMemoryProps sampleExternals OutputType.text sampleGpu =
      [Call.SetHeader, Call.ObjectStart (cstr "VkPhysicalDeviceMemoryProperties"),
        Call.IndentDecrease,
        Call.ArrayStart (cstr "memoryHeaps") 1,
        Call.SetElementIndex 0, Call.ObjectStart (cstr "memoryHeaps"),
        Call.PrintKeyString (cstr "size") (cstr "1024 (1024) (1024)") 6,
        Call.PrintKeyString (cstr "budget") (cstr "1024 (1024) (1024)") 6,
        Call.PrintKeyString (cstr "usage") (cstr "0 (0) (0)") 6,
        Call.ObjectStart (cstr "flags"), Call.ObjectEnd,
        Call.ObjectEnd,
        Call.ArrayEnd,
        Call.ArrayStart (cstr "memoryTypes") 1,
        Call.SetElementIndex 0, Call.ObjectStart (cstr "memoryTypes"),
        Call.PrintKeyValue (cstr "heapIndex") (Value.num 0) 13 [],
        Call.ObjectStart (cstr "propertyFlags = 1"), Call.ObjectEnd,
        Call.ArrayStart (cstr "usable for") 0,
        Call.PrintString (cstr "0: color images"),
        Call.PrintString (cstr "1: color images"),
        Call.ArrayEnd,
        Call.ObjectEnd,
        Call.ArrayEnd,
        Call.IndentIncrease, Call.ObjectEnd, Call.AddNewline] :=
  ⟨sampleExternals_format_names, by decide, by decide,
    (C7_usable_for_never_empty sampleExternals OutputType.text sampleGpu
      sampleExternals_format_names (by decide)).1.trans (by decide)⟩

theorem flatMap_ite_eq_filter_map {α : Type} (l : List α) (p : α → Bool) (q : α → Prop)
    [DecidablePred q] (f : α → Call) (h : ∀ x, x ∈ l → (q x ↔ p x = true)) :
    l.flatMap (fun x => if q x then [f x] else []) = (l.filter p).map f := by
  induction l with
  | nil => rfl
  | cons x rest ih =>
    have hx := h x (List.mem_cons_self x rest)
    have hrest := ih (fun y hy => h y (List.mem_cons_of_mem x hy))
    rw [List.flatMap_cons, hrest]
    by_cases hp : p x = true
    · rw [if_pos (hx.2 hp), List.filter_cons_of_pos hp]
      rfl
    · rw [if_neg (fun hq => hp (hx.1 hq)), List.filter_cons_of_neg hp]
      rfl

theorem presentMaskBit_test (mask j : Nat) (hj : j < 32) :
    mask &&& presentMaskBit j ≠ 0 ↔ mask.testBit j = true := by
  have hpow : presentMaskBit j = 2 ^ j := by
    unfold presentMaskBit
    rw [Nat.one_shiftLeft]
    exact Nat.mod_eq_of_lt (Nat.pow_lt_pow_right (by decide) hj)
  rw [hpow, Nat.and_two_pow]
  cases h : mask.testBit j with
  | false => simp
  | true => simp

theorem presentRow_entries (X : Externals) (t : OutputType) (group : DeviceGroup) (i : Nat)
    (hn : group.physicalDeviceCount ≤ 32) :
    forRange (presentEntry X t group i) 0 group.physicalDeviceCount =
      ((List.range group.physicalDeviceCount).filter (fun j =>
        (group.group_capabilities.2.presentMask.getD i 0).testBit j)).map (fun j =>
          Call.PrintString (deviceLabel X t (group.group_props.getD j []) j)) := by
  rw [forRange_eq_flatMap, ← List.range_eq_range']
  unfold presentEntry
  apply flatMap_ite_eq_filter_map
  intro j hj
  have hlt : j < 32 := lt_of_lt_of_le (List.mem_range.1 hj) hn
  exact presentMaskBit_test _ j hlt

theorem deviceGroupsLoop_eq (X : Externals) (t : OutputType) (start : Nat)
    (groups : List DeviceGroup) :
    deviceGroupsLoop X t start groups =
      (groups.enumFrom start).flatMap (fun p => dumpGroup X t p.1 p.2) := by
  induction groups generalizing start with
  | nil => rfl
  | cons g rest ih => simp [deviceGroupsLoop, List.enumFrom, ih]

/-- With the device group creation extension enabled and at least one group,
`DumpGroups` emits the object `Device Groups` holding the body of the loop for
every group, numbered from 0, in order. -/
theorem DumpGroups_eq (X : Externals) (t : OutputType) (inst : AppInstance)
    (henabled : inst.CheckExtensionEnabled VK_KHR_DEVICE_GROUP_CREATION_EXTENSION_NAME = true)
    (hne : inst.GetGroups ≠ []) :
    DumpGroups X t inst =
      [Call.SetHeader, Call.ObjectStart (cstr "Device Groups"), Call.IndentDecrease] ++
        inst.GetGroups.enum.flatMap (fun p => dumpGroup X t p.1 p.2) ++
        [Call.IndentIncrease, Call.ObjectEnd, Call.AddNewline] := by
  unfold DumpGroups
  rw [if_pos henabled]
  simp only
  rw [if_neg (by simpa using hne), deviceGroupsLoop_eq]
  rfl

theorem mem_enum_of_getElem? {α : Type} (l : List α) (k : Nat) (a : α) (h : l[k]? = some a) :
    (k, a) ∈ l.enum := by
  rw [List.mk_mem_enum_iff_getElem?]
  exact h

/-- C8: with the device group creation extension enabled, `DumpGroups` emits the
body of its loop for every group; for a group of at most 32 devices whose
capability query succeeded, the group's `Present Capabilities` object holds one
object per device `i < n`, in order, and the strings printed in the array of
device `i` are the labels of exactly the devices `j < n` for which bit `j` of
`presentMask[i]` is set, each once and in increasing `j`. -/
theorem C8_present_mask_decoding (X : Externals) (t : OutputType) (inst : AppInstance)
    (group_id : Nat) (group : DeviceGroup)
    (henabled : inst.CheckExtensionEnabled VK_KHR_DEVICE_GROUP_CREATION_EXTENSION_NAME = true)
    (hgroup : inst.GetGroups[group_id]? = some group)
    (hn : group.physicalDeviceCount ≤ 32)
    (hcap : group.group_capabilities.1 = true) :
    DumpGroups X t inst =
      [Call.SetHeader, Call.ObjectStart (cstr "Device Groups"), Call.IndentDecrease] ++
        inst.GetGroups.enum.flatMap (fun p => dumpGroup X t p.1 p.2) ++
        [Call.IndentIncrease, Call.ObjectEnd, Call.AddNewline] ∧
    (group_id, group) ∈ inst.GetGroups.enum ∧
    dumpGroup X t group_id group =
      [Call.ObjectStart (cstr "Group " ++ to_string group_id),
        Call.ObjectStart (cstr "Properties"),
        Call.ArrayStart (cstr "physicalDevices") group.physicalDeviceCount] ++
        physicalDevicesLoop X t 0 group.group_props ++
        [Call.ArrayEnd,
          Call.PrintKeyValue (cstr "subsetAllocation") (Value.num group.subsetAllocation) 0 [],
          Call.ObjectEnd, Call.AddNewline] ++
        ([Call.ObjectStart (cstr "Present Capabilities")] ++
          (List.range group.physicalDeviceCount).flatMap (presentRow X t group) ++
          X.DumpVkDeviceGroupPresentModeFlagsKHR t (cstr "Present modes")
            group.group_capabilities.2.modes ++
          [Call.ObjectEnd]) ++
        [Call.ObjectEnd, Call.AddNewline] ∧
    ∀ i, presentRow X t group i =
      [Call.ObjectStart (deviceLabel X t (group.group_props.getD i []) i),
        Call.ArrayStart (cstr "Can present images from the following devices")
          group.physicalDeviceCount] ++
        ((List.range group.physicalDeviceCount).filter (fun j =>
          (group.group_capabilities.2.presentMask.getD i 0).testBit j)).map (fun j =>
            Call.PrintString (deviceLabel X t (group.group_props.getD j []) j)) ++
        [Call.ArrayEnd, Call.ObjectEnd] := by
  have hne : inst.GetGroups ≠ [] := by
    intro h
    rw [h] at hgroup
    simp at hgroup
  refine ⟨DumpGroups_eq X t inst henabled hne, mem_enum_of_getElem? _ _ _ hgroup, ?_, ?_⟩
  · unfold dumpGroup
    rw [if_neg (by simp [hcap]), forRange_eq_flatMap, ← List.range_eq_range']
  · intro i
    unfold presentRow
    rw [presentRow_entries X t group i hn]

theorem C8_present_mask_decoding_witness :
    sampleInstance.CheckExtensionEnabled VK_KHR_DEVICE_GROUP_CREATION_EXTENSION_NAME = true ∧
    sampleInstance.GetGroups[0]? = some sampleGroup ∧
    sampleGroup.physicalDeviceCount ≤ 32 ∧
    sampleGroup.group_capabilities.1 = true ∧
    sampleGroup.group_capabilities.2.presentMask = [1, 3] ∧
    DumpGroups sampleExternals OutputType.text sampleInstance =
      [Call.SetHeader, Call.ObjectStart (cstr "Device Groups"), Call.IndentDecrease,
        Call.ObjectStart (cstr "Group 0"),
        Call.ObjectStart (cstr "Properties"),
        Call.ArrayStart (cstr "physicalDevices") 2,
        Call.PrintString (cstr "gpu a (ID: 0)"),
        Call.PrintString (cstr "gpu b (ID: 1)"),
        Call.ArrayEnd,
        Call.PrintKeyValue (cstr "subsetAllocation") (Value.num 0) 0 [],
        Call.ObjectEnd, Call.AddNewline,
        Call.ObjectStart (cstr "Present Capabilities"),
        Call.ObjectStart (cstr "gpu a (ID: 0)"),
        Call.ArrayStart (cstr "Can present images from the following devices") 2,
        Call.PrintString (cstr "gpu a (ID: 0)"),
        Call.ArrayEnd, Call.ObjectEnd,
        Call.ObjectStart (cstr "gpu b (ID: 1)"),
        Call.ArrayStart (cstr "Can present images from the following devices") 2,
        Call.PrintString (cstr "gpu a (ID: 0)"),
        Call.PrintString (cstr "gpu b (ID: 1)"),
        Call.ArrayEnd, Call.ObjectEnd,
        Call.ObjectStart (cstr "Present modes"), Call.ObjectEnd,
        Call.ObjectEnd,
        Call.ObjectEnd, Call.AddNewline,
        Call.IndentIncrease, Call.ObjectEnd, Call.AddNewline] :=
  ⟨rfl, rfl, by decide, rfl, rfl,
    (C8_present_mask_decoding sampleExternals OutputType.text sampleInstance 0 sampleGroup
      rfl rfl (by decide) rfl).1.trans (by decide)⟩

/-! ## Field names and section order -/

theorem membersAt_ObjectStart (d : Nat) (name : CStr) (rest : List Call) :
    membersAt d (Call.ObjectStart name :: rest) =
      if d = 1 then Member.container name :: membersAt (d + 1) rest
      else membersAt (d + 1) rest := by
  rw [membersAt]

theorem membersAt_ObjectEnd (d : Nat) (rest : List Call) :
    membersAt d (Call.ObjectEnd :: rest) = membersAt (d - 1) rest := by
  rw [membersAt]

theorem membersAt_PrintKeyValue (d : Nat) (key : CStr) (v : Value) (w : Nat) (c : CStr)
    (rest : List Call) :
    membersAt d (Call.PrintKeyValue key v w c :: rest) =
      if d = 1 then Member.key key :: membersAt d rest else membersAt d rest := by
  rw [membersAt]

theorem membersAt_PrintKeyString (d : Nat) (key v : CStr) (w : Nat) (rest : List Call) :
    membersAt d (Call.PrintKeyString key v w :: rest) =
      if d = 1 then Member.key key :: membersAt d rest else membersAt d rest := by
  rw [membersAt]

theorem membersAt_PrintExtension (d : Nat) (key : CStr) (r w : Nat) (rest : List Call) :
    membersAt d (Call.PrintExtension key r w :: rest) =
      if d = 1 then Member.key key :: membersAt d rest else membersAt d rest := by
  rw [membersAt]

theorem membersAt_extensions (d : Nat) (l : List VkExtensionProperties) (w : Nat)
    (rest : List Call) :
    membersAt (d + 2)
      (l.map (fun ext => Call.PrintExtension ext.extensionName ext.specVersion w) ++ rest) =
      membersAt (d + 2) rest := by
  induction l with
  | nil => rfl
  | cons x xs ih =>
    rw [List.map_cons, List.cons_append, membersAt_PrintExtension, if_neg (by omega), ih]

theorem membersAt_DumpExtensions_deep (d : Nat) (sort : SortFn) (n : CStr)
    (e : List VkExtensionProperties) (rest : List Call) :
    membersAt (d + 2) (DumpExtensions sort n e ++ rest) = membersAt (d + 2) rest := by
  unfold DumpExtensions
  rw [List.append_assoc, List.append_assoc, List.singleton_append, membersAt_ObjectStart,
    if_neg (by omega), show d + 2 + 1 = (d + 1) + 2 from rfl, membersAt_extensions,
    List.singleton_append, membersAt_ObjectEnd]
  rfl

theorem membersAt_DumpExtensions_one (sort : SortFn) (n : CStr)
    (e : List VkExtensionProperties) (rest : List Call) :
    membersAt 1 (DumpExtensions sort n e ++ rest) =
      Member.container (n ++ cstr " Extensions") :: membersAt 1 rest := by
  unfold DumpExtensions
  rw [List.append_assoc, List.append_assoc, List.singleton_append, membersAt_ObjectStart,
    if_pos rfl, show 1 + 1 = 0 + 2 from rfl, membersAt_extensions,
    List.singleton_append, membersAt_ObjectEnd]

theorem membersAt_flatMap_silent {α : Type} (d : Nat) (l : List α) (f : α → List Call)
    (h : ∀ x rest, membersAt d (f x ++ rest) = membersAt d rest) (rest : List Call) :
    membersAt d (l.flatMap f ++ rest) = membersAt d rest := by
  induction l with
  | nil => rfl
  | cons x xs ih => rw [List.flatMap_cons, List.append_assoc, h, ih]

theorem membersAt_layerDeviceJsonFull (sort : SortFn) (name : CStr) (gpu : AppGpu)
    (rest : List Call) :
    membersAt 2 (layerDeviceJsonFull sort name gpu ++ rest) = membersAt 2 rest := by
  unfold layerDeviceJsonFull
  rw [List.append_assoc, List.append_assoc, List.cons_append, List.cons_append,
    List.nil_append, membersAt_ObjectStart, if_neg (by decide), membersAt_PrintKeyValue,
    if_neg (by decide), show 2 + 1 = 1 + 2 from rfl, membersAt_DumpExtensions_deep,
    List.singleton_append, membersAt_ObjectEnd]

theorem recordMembers_layerRecordJsonFull (X : Externals) (sort : SortFn) (gpus : List AppGpu)
    (layer : LayerExtensionList) :
    recordMembers (layerRecordJsonFull X sort gpus layer) =
      [Member.key (cstr "layerName"), Member.key (cstr "version"),
        Member.key (cstr "implementation version"), Member.key (cstr "description"),
        Member.container (cstr "Layer Extensions"), Member.container (cstr "Devices")] := by
  unfold recordMembers layerRecordJsonFull
  rw [List.append_assoc, List.append_assoc, List.append_assoc]
  simp only [List.cons_append, List.nil_append]
  rw [membersAt_ObjectStart, if_neg (by decide), membersAt_PrintKeyString, if_pos rfl,
    membersAt_PrintKeyString, if_pos rfl, membersAt_PrintKeyValue, if_pos rfl,
    membersAt_PrintKeyString, if_pos rfl, membersAt_DumpExtensions_one,
    membersAt_ObjectStart, if_pos rfl,
    membersAt_flatMap_silent 2 gpus _ (membersAt_layerDeviceJsonFull sort _),
    membersAt_ObjectEnd, membersAt_ObjectEnd]
  rfl

/-- C10 as stated fails: the json_full record of the sample layer spells its
third key `implementation version`, with a blank; no member of the record is
named `implementationVersion`. -/
theorem C10_json_full_key_has_blank :
    DumpLayers sampleExternals insertionSort OutputType.json_full [sampleLayer] [sampleGpu] =
      [Call.ObjectStart (cstr "Layer Properties")] ++
        layerRecordJsonFull sampleExternals insertionSort [sampleGpu] sampleLayer ++
        [Call.ObjectEnd] ∧
    recordMembers (layerRecordJsonFull sampleExternals insertionSort [sampleGpu] sampleLayer) =
      [Member.key (cstr "layerName"), Member.key (cstr "version"),
        Member.key (cstr "implementation version"), Member.key (cstr "description"),
        Member.container (cstr "Layer Extensions"), Member.container (cstr "Devices")] ∧
    Member.key (cstr "implementationVersion") ∉
      recordMembers
        (layerRecordJsonFull sampleExternals insertionSort [sampleGpu] sampleLayer) := by
  decide

/-- C10, amended: in the json type `DumpLayers` emits the layer records inside
an array labelled `ArrayOfVkLayerProperties`; in the json_full type it emits
one record per layer inside the object `Layer Properties`, and every record
carries the keys `layerName`, `version`, `implementation version` and
`description`, in this order, followed by the nested objects `Layer Extensions`
and `Devices`. -/
theorem C10_layer_field_names (X : Externals) (sort : SortFn)
    (layers : List LayerExtensionList) (gpus : List AppGpu) :
    DumpLayers X sort OutputType.json layers gpus =
      [Call.ArrayStart (cstr "ArrayOfVkLayerProperties") (sortedLayers sort layers).length] ++
        indexedLoop (layerRecordJson X OutputType.json) 0 (sortedLayers sort layers) ++
        [Call.ArrayEnd] ∧
    DumpLayers X sort OutputType.json_full layers gpus =
      [Call.ObjectStart (cstr "Layer Properties")] ++
        (sortedLayers sort layers).flatMap (layerRecordJsonFull X sort gpus) ++
        [Call.ObjectEnd] ∧
    ∀ layer, recordMembers (layerRecordJsonFull X sort gpus layer) =
      [Member.key (cstr "layerName"), Member.key (cstr "version"),
        Member.key (cstr "implementation version"), Member.key (cstr "description"),
        Member.container (cstr "Layer Extensions"), Member.container (cstr "Devices")] :=
  ⟨by simp [DumpLayers], by simp [DumpLayers],
    fun layer => recordMembers_layerRecordJsonFull X sort gpus layer⟩

/-- The sections `DumpGpu` enters for the device at position `i`. -/
theorem stepSections_DumpGpuSteps (X : Externals) (sort : SortFn) (t : OutputType) (gpu : AppGpu)
    (show_formats : Bool) (i : Nat) :
    stepSections (deviceSteps i (DumpGpuSteps X sort t gpu show_formats)) =
      deviceSections t show_formats i := by
  unfold DumpGpuSteps deviceSteps stepSections deviceSections
  by_cases h : t ≠ OutputType.text ∨ show_formats = true
  · simp [h]
  · simp [h]

theorem stepSections_append {σ : Type} (a b : List (Option σ × List Call)) :
    stepSections (a ++ b) = stepSections a ++ stepSections b := by
  simp [stepSections, List.filterMap_append]

theorem stepSections_flatMap {α σ : Type} (l : List α)
    (f : α → List (Option σ × List Call)) :
    stepSections (l.flatMap f) = l.flatMap (fun x => stepSections (f x)) := by
  induction l with
  | nil => rfl
  | cons x rest ih => simp [List.flatMap_cons, stepSections_append, ih]

theorem enumFrom_flatMap_fst {α β : Type} (l : List α) (f : Nat → List β) (start : Nat) :
    (l.enumFrom start).flatMap (fun p => f p.1) = (List.range' start l.length).flatMap f := by
  induction l generalizing start with
  | nil => rfl
  | cons x rest ih => simp [List.enumFrom, List.range'_succ, List.flatMap_cons, ih]

theorem printerPassSections_eq (X : Externals) (sort : SortFn) (windowing : Bool)
    (t : OutputType) (inst : AppInstance) (gpus : List AppGpu) (surfaces : List AppSurface)
    (selected_gpu : Nat) (show_formats : Bool) :
    printerPassSections X sort windowing t inst gpus surfaces selected_gpu show_formats =
      if t = OutputType.json then
        (gpus[selected_gpu]?).map (fun _ => jsonSections selected_gpu)
      else some (documentSections windowing t show_formats gpus.length) := by
  unfold printerPassSections printerPassSteps
  by_cases hj : t = OutputType.json
  · rw [if_pos hj, if_pos hj]
    cases gpus[selected_gpu]? with
    | none => rfl
    | some gpu => rfl
  · rw [if_neg hj, if_neg hj]
    simp only [Option.map_some', stepSections_append, stepSections_flatMap,
      stepSections_DumpGpuSteps, documentSections, List.enum]
    rw [enumFrom_flatMap_fst gpus (deviceSections t show_formats) 0, ← List.range_eq_range']
    cases windowing <;> simp [stepSections]

theorem deviceSections_rank (t : OutputType) (show_formats : Bool) (i : Nat) :
    ∀ x, x ∈ deviceSections t show_formats i →
      4 + 7 * i ≤ x.rank ∧ x.rank < 4 + 7 * (i + 1) := by
  unfold deviceSections
  split_ifs <;> simp [DocSection.rank, DeviceSection.rank] <;> omega

theorem deviceSections_increasing (t : OutputType) (show_formats : Bool) (i : Nat) :
    (deviceSections t show_formats i).Pairwise (fun a b => a.rank < b.rank) := by
  unfold deviceSections
  split_ifs <;> simp [DocSection.rank, DeviceSection.rank]

theorem devicesSections_increasing (t : OutputType) (show_formats : Bool) (start n : Nat) :
    ((List.range' start n).flatMap (deviceSections t show_formats)).Pairwise
        (fun a b => a.rank < b.rank) ∧
    ∀ x, x ∈ (List.range' start n).flatMap (deviceSections t show_formats) →
      4 + 7 * start ≤ x.rank := by
  induction n generalizing start with
  | zero => simp
  | succ n ih =>
    obtain ⟨h1, h2⟩ := ih (start + 1)
    rw [List.range'_succ, List.flatMap_cons]
    constructor
    · rw [List.pairwise_append]
      refine ⟨deviceSections_increasing t show_formats start, h1, ?_⟩
      intro a ha b hb
      have := (deviceSections_rank t show_formats start a ha).2
      have := h2 b hb
      omega
    · intro x hx
      rcases List.mem_append.1 hx with h | h
      · exact (deviceSections_rank t show_formats start x h).1
      · have := h2 x h
        omega

theorem documentSections_increasing (windowing : Bool) (t : OutputType) (show_formats : Bool)
    (n : Nat) :
    (documentSections windowing t show_formats n).Pairwise (fun a b => a.rank < b.rank) := by
  obtain ⟨h1, h2⟩ := devicesSections_increasing t show_formats 0 n
  rw [← List.range_eq_range'] at h1 h2
  unfold documentSections
  rw [List.pairwise_append]
  refine ⟨?_, h1, ?_⟩
  · cases windowing <;> simp [DocSection.rank]
  · intro a ha b hb
    have hb2 := h2 b hb
    have hall : ∀ x, x ∈ [DocSection.InstanceExtensions, DocSection.Layers] ++
        (if windowing = true then [DocSection.PresentableSurfaces] else []) ++
        [DocSection.DeviceGroups] → x.rank < 4 := by
      cases windowing <;> simp [DocSection.rank]
    have ha2 : a.rank < 4 := hall a ha
    omega

theorem jsonSections_increasing (selected_gpu : Nat) :
    (jsonSections selected_gpu).Pairwise (fun a b => a.rank < b.rank) := by
  simp [jsonSections, DocSection.rank, DeviceSection.rank]
  omega

/-- C9 as stated fails: with two devices and a windowing platform, the json
pass enters only Layers and five sections of the selected device; it does not
enter Instance Extensions, Presentable Surfaces, Device Groups or Tooling, nor
any section of the other device. -/
theorem C9_json_pass_sections :
    printerPassSections sampleExternals insertionSort true OutputType.json sampleInstance
        [sampleGpu, sampleGpu] [sampleSurface] 0 false =
      some [DocSection.Layers, DocSection.Device 0 DeviceSection.Properties,
        DocSection.Device 0 DeviceSection.QueueFamilies,
        DocSection.Device 0 DeviceSection.Memory, DocSection.Device 0 DeviceSection.Features,
        DocSection.Device 0 DeviceSection.FormatProperties] := by
  decide

/-- C9, amended: a pass of the printer loop of `main` for the text, html or
json_full type enters Instance Extensions, Layers, Presentable Surfaces (when
built with a windowing platform), Device Groups and then, for each device in
turn, Properties, Extensions, Queue Families, Memory, Features, Tooling and
(except in a text document without `show_formats`) Format Properties; a pass for
the json type enters Layers and then, for the selected device only, Properties,
Queue Families, Memory, Features and Format Properties.  The sequence depends
on no other input, so an empty section does not remove a later one, and it is
strictly increasing in the linear order, so no section is entered twice. -/
theorem C9_section_order (X : Externals) (sort : SortFn) (windowing : Bool)
    (t : OutputType) (inst : AppInstance) (gpus : List AppGpu) (surfaces : List AppSurface)
    (selected_gpu : Nat) (show_formats : Bool) :
    printerPassSections X sort windowing t inst gpus surfaces selected_gpu show_formats =
      (if t = OutputType.json then
        (gpus[selected_gpu]?).map (fun _ => jsonSections selected_gpu)
      else some (documentSections windowing t show_formats gpus.length)) ∧
    (jsonSections selected_gpu).Pairwise (fun a b => a.rank < b.rank) ∧
    (documentSections windowing t show_formats gpus.length).Pairwise
      (fun a b => a.rank < b.rank) :=
  ⟨printerPassSections_eq X sort windowing t inst gpus surfaces selected_gpu show_formats,
    jsonSections_increasing selected_gpu,
    documentSections_increasing windowing t show_formats gpus.length⟩

/-! ## The Format Properties section -/

/-- C11: `DumpGpu` has the step of the Format Properties section, which is the
call sequence of `GpuDevDump`, exactly when the output type is not text or
`show_formats` is set: in text exactly when `show_formats` is set, and in html
and json_full always; `DumpGpuJson` has it always. -/
theorem C11_format_properties_section (X : Externals) (sort : SortFn) (t : OutputType)
    (gpu : AppGpu) (show_formats : Bool) :
    ((some DeviceSection.FormatProperties, GpuDevDump X t gpu) ∈
        DumpGpuSteps X sort t gpu show_formats ↔
      (t ≠ OutputType.text ∨ show_formats = true)) ∧
    (DeviceSection.FormatProperties ∈ stepSections (DumpGpuSteps X sort t gpu show_formats) ↔
      (t ≠ OutputType.text ∨ show_formats = true)) ∧
    (DeviceSection.FormatProperties ∈
        stepSections (DumpGpuSteps X sort OutputType.text gpu show_formats) ↔
      show_formats = true) ∧
    DeviceSection.FormatProperties ∈
      stepSections (DumpGpuSteps X sort OutputType.html gpu show_formats) ∧
    DeviceSection.FormatProperties ∈
      stepSections (DumpGpuSteps X sort OutputType.json_full gpu show_formats) ∧
    (some DeviceSection.FormatProperties, GpuDevDump X t gpu) ∈ DumpGpuJsonSteps X t gpu ∧
    DeviceSection.FormatProperties ∈ stepSections (DumpGpuJsonSteps X t gpu) := by
  have hsec : ∀ t1 : OutputType,
      (DeviceSection.FormatProperties ∈ stepSections (DumpGpuSteps X sort t1 gpu show_formats) ↔
        (t1 ≠ OutputType.text ∨ show_formats = true)) := by
    intro t1
    by_cases h : t1 ≠ OutputType.text ∨ show_formats = true
    · simp [DumpGpuSteps, stepSections, if_pos h, h]
    · simp [DumpGpuSteps, stepSections, if_neg h, h]
  refine ⟨?_, hsec t, ?_, ?_, ?_, ?_, ?_⟩
  · by_cases h : t ≠ OutputType.text ∨ show_formats = true
    · simp [DumpGpuSteps, if_pos h, h]
    · simp [DumpGpuSteps, if_neg h, h]
  · rw [hsec]; simp
  · rw [hsec]; simp
  · rw [hsec]; simp
  · simp [DumpGpuJsonSteps]
  · simp [DumpGpuJsonSteps, stepSections]

/-- C11 as stated fails: in the html output type `DumpGpu` emits
the Format Properties section although `show_formats` is not set. -/
theorem C11_html_formats_without_flag :
    DeviceSection.FormatProperties ∈
      stepSections (DumpGpuSteps sampleExternals insertionSort OutputType.html sampleGpu false) ∧
    (some DeviceSection.FormatProperties, GpuDevDump sampleExternals OutputType.html sampleGpu) ∈
      DumpGpuSteps sampleExternals insertionSort OutputType.html sampleGpu false ∧
    DeviceSection.FormatProperties ∉
      stepSections (DumpGpuSteps sampleExternals insertionSort OutputType.text sampleGpu false) := by
  refine ⟨?_, ?_, ?_⟩
  · simp [DumpGpuSteps, stepSections]
  · simp [DumpGpuSteps]
  · simp [DumpGpuSteps, stepSections]

/-! ## The arguments of `main` and the bounds check -/

theorem strcmp_eq_zero_iff (a b : CStr) : strcmp a b = 0 ↔ a = b :=
  ⟨strcmp_eq_zero a b, fun h => h ▸ strcmp_self a⟩

theorem strncmpEqual_json (arg : CStr) :
    strncmpEqual (cstr "--json") arg 6 = decide (arg.take 6 = cstr "--json") := by
  unfold strncmpEqual
  have h : (cstr "--json").take 6 = cstr "--json" := by decide
  rw [h]
  by_cases hc : arg.take 6 = cstr "--json"
  · simp [hc]
  · have hc2 : ¬ cstr "--json" = arg.take 6 := fun h2 => hc h2.symm
    simp [hc, hc2]

theorem strncmpEqual_index (arg : CStr) :
    strncmpEqual (cstr "--json=") arg 7 = decide (arg.take 7 = cstr "--json=") := by
  unfold strncmpEqual
  have h : (cstr "--json=").take 7 = cstr "--json=" := by decide
  rw [h]
  by_cases hc : arg.take 7 = cstr "--json="
  · simp [hc]
  · have hc2 : ¬ cstr "--json=" = arg.take 7 := fun h2 => hc h2.symm
    simp [hc, hc2]

/-- The condition of the second branch of the argument loop. -/
theorem jsonBranch_eq (arg : CStr) :
    (strncmpEqual (cstr "--json") arg 6 || decide (strcmp arg (cstr "-j") = 0)) =
      isJsonArg arg := by
  unfold isJsonArg
  rw [strncmpEqual_json, Bool.or_comm]
  congr 1
  exact decide_eq_decide.2 (strcmp_eq_zero_iff _ _)

/-- The four branches of `argStep` that accept an argument, and the rejection
of every other argument. -/
theorem argStep_cases (o : Options) (arg : CStr) :
    (arg = cstr "--full-json" ∧ argStep o arg = some { o with
      flags := { o.flags with human_readable_output := false, json_full_output := true } }) ∨
    (arg ≠ cstr "--full-json" ∧ isJsonArg arg = true ∧ argStep o arg = some { o with
      selected_gpu :=
        if isIndexArg arg = true then castUint32 (strtol (arg.drop 7)) else o.selected_gpu
      flags := { o.flags with human_readable_output := false, json_output := true } }) ∨
    (arg ≠ cstr "--full-json" ∧ isJsonArg arg = false ∧ arg = cstr "--html" ∧
      argStep o arg = some { o with
        flags := { o.flags with human_readable_output := false, html_output := true } }) ∨
    (arg ≠ cstr "--full-json" ∧ isJsonArg arg = false ∧ arg ≠ cstr "--html" ∧
      arg = cstr "--show-formats" ∧ argStep o arg = some { o with show_formats := true }) ∨
    (arg ≠ cstr "--full-json" ∧ isJsonArg arg = false ∧ arg ≠ cstr "--html" ∧
      arg ≠ cstr "--show-formats" ∧ argStep o arg = none) := by
  unfold argStep
  rw [jsonBranch_eq, strncmpEqual_index]
  simp only [strcmp_eq_zero_iff]
  by_cases h1 : arg = cstr "--full-json"
  · left
    exact ⟨h1, by rw [if_pos h1]⟩
  · right
    rw [if_neg h1]
    by_cases h2 : isJsonArg arg = true
    · left
      refine ⟨h1, h2, ?_⟩
      rw [if_pos h2]
      simp [isIndexArg]
    · right
      rw [if_neg h2]
      have h2f : isJsonArg arg = false := by simpa using h2
      by_cases h3 : arg = cstr "--html"
      · left
        exact ⟨h1, h2f, h3, by rw [if_pos h3]⟩
      · right
        rw [if_neg h3]
        by_cases h4 : arg = cstr "--show-formats"
        · left
          exact ⟨h1, h2f, h3, h4, by rw [if_pos h4]⟩
        · right
          refine ⟨h1, h2f, h3, h4, ?_⟩
          rw [if_neg h4]
          simp

theorem argStep_isSome (o : Options) (arg : CStr) :
    (argStep o arg).isSome = isAcceptedArg arg := by
  unfold isAcceptedArg
  rcases argStep_cases o arg with h | h | h | h | h
  · rw [h.2]; simp [h.1]
  · rw [h.2.2]; simp [h.2.1]
  · rw [h.2.2.2]; simp [h.2.2.1]
  · rw [h.2.2.2.2]; simp [h.2.2.2.1]
  · rw [h.2.2.2.2]; simp [h.1, h.2.1, h.2.2.1, h.2.2.2.1]

theorem argLoop_none (o : Options) (args : List CStr) (arg : CStr) (hmem : arg ∈ args)
    (hbad : isAcceptedArg arg = false) : argLoop o args = none := by
  induction args generalizing o with
  | nil => simp at hmem
  | cons a rest ih =>
    unfold argLoop
    cases hstep : argStep o a with
    | none => rfl
    | some o1 =>
      simp only
      rcases List.mem_cons.1 hmem with h | h
      · have h2 := argStep_isSome o a
        rw [hstep, ← h, hbad] at h2
        simp at h2
      · exact ih o1 h

theorem argLoop_some (o : Options) (args : List CStr)
    (hall : ∀ arg ∈ args, isAcceptedArg arg = true) : ∃ o1, argLoop o args = some o1 := by
  induction args generalizing o with
  | nil => exact ⟨o, rfl⟩
  | cons a rest ih =>
    unfold argLoop
    cases hstep : argStep o a with
    | none =>
      have h2 := argStep_isSome o a
      rw [hstep, hall a (List.mem_cons_self a rest)] at h2
      simp at h2
    | some o1 =>
      simp only
      exact ih o1 (fun arg harg => hall arg (List.mem_cons_of_mem a harg))

/-- What the argument loop leaves in the output-mode globals and in
`show_formats` when it accepts all arguments. -/
theorem argLoop_flags (o o1 : Options) (args : List CStr) (h : argLoop o args = some o1) :
    (o1.flags.json_full_output = true ↔
      o.flags.json_full_output = true ∨ cstr "--full-json" ∈ args) ∧
    (o1.flags.json_output = true ↔
      o.flags.json_output = true ∨ ∃ arg ∈ args, isJsonArg arg = true) ∧
    (o1.flags.html_output = true ↔ o.flags.html_output = true ∨ cstr "--html" ∈ args) ∧
    (o1.flags.human_readable_output = true ↔
      o.flags.human_readable_output = true ∧ cstr "--full-json" ∉ args ∧
        (∀ arg ∈ args, isJsonArg arg = false) ∧ cstr "--html" ∉ args) ∧
    (o1.show_formats = true ↔ o.show_formats = true ∨ cstr "--show-formats" ∈ args) := by
  induction args generalizing o with
  | nil =>
    simp only [argLoop, Option.some.injEq] at h
    subst h
    simp
  | cons a rest ih =>
    unfold argLoop at h
    have hj1 : isJsonArg (cstr "--full-json") = false := by decide
    have hj2 : isJsonArg (cstr "--html") = false := by decide
    have hj3 : isJsonArg (cstr "--show-formats") = false := by decide
    have hd1 : cstr "--full-json" ≠ cstr "--html" := by decide
    have hd2 : cstr "--full-json" ≠ cstr "--show-formats" := by decide
    have hd3 : cstr "--html" ≠ cstr "--show-formats" := by decide
    rcases argStep_cases o a with hc | hc | hc | hc | hc
    · obtain ⟨ha, hstep⟩ := hc
      rw [hstep] at h
      have hi := ih _ h
      subst ha
      simp only [List.mem_cons, List.forall_mem_cons, List.exists_mem_cons_iff] at hi ⊢
      simp [hi, hj1, hd1, hd2, hd1.symm, hd2.symm]
    · obtain ⟨ha, hjs, hstep⟩ := hc
      rw [hstep] at h
      have hi := ih _ h
      have hne2 : cstr "--html" ≠ a := fun h2 => by rw [← h2, hj2] at hjs; simp at hjs
      have hne3 : cstr "--show-formats" ≠ a := fun h2 => by rw [← h2, hj3] at hjs; simp at hjs
      have hne1 : cstr "--full-json" ≠ a := fun h2 => ha h2.symm
      simp only [List.mem_cons, List.forall_mem_cons, List.exists_mem_cons_iff] at hi ⊢
      simp [hi, hjs, hne1, hne2, hne3]
    · obtain ⟨ha, hjs, hhtml, hstep⟩ := hc
      rw [hstep] at h
      have hi := ih _ h
      subst hhtml
      simp only [List.mem_cons, List.forall_mem_cons, List.exists_mem_cons_iff] at hi ⊢
      simp [hi, hj2, hd1, hd3, hd1.symm, hd3.symm]
    · obtain ⟨ha, hjs, hhtml, hshow, hstep⟩ := hc
      rw [hstep] at h
      have hi := ih _ h
      subst hshow
      simp only [List.mem_cons, List.forall_mem_cons, List.exists_mem_cons_iff] at hi ⊢
      simp [hi, hj3, hd2, hd3, hd2.symm, hd3.symm]
    · obtain ⟨ha, hjs, hhtml, hshow, hstep⟩ := hc
      rw [hstep] at h
      simp at h

theorem main_rejected (env : MainEnv) (argv : List CStr)
    (h : mainOptions env.flags0 argv = none) :
    main env argv = { effects := print_usage (argv.headD []), status := 1 } := by
  unfold main
  rw [h]

theorem main_out_of_range (env : MainEnv) (argv : List CStr) (o : Options)
    (h : mainOptions env.flags0 argv = some o) (hk : env.gpus.length ≤ o.selected_gpu) :
    main env argv =
      { effects := createSurfaces env ++
          [Effect.cout (rangeMessage o.selected_gpu env.gpus.length)],
        status := 0 } := by
  unfold main
  rw [h]
  simp only
  rw [if_pos hk]

theorem main_in_range (env : MainEnv) (argv : List CStr) (o : Options)
    (h : mainOptions env.flags0 argv = some o) (hk : o.selected_gpu < env.gpus.length) :
    main env argv =
      { effects := createSurfaces env ++
          (mainPrinters o.flags).map Effect.new_Printer ++
          (mainPrinters o.flags).map (fun t => Effect.document t
            (printerPass env.X env.sort env.windowing t env.inst env.gpus (mainSurfaces env)
              o.selected_gpu o.show_formats)) ++
          destroySurfaces env,
        status := 0 } := by
  unfold main
  rw [h]
  simp only
  rw [if_neg (by omega)]

theorem createSurfaces_mem (env : MainEnv) (e : Effect) (h : e ∈ createSurfaces env) :
    ∃ name, e = Effect.create_window name ∨ e = Effect.create_surface name := by
  unfold createSurfaces at h
  split_ifs at h
  · rw [List.mem_flatMap] at h
    obtain ⟨x, _, hx⟩ := h
    simp only [List.mem_cons, List.mem_singleton, List.not_mem_nil, or_false] at hx
    exact ⟨x.name, hx⟩
  · simp at h

theorem destroySurfaces_mem (env : MainEnv) (e : Effect) (h : e ∈ destroySurfaces env) :
    ∃ name, e = Effect.AppDestroySurface name ∨ e = Effect.destroy_window name := by
  unfold destroySurfaces at h
  split_ifs at h
  · rw [List.mem_flatMap] at h
    obtain ⟨x, _, hx⟩ := h
    simp only [List.mem_cons, List.mem_singleton, List.not_mem_nil, or_false] at hx
    exact ⟨x.name, hx⟩
  · simp at h

/-- The three readings of the effects of a run that passes the bounds check. -/
theorem main_in_range_readings (env : MainEnv) (argv : List CStr) (o : Options)
    (h : mainOptions env.flags0 argv = some o) (hk : o.selected_gpu < env.gpus.length) :
    constructedPrinters (main env argv) = mainPrinters o.flags ∧
    emittedDocuments (main env argv) = mainPrinters o.flags ∧
    coutTexts (main env argv) = [] ∧ (main env argv).status = 0 := by
  rw [main_in_range env argv o h hk]
  have hc : ∀ f : Effect → Option OutputType,
      (∀ name, f (Effect.create_window name) = none) →
      (∀ name, f (Effect.create_surface name) = none) →
      (createSurfaces env).filterMap f = [] := by
    intro f h1 h2
    rw [List.filterMap_eq_nil_iff]
    intro e he
    obtain ⟨name, hn | hn⟩ := createSurfaces_mem env e he
    · rw [hn]; exact h1 name
    · rw [hn]; exact h2 name
  have hd : ∀ f : Effect → Option OutputType,
      (∀ name, f (Effect.AppDestroySurface name) = none) →
      (∀ name, f (Effect.destroy_window name) = none) →
      (destroySurfaces env).filterMap f = [] := by
    intro f h1 h2
    rw [List.filterMap_eq_nil_iff]
    intro e he
    obtain ⟨name, hn | hn⟩ := destroySurfaces_mem env e he
    · rw [hn]; exact h1 name
    · rw [hn]; exact h2 name
  refine ⟨?_, ?_, ?_, rfl⟩
  · unfold constructedPrinters
    simp only [List.filterMap_append]
    rw [hc _ (fun _ => rfl) (fun _ => rfl), hd _ (fun _ => rfl) (fun _ => rfl),
      List.filterMap_map, List.filterMap_map]
    simp [Function.comp_def, Effect.printerType]
  · unfold emittedDocuments
    simp only [List.filterMap_append]
    rw [hc _ (fun _ => rfl) (fun _ => rfl), hd _ (fun _ => rfl) (fun _ => rfl),
      List.filterMap_map, List.filterMap_map]
    simp [Function.comp_def, Effect.documentType]
  · unfold coutTexts
    rw [List.filterMap_eq_nil_iff]
    intro e he
    simp only [List.mem_append, List.mem_map] at he
    rcases he with ((he | ⟨t, _, he⟩) | ⟨t, _, he⟩) | he
    · obtain ⟨name, hn | hn⟩ := createSurfaces_mem env e he <;> rw [hn] <;> rfl
    · rw [← he]; rfl
    · rw [← he]; rfl
    · obtain ⟨name, hn | hn⟩ := destroySurfaces_mem env e he <;> rw [hn] <;> rfl

/-- The three readings of the effects of a run that fails the bounds check. -/
theorem main_out_of_range_readings (env : MainEnv) (argv : List CStr) (o : Options)
    (h : mainOptions env.flags0 argv = some o) (hk : env.gpus.length ≤ o.selected_gpu) :
    constructedPrinters (main env argv) = [] ∧
    emittedDocuments (main env argv) = [] ∧
    coutTexts (main env argv) = [rangeMessage o.selected_gpu env.gpus.length] ∧
    (main env argv).status = 0 := by
  rw [main_out_of_range env argv o h hk]
  have hmem : ∀ (β : Type) (f : Effect → Option β),
      (∀ name, f (Effect.create_window name) = none) →
      (∀ name, f (Effect.create_surface name) = none) →
      (createSurfaces env).filterMap f = [] := by
    intro β f h1 h2
    rw [List.filterMap_eq_nil_iff]
    intro e he
    obtain ⟨name, hn | hn⟩ := createSurfaces_mem env e he
    · rw [hn]; exact h1 name
    · rw [hn]; exact h2 name
  refine ⟨?_, ?_, ?_, rfl⟩
  · unfold constructedPrinters
    simp only [List.filterMap_append]
    rw [hmem _ _ (fun _ => rfl) (fun _ => rfl)]
    rfl
  · unfold emittedDocuments
    simp only [List.filterMap_append]
    rw [hmem _ _ (fun _ => rfl) (fun _ => rfl)]
    rfl
  · unfold coutTexts
    simp only [List.filterMap_append]
    rw [hmem _ _ (fun _ => rfl) (fun _ => rfl)]
    rfl

theorem mainPrinters_mem (flags : OutputFlags) :
    (mainPrinters flags).Nodup ∧
    (OutputType.text ∈ mainPrinters flags ↔ flags.human_readable_output = true) ∧
    (OutputType.html ∈ mainPrinters flags ↔ flags.html_output = true) ∧
    (OutputType.json ∈ mainPrinters flags ↔ flags.json_output = true) ∧
    (OutputType.json_full ∈ mainPrinters flags ↔ flags.json_full_output = true) := by
  unfold mainPrinters
  cases flags.human_readable_output <;> cases flags.html_output <;>
    cases flags.json_output <;> cases flags.json_full_output <;> simp

theorem digitChar_toNat (m : Nat) (h : m < 10) : (Nat.digitChar m).toNat = 48 + m := by
  interval_cases m <;> rfl

theorem digitsValue_digit (acc c : Nat) (rest : CStr) (h1 : 48 ≤ c) (h2 : c ≤ 57) :
    digitsValue acc (c :: rest) = digitsValue (10 * acc + (c - 48)) rest := by
  rw [digitsValue, if_pos ⟨h1, h2⟩]

/-- The decimal digits `Nat.toDigitsCore` puts in front of `ds` are read back
by `digitsValue`. -/
theorem toDigitsCore_spec (fuel : Nat) :
    ∀ (n : Nat) (ds : List Char), n < fuel →
      ∃ l : List Nat, (Nat.toDigitsCore 10 fuel n ds).map Char.toNat = l ++ ds.map Char.toNat ∧
        (∃ c tail, l = c :: tail ∧ 48 ≤ c ∧ c ≤ 57) ∧
        ∀ acc rest, digitsValue acc (l ++ rest) = digitsValue (acc * 10 ^ l.length + n) rest := by
  induction fuel with
  | zero => intro n ds h; omega
  | succ fuel ih =>
    intro n ds hn
    have hd : (Nat.digitChar (n % 10)).toNat = 48 + n % 10 :=
      digitChar_toNat _ (Nat.mod_lt _ (by decide))
    unfold Nat.toDigitsCore
    by_cases hz : n / 10 = 0
    · simp only [hz, if_true]
      refine ⟨[48 + n % 10], by simp [hd], ⟨_, _, rfl, by omega, by omega⟩, ?_⟩
      intro acc rest
      have hlt : n < 10 := by omega
      rw [List.singleton_append, digitsValue_digit _ _ _ (by omega) (by omega)]
      congr 1
      simp
      omega
    · simp only [hz, if_false]
      obtain ⟨l, hl, ⟨c, tail, hc, hc1, hc2⟩, hval⟩ :=
        ih (n / 10) (Nat.digitChar (n % 10) :: ds) (by omega)
      refine ⟨l ++ [48 + n % 10], ?_, ⟨c, tail ++ [48 + n % 10], by simp [hc], hc1, hc2⟩, ?_⟩
      · rw [hl]
        simp [hd]
      · intro acc rest
        rw [List.append_assoc, hval, List.singleton_append,
          digitsValue_digit _ _ _ (by omega) (by omega)]
        congr 1
        simp only [List.length_append, List.length_singleton, pow_succ]
        have := Nat.div_add_mod n 10
        have h3 : 48 + n % 10 - 48 = n % 10 := by omega
        rw [h3]
        ring_nf
        omega

theorem to_string_spec (k : Nat) :
    (∃ c tail, to_string k = c :: tail ∧ 48 ≤ c ∧ c ≤ 57) ∧ digitsValue 0 (to_string k) = k := by
  obtain ⟨l, hl, hfirst, hval⟩ := toDigitsCore_spec (k + 1) k [] (by omega)
  have hs : to_string k = l := by
    have h0 : to_string k = (Nat.toDigitsCore 10 (k + 1) k []).map Char.toNat := rfl
    rw [h0, hl]
    simp
  rw [hs]
  refine ⟨hfirst, ?_⟩
  have h := hval 0 []
  rw [List.append_nil] at h
  rw [h]
  simp [digitsValue]

theorem strtol_to_string (k : Nat) (hk : k < 2 ^ 63) : strtol (to_string k) = k := by
  obtain ⟨⟨c, tail, hc, h1, h2⟩, hval⟩ := to_string_spec k
  have hsp : isspace c = false := by
    unfold isspace
    simp
    omega
  unfold strtol
  rw [hc, List.dropWhile_cons_of_neg (by simp [hsp])]
  have e45 : c ≠ 45 := by omega
  have e43 : c ≠ 43 := by omega
  split
  · rename_i heq; simp at heq; omega
  · rename_i heq; simp at heq; omega
  · rw [← hc, hval]
    have : (k : Int) ≤ 2 ^ 63 - 1 := by
      have : (k : Int) < 2 ^ 63 := by exact_mod_cast hk
      omega
    simpa using this

theorem argLoop_selected_default (o o1 : Options) (args : List CStr)
    (h : argLoop o args = some o1) (hno : ∀ arg ∈ args, isIndexArg arg = false) :
    o1.selected_gpu = o.selected_gpu := by
  induction args generalizing o with
  | nil =>
    simp only [argLoop, Option.some.injEq] at h
    rw [← h]
  | cons a rest ih =>
    unfold argLoop at h
    have ha := hno a (List.mem_cons_self a rest)
    have hrest := fun arg harg => hno arg (List.mem_cons_of_mem a harg)
    rcases argStep_cases o a with hc | hc | hc | hc | hc
    · rw [hc.2] at h
      have hi := ih _ h hrest
      exact hi
    · rw [hc.2.2] at h
      have hi := ih _ h hrest
      rw [hi]
      simp [ha]
    · rw [hc.2.2.2] at h
      have hi := ih _ h hrest
      exact hi
    · rw [hc.2.2.2.2] at h
      have hi := ih _ h hrest
      exact hi
    · rw [hc.2.2.2.2] at h
      simp at h

theorem argStep_index (o : Options) (k : Nat) (hk : k < 2 ^ 32) :
    argStep o (cstr "--json=" ++ to_string k) = some { o with
      selected_gpu := k
      flags := { o.flags with human_readable_output := false, json_output := true } } := by
  obtain ⟨⟨c, tail, hc, _, _⟩, _⟩ := to_string_spec k
  have hjson : isJsonArg (cstr "--json=" ++ to_string k) = true := by
    unfold isJsonArg
    have : (cstr "--json=" ++ to_string k).take 6 = cstr "--json" := rfl
    simp [this]
  have hindex : isIndexArg (cstr "--json=" ++ to_string k) = true := by
    unfold isIndexArg strlen
    have h1 : (cstr "--json=" ++ to_string k).take 7 = cstr "--json=" := by
      rw [List.take_append_of_le_length (by decide)]
      rfl
    have h2 : (cstr "--json=" ++ to_string k).length > 7 := by
      rw [List.length_append, hc]
      have : (cstr "--json=").length = 7 := rfl
      simp [this]
    have h3 : 7 < (cstr "--json=" ++ to_string k).length := h2
    simp only [h1, h3, decide_True, Bool.and_self]
  have hdrop : (cstr "--json=" ++ to_string k).drop 7 = to_string k := by
    rw [List.drop_append_of_le_length (by decide)]
    rfl
  have hval : castUint32 (strtol (to_string k)) = k := by
    rw [strtol_to_string k (lt_trans hk (by decide))]
    unfold castUint32
    have : ((k : Int) % 2 ^ 32) = k := Int.emod_eq_of_lt (by omega) (by exact_mod_cast hk)
    rw [this]
    simp
  rcases argStep_cases o (cstr "--json=" ++ to_string k) with h | h | h | h | h
  · have := h.1
    have h3 := congrArg (List.take 3) this
    have h4 : (cstr "--json=" ++ to_string k).take 3 = cstr "--j" := rfl
    rw [h4] at h3
    exact absurd h3 (by decide)
  · rw [h.2.2, hindex, hdrop, hval]
    simp
  · rw [hjson] at h; simp at h
  · rw [hjson] at h; simp at h
  · rw [hjson] at h; simp at h

theorem sizeMinusOne_eq (n : Nat) (h1 : 1 ≤ n) (h2 : n < 2 ^ 64) : sizeMinusOne n = n - 1 := by
  unfold sizeMinusOne
  have : n + (2 ^ 64 - 1) = (n - 1) + 2 ^ 64 := by omega
  rw [this, Nat.add_mod_right, Nat.mod_eq_of_lt (by omega)]

theorem isJsonArg_of_isJsonOption (arg : CStr) (h : isJsonOption arg = true) :
    isJsonArg arg = true := by
  unfold isJsonOption at h
  simp only [Bool.or_eq_true, Bool.and_eq_true, decide_eq_true_eq] at h
  unfold isJsonArg
  rcases h with (h | h) | ⟨h, _⟩
  · simp [h]
  · rw [h]
    decide
  · have h6 : arg.take 6 = cstr "--json" := by
      have := congrArg (List.take 6) h
      rw [List.take_take] at this
      exact this
    simp [h6]

theorem isOutputOption_spec (arg : CStr) (h : isOutputOption arg = true) :
    isAcceptedArg arg = true ∧ isJsonArg arg = isJsonOption arg := by
  by_cases hj : isJsonOption arg = true
  · have := isJsonArg_of_isJsonOption arg hj
    exact ⟨by simp [isAcceptedArg, this], by rw [this, hj]⟩
  · have hjf : isJsonOption arg = false := by simpa using hj
    unfold isOutputOption at h
    rw [hjf] at h
    simp only [Bool.or_false, Bool.or_eq_true, decide_eq_true_eq] at h
    rcases h with (h | h) | h <;> subst h <;> exact ⟨by decide, by decide⟩

/-- C12, amended: for an argument vector made of the output options of the
usage text, `main` accepts the arguments, and with the device index in range
it constructs no printer twice and emits one document per printer, in the same
order; there is an html printer exactly when `--html` occurs, a json printer
exactly when `-j`, `--json` or `--json=<index>` occurs, a json_full printer
exactly when `--full-json` occurs, and a text printer exactly when none of
these occurs. -/
theorem C12_one_printer_per_format (env : MainEnv) (argv : List CStr)
    (hflags : env.flags0 = defaultOutputFlags)
    (hdoc : ∀ arg ∈ argv.drop 1, isOutputOption arg = true) :
    ∃ o : Options, mainOptions env.flags0 argv = some o ∧
      (o.selected_gpu < env.gpus.length →
        (constructedPrinters (main env argv)).Nodup ∧
        emittedDocuments (main env argv) = constructedPrinters (main env argv) ∧
        (OutputType.html ∈ constructedPrinters (main env argv) ↔
          cstr "--html" ∈ argv.drop 1) ∧
        (OutputType.json ∈ constructedPrinters (main env argv) ↔
          ∃ arg ∈ argv.drop 1, arg = cstr "-j" ∨ arg = cstr "--json" ∨
            (arg.take 7 = cstr "--json=" ∧ isDecimal (arg.drop 7) = true)) ∧
        (OutputType.json_full ∈ constructedPrinters (main env argv) ↔
          cstr "--full-json" ∈ argv.drop 1) ∧
        (OutputType.text ∈ constructedPrinters (main env argv) ↔
          cstr "--html" ∉ argv.drop 1 ∧
          (∀ arg ∈ argv.drop 1, ¬ (arg = cstr "-j" ∨ arg = cstr "--json" ∨
            (arg.take 7 = cstr "--json=" ∧ isDecimal (arg.drop 7) = true))) ∧
          cstr "--full-json" ∉ argv.drop 1)) := by
  obtain ⟨o, hargs⟩ := argLoop_some
    { flags := env.flags0, selected_gpu := 0, show_formats := false } (argv.drop 1)
    (fun arg harg => (isOutputOption_spec arg (hdoc arg harg)).1)
  refine ⟨o, hargs, fun hgpu => ?_⟩
  obtain ⟨hp, hd, _, _⟩ := main_in_range_readings env argv o hargs hgpu
  obtain ⟨hnodup, htext, hhtml, hjson, hfull⟩ := mainPrinters_mem o.flags
  obtain ⟨f1, f2, f3, f4, _⟩ := argLoop_flags _ _ _ hargs
  rw [hflags] at f1 f2 f3 f4
  have hj : ∀ arg ∈ argv.drop 1, (isJsonArg arg = true ↔
      (arg = cstr "-j" ∨ arg = cstr "--json" ∨
        (arg.take 7 = cstr "--json=" ∧ isDecimal (arg.drop 7) = true))) := by
    intro arg harg
    rw [(isOutputOption_spec arg (hdoc arg harg)).2]
    simp [isJsonOption, or_assoc]
  rw [hp, hd]
  refine ⟨hnodup, rfl, ?_, ?_, ?_, ?_⟩
  · rw [hhtml, f3]
    simp [defaultOutputFlags]
  · rw [hjson, f2]
    simp only [defaultOutputFlags, Bool.false_eq_true, false_or]
    constructor
    · rintro ⟨arg, harg, h⟩
      exact ⟨arg, harg, (hj arg harg).1 h⟩
    · rintro ⟨arg, harg, h⟩
      exact ⟨arg, harg, (hj arg harg).2 h⟩
  · rw [hfull, f1]
    simp [defaultOutputFlags]
  · rw [htext, f4]
    simp only [defaultOutputFlags, true_and]
    constructor
    · rintro ⟨a, b, c⟩
      exact ⟨c, fun arg harg hcon => by
        have := b arg harg
        rw [(hj arg harg).2 hcon] at this
        simp at this, a⟩
    · rintro ⟨a, b, c⟩
      refine ⟨c, fun arg harg => ?_, a⟩
      cases hv : isJsonArg arg with
      | false => rfl
      | true => exact absurd ((hj arg harg).1 hv) (b arg harg)

theorem C12_one_printer_per_format_witness :
    sampleEnv.flags0 = defaultOutputFlags ∧
    (∀ arg ∈ [cstr "vulkaninfo", cstr "--html", cstr "--json=0", cstr "--full-json",
        cstr "--html"].drop 1, isOutputOption arg = true) ∧
    constructedPrinters (main sampleEnv
        [cstr "vulkaninfo", cstr "--html", cstr "--json=0", cstr "--full-json", cstr "--html"]) =
      [OutputType.html, OutputType.json, OutputType.json_full] ∧
    emittedDocuments (main sampleEnv
        [cstr "vulkaninfo", cstr "--html", cstr "--json=0", cstr "--full-json", cstr "--html"]) =
      [OutputType.html, OutputType.json, OutputType.json_full] ∧
    ∃ o : Options,
      mainOptions sampleEnv.flags0
        [cstr "vulkaninfo", cstr "--html", cstr "--json=0", cstr "--full-json", cstr "--html"] =
          some o :=
  ⟨rfl, by decide, by decide, by decide,
    (C12_one_printer_per_format sampleEnv
      [cstr "vulkaninfo", cstr "--html", cstr "--json=0", cstr "--full-json", cstr "--html"]
      rfl (by decide)).imp (fun _ h => h.1)⟩

/-- C12 as stated fails: `--html -j` gives the html and the json
printer and no text printer, so the human-readable document is not produced
together with the other two. -/
theorem C12_text_dropped_by_format_flag :
    constructedPrinters (main sampleEnv [cstr "vulkaninfo", cstr "--html", cstr "-j"]) =
      [OutputType.html, OutputType.json] ∧
    emittedDocuments (main sampleEnv [cstr "vulkaninfo", cstr "--html", cstr "-j"]) =
      [OutputType.html, OutputType.json] ∧
    OutputType.text ∉
      constructedPrinters (main sampleEnv [cstr "vulkaninfo", cstr "--html", cstr "-j"]) ∧
    constructedPrinters (main sampleEnv [cstr "vulkaninfo"]) = [OutputType.text] := by
  refine ⟨by decide, by decide, by decide, by decide⟩

/-- An argument vector with an argument that is none of `--full-json`, `-j`,
`--html`, `--show-formats` and does not begin with `--json` makes `main` print
the usage text and return 1; nothing else happens. -/
theorem main_usage_of_unaccepted (env : MainEnv) (argv : List CStr) (arg : CStr)
    (hmem : arg ∈ argv.drop 1) (hbad : isAcceptedArg arg = false) :
    main env argv = { effects := print_usage (argv.headD []), status := 1 } ∧
    constructedPrinters (main env argv) = [] ∧ emittedDocuments (main env argv) = [] := by
  have h := main_rejected env argv (argLoop_none _ _ arg hmem hbad)
  rw [h]
  exact ⟨rfl, rfl, rfl⟩

/-- C13: the argument `--jsonx`, which is none of the documented options, is
accepted: `main` prints no usage text, returns 0 and emits the json document,
while `--bogus` and `--help` give the usage text and the return value 1. -/
theorem C13_jsonx_accepted :
    (main sampleEnv [cstr "vulkaninfo", cstr "--jsonx"]).status = 0 ∧
    coutTexts (main sampleEnv [cstr "vulkaninfo", cstr "--jsonx"]) = [] ∧
    constructedPrinters (main sampleEnv [cstr "vulkaninfo", cstr "--jsonx"]) =
      [OutputType.json] ∧
    emittedDocuments (main sampleEnv [cstr "vulkaninfo", cstr "--jsonx"]) = [OutputType.json] ∧
    main sampleEnv [cstr "vulkaninfo", cstr "--jsonx"] =
      main sampleEnv [cstr "vulkaninfo", cstr "--json"] ∧
    main sampleEnv [cstr "vulkaninfo", cstr "--bogus"] =
      { effects := print_usage (cstr "vulkaninfo"), status := 1 } ∧
    main sampleEnv [cstr "vulkaninfo", cstr "--html", cstr "--help"] =
      { effects := print_usage (cstr "vulkaninfo"), status := 1 } := by
  have h1 : mainOptions sampleEnv.flags0 [cstr "vulkaninfo", cstr "--jsonx"] =
      some { flags := { human_readable_output := false, html_output := false,
                        json_output := true, json_full_output := false },
             selected_gpu := 0, show_formats := false } := by decide
  have h2 : mainOptions sampleEnv.flags0 [cstr "vulkaninfo", cstr "--json"] =
      some { flags := { human_readable_output := false, html_output := false,
                        json_output := true, json_full_output := false },
             selected_gpu := 0, show_formats := false } := by decide
  obtain ⟨r1, r2, r3, r4⟩ := main_in_range_readings sampleEnv _ _ h1 (by decide)
  refine ⟨r4, r3, r1.trans (by decide), r2.trans (by decide), ?_, ?_, ?_⟩
  · rw [main_in_range sampleEnv _ _ h1 (by decide), main_in_range sampleEnv _ _ h2 (by decide)]
  · exact main_rejected sampleEnv _ (by decide)
  · exact main_rejected sampleEnv _ (by decide)

/-- The bounds check of `main` on the index that the argument loop leaves in
`selected_gpu`: with `n` devices, `1 ≤ n`, and `n ≤ selected_gpu` it writes
the out-of-range line, returns 0 and constructs no printer; below `n` it
writes no such line. The index is 0 when no argument carries one, and
`--json=k` with `k < 2^32` leaves `k`. -/
theorem main_bounds_check (env : MainEnv) (argv : List CStr) (o : Options)
    (hargs : mainOptions env.flags0 argv = some o)
    (hn : 1 ≤ env.gpus.length) (hsize : env.gpus.length < 2 ^ 64) :
    (env.gpus.length ≤ o.selected_gpu →
      coutTexts (main env argv) =
        [cstr "The selected gpu (" ++ to_string o.selected_gpu ++
          cstr ") is not in the valid range of 0 to " ++ to_string (env.gpus.length - 1) ++
          cstr ".\n"] ∧
      (main env argv).status = 0 ∧
      constructedPrinters (main env argv) = [] ∧
      emittedDocuments (main env argv) = []) ∧
    (o.selected_gpu < env.gpus.length →
      coutTexts (main env argv) = [] ∧
      (main env argv).status = 0 ∧
      constructedPrinters (main env argv) = mainPrinters o.flags ∧
      emittedDocuments (main env argv) = mainPrinters o.flags) ∧
    ((∀ arg ∈ argv.drop 1, ¬ (strlen arg > 7 ∧ arg.take 7 = cstr "--json=")) →
      o.selected_gpu = 0) ∧
    (∀ (argv0 : CStr) (k : Nat), k < 2 ^ 32 →
      mainOptions env.flags0 [argv0, cstr "--json=" ++ to_string k] =
        some { flags := { env.flags0 with human_readable_output := false, json_output := true },
               selected_gpu := k, show_formats := false }) := by
  refine ⟨?_, ?_, ?_, ?_⟩
  · intro hk
    obtain ⟨r1, r2, r3, r4⟩ := main_out_of_range_readings env argv o hargs hk
    refine ⟨?_, r4, r1, r2⟩
    rw [r3]
    unfold rangeMessage
    rw [sizeMinusOne_eq _ hn hsize]
  · intro hk
    obtain ⟨r1, r2, r3, r4⟩ := main_in_range_readings env argv o hargs hk
    exact ⟨r3, r4, r1, r2⟩
  · intro hno
    unfold mainOptions at hargs
    have h := argLoop_selected_default _ _ _ hargs (fun arg harg => by
      have := hno arg harg
      unfold isIndexArg
      by_cases h1 : strlen arg > 7
      · have h2 : ¬ arg.take 7 = cstr "--json=" := fun h2 => this ⟨h1, h2⟩
        simp [h2]
      · simp [h1])
    exact h
  · intro argv0 k hk
    unfold mainOptions
    simp only [List.drop_succ_cons, List.drop_zero, argLoop]
    rw [argStep_index _ k hk]

/-- C14: the index of `--json=4294967296` is 2^32, which is not below the device
count 1, yet `main` writes no out-of-range line: the conversion to `uint32_t`
leaves `selected_gpu = 0`, and the run constructs the json printer, emits the
json document of device 0 and returns 0, exactly as `--json=0` does. The index
1 of `--json=1` does give the line, with the range `0 to 0`. -/
theorem C14_index_wraps_to_zero :
    strtol (cstr "4294967296") = 4294967296 ∧
    castUint32 (strtol (cstr "4294967296")) = 0 ∧
    sampleEnv.gpus.length = 1 ∧
    mainOptions sampleEnv.flags0 [cstr "vulkaninfo", cstr "--json=4294967296"] =
      some { flags := { human_readable_output := false, html_output := false,
                        json_output := true, json_full_output := false },
             selected_gpu := 0, show_formats := false } ∧
    coutTexts (main sampleEnv [cstr "vulkaninfo", cstr "--json=4294967296"]) = [] ∧
    (main sampleEnv [cstr "vulkaninfo", cstr "--json=4294967296"]).status = 0 ∧
    constructedPrinters (main sampleEnv [cstr "vulkaninfo", cstr "--json=4294967296"]) =
      [OutputType.json] ∧
    emittedDocuments (main sampleEnv [cstr "vulkaninfo", cstr "--json=4294967296"]) =
      [OutputType.json] ∧
    main sampleEnv [cstr "vulkaninfo", cstr "--json=4294967296"] =
      main sampleEnv [cstr "vulkaninfo", cstr "--json=0"] ∧
    coutTexts (main sampleEnv [cstr "vulkaninfo", cstr "--json=1"]) =
      [cstr "The selected gpu (1) is not in the valid range of 0 to 0.\n"] ∧
    constructedPrinters (main sampleEnv [cstr "vulkaninfo", cstr "--json=1"]) = [] := by
  have h1 : mainOptions sampleEnv.flags0 [cstr "vulkaninfo", cstr "--json=4294967296"] =
      some { flags := { human_readable_output := false, html_output := false,
                        json_output := true, json_full_output := false },
             selected_gpu := 0, show_formats := false } := by decide
  have h2 : mainOptions sampleEnv.flags0 [cstr "vulkaninfo", cstr "--json=0"] =
      some { flags := { human_readable_output := false, html_output := false,
                        json_output := true, json_full_output := false },
             selected_gpu := 0, show_formats := false } := by decide
  obtain ⟨r1, r2, r3, r4⟩ := main_in_range_readings sampleEnv _ _ h1 (by decide)
  refine ⟨by decide, by decide, rfl, h1, r3, r4, r1.trans (by decide), r2.trans (by decide),
    ?_, by decide, by decide⟩
  rw [main_in_range sampleEnv _ _ h1 (by decide), main_in_range sampleEnv _ _ h2 (by decide)]

/-! ## Groups without `VK_KHR_device_group` -/

theorem physicalDevicesLoop_strings (X : Externals) (t : OutputType) (id : Nat) (l : List CStr) :
    ∀ c ∈ physicalDevicesLoop X t id l, ∃ s, c = Call.PrintString s := by
  induction l generalizing id with
  | nil => intro c hc; simp [physicalDevicesLoop] at hc
  | cons a rest ih =>
    intro c hc
    rw [physicalDevicesLoop, List.mem_cons] at hc
    rcases hc with h | h
    · exact ⟨_, h⟩
    · exact ih _ c h

/-- C15: with the device group creation extension enabled, `DumpGroups` emits
the body of its loop for every group, whatever the other groups are; for a
group whose capability query reports the extension as unsupported the body is
the group object with its Properties object, then the notice once, then the
end of the group object: it opens no `Present Capabilities` object and its
calls do not depend on the capabilities record (no `presentMask` entry is
read). -/
theorem C15_unsupported_group_notice (X : Externals) (t : OutputType) (inst : AppInstance)
    (group_id : Nat) (group : DeviceGroup)
    (henabled : inst.CheckExtensionEnabled VK_KHR_DEVICE_GROUP_CREATION_EXTENSION_NAME = true)
    (hgroup : inst.GetGroups[group_id]? = some group)
    (hcap : group.group_capabilities.1 = false) :
    DumpGroups X t inst =
      [Call.SetHeader, Call.ObjectStart (cstr "Device Groups"), Call.IndentDecrease] ++
        inst.GetGroups.enum.flatMap (fun p => dumpGroup X t p.1 p.2) ++
        [Call.IndentIncrease, Call.ObjectEnd, Call.AddNewline] ∧
    (group_id, group) ∈ inst.GetGroups.enum ∧
    dumpGroup X t group_id group =
      [Call.ObjectStart (cstr "Group " ++ to_string group_id),
        Call.ObjectStart (cstr "Properties"),
        Call.ArrayStart (cstr "physicalDevices") group.physicalDeviceCount] ++
        physicalDevicesLoop X t 0 group.group_props ++
        [Call.ArrayEnd,
          Call.PrintKeyValue (cstr "subsetAllocation") (Value.num group.subsetAllocation) 0 [],
          Call.ObjectEnd, Call.AddNewline,
          Call.PrintElement (Value.text (cstr
            "Group does not support VK_KHR_device_group, skipping printing present capabilities")),
          Call.ObjectEnd, Call.AddNewline] ∧
    (dumpGroup X t group_id group).count groupNotice = 1 ∧
    Call.ObjectStart (cstr "Present Capabilities") ∉ dumpGroup X t group_id group ∧
    (∀ caps : VkDeviceGroupPresentCapabilitiesKHR,
      dumpGroup X t group_id { group with group_capabilities := (false, caps) } =
        dumpGroup X t group_id group) := by
  have hne : inst.GetGroups ≠ [] := by
    intro h
    rw [h] at hgroup
    simp at hgroup
  have hshape : dumpGroup X t group_id group =
      [Call.ObjectStart (cstr "Group " ++ to_string group_id),
        Call.ObjectStart (cstr "Properties"),
        Call.ArrayStart (cstr "physicalDevices") group.physicalDeviceCount] ++
        physicalDevicesLoop X t 0 group.group_props ++
        [Call.ArrayEnd,
          Call.PrintKeyValue (cstr "subsetAllocation") (Value.num group.subsetAllocation) 0 [],
          Call.ObjectEnd, Call.AddNewline,
          Call.PrintElement (Value.text (cstr
            "Group does not support VK_KHR_device_group, skipping printing present capabilities")),
          Call.ObjectEnd, Call.AddNewline] := by
    unfold dumpGroup
    rw [if_pos hcap]
    simp
  have hloop1 : Call.ObjectStart (cstr "Present Capabilities") ∉
      physicalDevicesLoop X t 0 group.group_props := by
    intro h
    obtain ⟨s, hs⟩ := physicalDevicesLoop_strings X t 0 _ _ h
    cases hs
  have hloop2 : groupNotice ∉ physicalDevicesLoop X t 0 group.group_props := by
    intro h
    obtain ⟨s, hs⟩ := physicalDevicesLoop_strings X t 0 _ _ h
    cases hs
  have hname : cstr "Present Capabilities" ≠ cstr "Group " ++ to_string group_id := by
    intro h
    have h2 := congrArg List.head? h
    have h3 : (cstr "Group " ++ to_string group_id).head? = some 71 := rfl
    have h4 : (cstr "Present Capabilities").head? = some 80 := rfl
    rw [h3, h4] at h2
    revert h2
    decide
  refine ⟨DumpGroups_eq X t inst henabled hne, mem_enum_of_getElem? _ _ _ hgroup, hshape,
    ?_, ?_, ?_⟩
  · rw [hshape, List.count_append, List.count_append, List.count_eq_zero_of_not_mem hloop2]
    simp [groupNotice, List.count_cons]
  · rw [hshape]
    intro h
    rw [List.mem_append, List.mem_append] at h
    rcases h with (h | h) | h
    · simp at h
      rcases h with h | h
      · exact hname h
      · revert h; decide
    · exact hloop1 h
    · simp at h
  · intro caps
    unfold dumpGroup
    simp [hcap]

theorem C15_unsupported_group_notice_witness :
    sampleDegradedInstance.CheckExtensionEnabled
      VK_KHR_DEVICE_GROUP_CREATION_EXTENSION_NAME = true ∧
    sampleDegradedInstance.GetGroups[0]? = some sampleUnsupportedGroup ∧
    sampleUnsupportedGroup.group_capabilities.1 = false ∧
    (DumpGroups sampleExternals OutputType.text sampleDegradedInstance).take 19 =
      [Call.SetHeader, Call.ObjectStart (cstr "Device Groups"), Call.IndentDecrease,
        Call.ObjectStart (cstr "Group 0"),
        Call.ObjectStart (cstr "Properties"),
        Call.ArrayStart (cstr "physicalDevices") 2,
        Call.PrintString (cstr "gpu a (ID: 0)"),
        Call.PrintString (cstr "gpu b (ID: 1)"),
        Call.ArrayEnd,
        Call.PrintKeyValue (cstr "subsetAllocation") (Value.num 0) 0 [],
        Call.ObjectEnd, Call.AddNewline,
        Call.PrintElement (Value.text (cstr
          "Group does not support VK_KHR_device_group, skipping printing present capabilities")),
        Call.ObjectEnd, Call.AddNewline,
        Call.ObjectStart (cstr "Group 1"),
        Call.ObjectStart (cstr "Properties"),
        Call.ArrayStart (cstr "physicalDevices") 2,
        Call.PrintString (cstr "gpu a (ID: 0)")] :=
  ⟨rfl, rfl, rfl,
    (congrArg (List.take 19)
      (C15_unsupported_group_notice sampleExternals OutputType.text sampleDegradedInstance 0
        sampleUnsupportedGroup rfl rfl rfl).1).trans (by decide)⟩

/-! ## The layer objects -/

theorem DumpExtensions_object (sort : SortFn) (hsort : sort.Conforms) (label : CStr)
    (extensions : List VkExtensionProperties) :
    ∃ (sorted : List VkExtensionProperties) (max_length : Nat),
      sorted.Perm extensions ∧
      DumpExtensions sort label extensions = extensionsObject label sorted max_length :=
  ⟨sortedExtensions sort extensions, _, (sortedExtensions_spec sort hsort extensions).1, rfl⟩

theorem sort_nil (sort : SortFn) (hsort : sort.Conforms) (α : Type) (lt : α → α → Bool)
    (h : StrictWeakOrder lt) : sort α lt [] = [] :=
  List.Perm.eq_nil (hsort α lt [] h).1

theorem sort_singleton (sort : SortFn) (hsort : sort.Conforms) (α : Type) (lt : α → α → Bool)
    (h : StrictWeakOrder lt) (a : α) : sort α lt [a] = [a] :=
  List.perm_singleton.1 (hsort α lt [a] h).1

theorem DumpExtensions_nil (sort : SortFn) (hsort : sort.Conforms) (label : CStr) :
    DumpExtensions sort label [] = extensionsObject label [] 0 := by
  unfold DumpExtensions sortedExtensions
  rw [sort_nil sort hsort _ _ extensionLess_swo]
  rfl

/-- C16: in the text, html and json_full output types `DumpLayers` emits one
layer object per input layer (the layers rearranged by the sort), each holding
one `Layer Extensions` object with one entry per extension of the layer and a
`Devices` container with one entry per device, in device order; the entry of a
device holds its `GPU id` and one `Layer-Device Extensions` object with one
entry per extension the device reports for the layer. A layer without
extensions on a device that reports none gives empty extension objects. -/
theorem C16_DumpLayers_structure (X : Externals) (sort : SortFn) (t : OutputType)
    (layers : List LayerExtensionList) (gpus : List AppGpu) (hsort : sort.Conforms)
    (ht : t ≠ OutputType.json) :
    (∃ sorted : List LayerExtensionList,
      sorted.Perm layers ∧ sorted.length = layers.length ∧
      DumpLayers X sort t layers gpus =
        if t = OutputType.json_full then
          [Call.ObjectStart (cstr "Layer Properties")] ++
            sorted.flatMap (layerRecordJsonFull X sort gpus) ++ [Call.ObjectEnd]
        else
          [Call.SetHeader, Call.ArrayStart (cstr "Layers") layers.length, Call.IndentDecrease] ++
            sorted.flatMap (layerRecordTextHtml X sort t gpus) ++
            [Call.IndentIncrease, Call.ArrayEnd]) ∧
    (∀ layer : LayerExtensionList,
      ∃ (extensions : List VkExtensionProperties) (max_length : Nat),
        extensions.Perm layer.extension_properties ∧
        extensions.length = layer.extension_properties.length ∧
        layerRecordTextHtml X sort t gpus layer =
          [Call.ObjectStart (layerHeader X t layer.layer_properties)] ++
            extensionsObject (cstr "Layer") extensions max_length ++
            [Call.ArrayStart (cstr "Devices") gpus.length] ++
            gpus.flatMap (layerDeviceTextHtml sort layer.layer_properties.layerName) ++
            [Call.ArrayEnd, Call.ObjectEnd] ∧
        layerRecordJsonFull X sort gpus layer =
          [Call.ObjectStart layer.layer_properties.layerName,
            Call.PrintKeyString (cstr "layerName") layer.layer_properties.layerName 21,
            Call.PrintKeyString (cstr "version")
              (X.VkVersionString layer.layer_properties.specVersion) 21,
            Call.PrintKeyValue (cstr "implementation version")
              (Value.num layer.layer_properties.implementationVersion) 21 [],
            Call.PrintKeyString (cstr "description") layer.layer_properties.description 21] ++
            extensionsObject (cstr "Layer") extensions max_length ++
            [Call.ObjectStart (cstr "Devices")] ++
            gpus.flatMap (layerDeviceJsonFull sort layer.layer_properties.layerName) ++
            [Call.ObjectEnd, Call.ObjectEnd]) ∧
    (∀ (layerName : CStr) (gpu : AppGpu),
      ∃ (extensions : List VkExtensionProperties) (max_length : Nat),
        extensions.Perm (gpu.AppGetPhysicalDeviceLayerExtensions layerName) ∧
        extensions.length = (gpu.AppGetPhysicalDeviceLayerExtensions layerName).length ∧
        layerDeviceTextHtml sort layerName gpu =
          [Call.PrintKeyValue (cstr "GPU id") (Value.num gpu.id) 0 gpu.props.deviceName] ++
            extensionsObject (cstr "Layer-Device") extensions max_length ++ [Call.AddNewline] ∧
        layerDeviceJsonFull sort layerName gpu =
          [Call.ObjectStart gpu.props.deviceName,
            Call.PrintKeyValue (cstr "GPU id") (Value.num gpu.id) 0 gpu.props.deviceName] ++
            extensionsObject (cstr "Layer-Device") extensions max_length ++ [Call.ObjectEnd]) ∧
    (∀ (props : VkLayerProperties) (gpu : AppGpu),
      gpu.AppGetPhysicalDeviceLayerExtensions props.layerName = [] →
      DumpLayers X sort OutputType.text [{ layer_properties := props, extension_properties := [] }]
          [gpu] =
        [Call.SetHeader, Call.ArrayStart (cstr "Layers") 1, Call.IndentDecrease,
          Call.ObjectStart (layerHeader X OutputType.text props),
          Call.ObjectStart (cstr "Layer Extensions"), Call.ObjectEnd,
          Call.ArrayStart (cstr "Devices") 1,
          Call.PrintKeyValue (cstr "GPU id") (Value.num gpu.id) 0 gpu.props.deviceName,
          Call.ObjectStart (cstr "Layer-Device Extensions"), Call.ObjectEnd,
          Call.AddNewline, Call.ArrayEnd, Call.ObjectEnd,
          Call.IndentIncrease, Call.ArrayEnd]) := by
  refine ⟨?_, ?_, ?_, ?_⟩
  · have h := hsort LayerExtensionList layerLess layers layerLess_swo
    refine ⟨sortedLayers sort layers, h.1, h.1.length_eq, ?_⟩
    have hlen : (sortedLayers sort layers).length = layers.length := h.1.length_eq
    cases t <;> simp [DumpLayers, hlen] at ht ⊢
  · intro layer
    obtain ⟨sorted, w, hp, he⟩ := DumpExtensions_object sort hsort (cstr "Layer")
      layer.extension_properties
    refine ⟨sorted, w, hp, hp.length_eq, ?_, ?_⟩
    · unfold layerRecordTextHtml
      rw [he]
    · unfold layerRecordJsonFull
      rw [he]
  · intro layerName gpu
    obtain ⟨sorted, w, hp, he⟩ := DumpExtensions_object sort hsort (cstr "Layer-Device")
      (gpu.AppGetPhysicalDeviceLayerExtensions layerName)
    refine ⟨sorted, w, hp, hp.length_eq, ?_, ?_⟩
    · unfold layerDeviceTextHtml
      rw [he]
    · unfold layerDeviceJsonFull
      rw [he]
  · intro props gpu hnone
    unfold DumpLayers sortedLayers
    rw [sort_singleton sort hsort _ _ layerLess_swo]
    simp only [List.flatMap_cons, List.flatMap_nil, layerRecordTextHtml, layerDeviceTextHtml,
      hnone, DumpExtensions_nil sort hsort, extensionsObject]
    simp
    exact ⟨by decide, by decide⟩

theorem C16_DumpLayers_structure_witness :
    insertionSort.Conforms ∧ OutputType.text ≠ OutputType.json ∧
    sampleGpu.AppGetPhysicalDeviceLayerExtensions sampleLayer.layer_properties.layerName = [] ∧
    DumpLayers sampleExternals insertionSort OutputType.text [sampleLayer] [sampleGpu] =
      [Call.SetHeader, Call.ArrayStart (cstr "Layers") 1, Call.IndentDecrease,
        Call.ObjectStart (cstr "VK_LAYER_TEST (test layer) Vulkan version 1, layer version 7"),
        Call.ObjectStart (cstr "Layer Extensions"), Call.ObjectEnd,
        Call.ArrayStart (cstr "Devices") 1,
        Call.PrintKeyValue (cstr "GPU id") (Value.num 0) 0 (cstr "gpu a"),
        Call.ObjectStart (cstr "Layer-Device Extensions"), Call.ObjectEnd,
        Call.AddNewline, Call.ArrayEnd, Call.ObjectEnd,
        Call.IndentIncrease, Call.ArrayEnd] :=
  ⟨insertionSort_conforms, by decide, rfl,
    ((C16_DumpLayers_structure sampleExternals insertionSort OutputType.text [sampleLayer]
      [sampleGpu] insertionSort_conforms (by decide)).2.2.2 sampleLayer.layer_properties
        sampleGpu rfl).trans (by decide)⟩

/-! ## The surfaces on the early return -/

/-- C17: with one surface extension and one device, `--json=1` makes `main`
create the window and the surface, write the out-of-range line and return 0
without a call of `AppDestroySurface` or `destroy_window`; the run with `-j`
ends with both calls. -/
theorem C17_early_return_keeps_surfaces :
    main sampleEnv [cstr "vulkaninfo", cstr "--json=1"] =
      { effects :=
          [Effect.create_window (cstr "VK_KHR_xcb_surface"),
            Effect.create_surface (cstr "VK_KHR_xcb_surface"),
            Effect.cout (cstr "The selected gpu (1) is not in the valid range of 0 to 0.\n")],
        status := 0 } ∧
    Effect.AppDestroySurface (cstr "VK_KHR_xcb_surface") ∉
      (main sampleEnv [cstr "vulkaninfo", cstr "--json=1"]).effects ∧
    Effect.destroy_window (cstr "VK_KHR_xcb_surface") ∉
      (main sampleEnv [cstr "vulkaninfo", cstr "--json=1"]).effects ∧
    (main sampleEnv [cstr "vulkaninfo", cstr "-j"]).effects.map Effect.documentType =
      [none, none, none, some OutputType.json, none, none] ∧
    (main sampleEnv [cstr "vulkaninfo", cstr "-j"]).effects.drop 4 =
      [Effect.AppDestroySurface (cstr "VK_KHR_xcb_surface"),
        Effect.destroy_window (cstr "VK_KHR_xcb_surface")] := by
  refine ⟨by decide, by decide, by decide, by decide, by decide⟩

/-! ## The annotations of the usability summary -/

theorem memtypeBit_test (mask i : Nat) (hi : i < 32) :
    decide (mask &&& memtypeBit i ≠ 0) = mask.testBit i := by
  have h : mask &&& memtypeBit i ≠ 0 ↔ mask.testBit i = true := presentMaskBit_test mask i hi
  cases hb : mask.testBit i with
  | false =>
    rw [hb] at h
    simpa using h
  | true =>
    rw [hb] at h
    simpa using h

theorem usableString_entries (X : Externals) (bit tiling : Nat)
    (formats : List MemImageSupport) :
    ∃ tail : CStr, (tail = [] ∨ tail = cstr "None") ∧
      usableString X bit tiling formats =
        X.VkImageTilingString tiling ++ cstr ": " ++
          List.intercalate (cstr ", ")
            ((formats.enum.filter (fun p =>
                regularCompatible p.2 bit || sparseCompatible p.2 bit ||
                  transientCompatible p.2 bit)).map
              (fun p => usableName X p.1 p.2 ++ usableAnnotation p.2 bit)) ++ tail := by
  have hloop : usableLoop X bit 0 formats (X.VkImageTilingString tiling ++ cstr ": ") true =
      X.VkImageTilingString tiling ++ cstr ": " ++
        List.intercalate (cstr ", ")
          ((formats.enum.filter (fun p =>
              regularCompatible p.2 bit || sparseCompatible p.2 bit ||
                transientCompatible p.2 bit)).map
            (fun p => usableName X p.1 p.2 ++ usableAnnotation p.2 bit)) := by
    rw [usableLoop_true]
    rfl
  unfold usableString
  simp only
  rw [hloop]
  split_ifs
  · exact ⟨cstr "None", Or.inr rfl, rfl⟩
  · exact ⟨[], Or.inl rfl, by rw [List.append_nil]⟩

/-- C18: in a non-json output `GpuDumpMemoryProps` emits the entry of every
memory type below `memoryTypeCount`, and for `i < 32` the `usable for` array of
the entry of memory type `i` holds, per tiling mode, the string made of the
tiling name, `": "` and the `", "`-separated entries of exactly the formats
that are regular-, sparse- or transient-compatible with bit `i` (support flag
set and bit `i` of the mask set), each entry being the name of the format and
its annotation (`"None"` stands behind an empty list). The annotation says the
truth about the three facts: without regular compatibility it is the `only`
text that names exactly the compatible kinds, with regular compatibility it is
one of the three `non-` texts or nothing, a `non-` text names only kinds that
are supported and not compatible, and a format compatible in all three ways
has no annotation. -/
theorem C18_annotations_truthful (X : Externals) (t : OutputType) (gpu : AppGpu) (i : Nat)
    (ht : t ≠ OutputType.json) (hi : i < 32) (s : MemImageSupport) :
    (GpuDumpMemoryProps X t gpu =
      [Call.SetHeader, Call.ObjectStart (cstr "VkPhysicalDeviceMemoryProperties"),
        Call.IndentDecrease] ++
        (if t = OutputType.json_full then [Call.ObjectStart (cstr "memoryHeaps")]
          else [Call.ArrayStart (cstr "memoryHeaps") gpu.memory_props.memoryHeapCount]) ++
        (List.range gpu.memory_props.memoryHeapCount).flatMap (memoryHeapEntry X t gpu) ++
        (if t = OutputType.json_full then
          [Call.ObjectEnd, Call.ObjectStart (cstr "memoryTypes")]
          else
            [Call.ArrayEnd,
              Call.ArrayStart (cstr "memoryTypes") gpu.memory_props.memoryTypeCount]) ++
        (List.range gpu.memory_props.memoryTypeCount).flatMap (memoryTypeEntry X t gpu) ++
        (if t = OutputType.json_full then [Call.ObjectEnd] else [Call.ArrayEnd]) ++
        [Call.IndentIncrease, Call.ObjectEnd, Call.AddNewline]) ∧
    (memoryTypeEntry X t gpu i =
      [Call.SetElementIndex i, Call.ObjectStart (cstr "memoryTypes"),
        Call.PrintKeyValue (cstr "heapIndex")
          (Value.num (gpu.memory_props.memoryTypes.getD i
            { propertyFlags := 0, heapIndex := 0 }).heapIndex) 13 []] ++
        X.DumpVkMemoryPropertyFlags t
          (cstr "propertyFlags = " ++ X.to_hex_str (gpu.memory_props.memoryTypes.getD i
            { propertyFlags := 0, heapIndex := 0 }).propertyFlags)
          (gpu.memory_props.memoryTypes.getD i
            { propertyFlags := 0, heapIndex := 0 }).propertyFlags ++
        [Call.ArrayStart (cstr "usable for") 0] ++
        gpu.mem_type_res_support_image.enum.map
          (fun p => Call.PrintString (usableString X (memtypeBit i) p.1 p.2)) ++
        [Call.ArrayEnd, Call.ObjectEnd]) ∧
    (∀ (tiling : Nat) (formats : List MemImageSupport),
      ∃ tail : CStr, (tail = [] ∨ tail = cstr "None") ∧
        usableString X (memtypeBit i) tiling formats =
          X.VkImageTilingString tiling ++ cstr ": " ++
            List.intercalate (cstr ", ")
              ((formats.enum.filter (fun p =>
                  regularCompatible p.2 (memtypeBit i) || sparseCompatible p.2 (memtypeBit i) ||
                    transientCompatible p.2 (memtypeBit i))).map
                (fun p => usableName X p.1 p.2 ++ usableAnnotation p.2 (memtypeBit i))) ++
            tail) ∧
    (regularCompatible s (memtypeBit i) = (s.regular_supported && s.regular_memtypes.testBit i) ∧
      sparseCompatible s (memtypeBit i) = (s.sparse_supported && s.sparse_memtypes.testBit i) ∧
      transientCompatible s (memtypeBit i) =
        (s.transient_supported && s.transient_memtypes.testBit i)) ∧
    (regularCompatible s (memtypeBit i) = false →
      (sparseCompatible s (memtypeBit i) = true → transientCompatible s (memtypeBit i) = false →
        usableAnnotation s (memtypeBit i) = cstr "(sparse only)") ∧
      (sparseCompatible s (memtypeBit i) = false → transientCompatible s (memtypeBit i) = true →
        usableAnnotation s (memtypeBit i) = cstr "(transient only)") ∧
      (sparseCompatible s (memtypeBit i) = true → transientCompatible s (memtypeBit i) = true →
        usableAnnotation s (memtypeBit i) = cstr "(sparse and transient only)")) ∧
    (regularCompatible s (memtypeBit i) = true →
      usableAnnotation s (memtypeBit i) = cstr "(non-sparse, non-transient)" ∨
      usableAnnotation s (memtypeBit i) = cstr "(non-sparse)" ∨
      usableAnnotation s (memtypeBit i) = cstr "(non-transient)" ∨
      usableAnnotation s (memtypeBit i) = []) ∧
    ( usableAnnotation s (memtypeBit i) = cstr "(non-sparse, non-transient)" →
      regularCompatible s (memtypeBit i) = true ∧
      s.sparse_supported = true ∧ sparseCompatible s (memtypeBit i) = false ∧
      s.transient_supported = true ∧ transientCompatible s (memtypeBit i) = false) ∧
    ( usableAnnotation s (memtypeBit i) = cstr "(non-sparse)" →
      regularCompatible s (memtypeBit i) = true ∧
      s.sparse_supported = true ∧ sparseCompatible s (memtypeBit i) = false) ∧
    ( usableAnnotation s (memtypeBit i) = cstr "(non-transient)" →
      regularCompatible s (memtypeBit i) = true ∧
      s.transient_supported = true ∧ transientCompatible s (memtypeBit i) = false) ∧
    (regularCompatible s (memtypeBit i) = true → sparseCompatible s (memtypeBit i) = true →
      transientCompatible s (memtypeBit i) = true → usableAnnotation s (memtypeBit i) = []) := by
  refine ⟨GpuDumpMemoryProps_eq X t gpu, memoryTypeEntry_eq X t gpu i ht,
    fun tiling formats => usableString_entries X (memtypeBit i) tiling formats,
    ⟨?_, ?_, ?_⟩, ?_⟩
  · unfold regularCompatible; rw [memtypeBit_test _ i hi]
  · unfold sparseCompatible; rw [memtypeBit_test _ i hi]
  · unfold transientCompatible; rw [memtypeBit_test _ i hi]
  · unfold usableAnnotation regularCompatible sparseCompatible transientCompatible
    cases s.regular_supported <;> cases s.sparse_supported <;> cases s.transient_supported <;>
      cases decide (s.regular_memtypes &&& memtypeBit i ≠ 0) <;>
      cases decide (s.sparse_memtypes &&& memtypeBit i ≠ 0) <;>
      cases decide (s.transient_memtypes &&& memtypeBit i ≠ 0) <;> simp +decide

theorem C18_annotations_truthful_witness :
    OutputType.text ≠ OutputType.json ∧ 0 < 32 ∧
    regularCompatible sampleImageSupport (memtypeBit 0) = true ∧
    usableAnnotation sampleImageSupport (memtypeBit 0) = [] ∧
    usableAnnotation { sampleImageSupport with sparse_supported := true } (memtypeBit 0) =
      cstr "(non-sparse)" ∧
    usableString sampleExternals (memtypeBit 0) 1
        [sampleImageSupport, { sampleImageSupport with sparse_supported := true }] =
      cstr "1: color images, VK_FORMAT_37(non-sparse)" ∧
    memoryTypeEntry sampleExternals OutputType.text sampleGpu 0 =
      [Call.SetElementIndex 0, Call.ObjectStart (cstr "memoryTypes"),
        Call.PrintKeyValue (cstr "heapIndex") (Value.num 0) 13 [],
        Call.ObjectStart (cstr "propertyFlags = 1"), Call.ObjectEnd,
        Call.ArrayStart (cstr "usable for") 0,
        Call.PrintString (cstr "0: color images"),
        Call.PrintString (cstr "1: color images"),
        Call.ArrayEnd, Call.ObjectEnd] :=
  ⟨by decide, by decide, by decide, by decide, by decide, by decide,
    (C18_annotations_truthful sampleExternals OutputType.text sampleGpu 0 (by decide)
      (by decide) sampleImageSupport).2.1.trans (by decide)⟩

/-! ## The surface type entry and the html header of a layer -/

/-- C19: a surface group with one surface type name gets the entry
`Surface type = No type found`, not the name of its surface extension, and a
group with no name gets an empty `Surface types` array: both tests of
`DumpSurface` read `surface_types.size () == 1`. -/
theorem C19_one_surface_type_prints_no_type_found :
    (DumpSurface sampleExternals OutputType.text sampleInstance sampleGpu sampleSurface
        [cstr "VK_KHR_xcb_surface"]).take 3 =
      [Call.ObjectStart (cstr "GPU id : 0 (gpu a)"), Call.SetAsType,
        Call.PrintKeyValue (cstr "Surface type") (Value.text (cstr "No type found")) 0 []] ∧
    Call.PrintKeyValue (cstr "Surface type") (Value.text (cstr "VK_KHR_xcb_surface")) 0 [] ∉
      DumpSurface sampleExternals OutputType.text sampleInstance sampleGpu sampleSurface
        [cstr "VK_KHR_xcb_surface"] ∧
    (DumpSurface sampleExternals OutputType.text sampleInstance sampleGpu sampleSurface []).take 3 =
      [Call.ObjectStart (cstr "GPU id : 0 (gpu a)"),
        Call.ArrayStart (cstr "Surface types") 0, Call.ArrayEnd] ∧
    Call.PrintKeyValue (cstr "Surface type") (Value.text (cstr "No type found")) 0 [] ∈
      DumpPresentableSurfaces sampleExternals OutputType.text sampleWindowInstance [sampleGpu]
        [sampleSurface] := by
  refine ⟨by decide, by decide, by decide, by decide⟩

/-- C20: the html header of a layer ends with the Vulkan version string and
does not depend on `implementationVersion`, while the text header ends with
`", layer version "` and the implementation version: the continuation line of
the html assignment stands behind a semicolon. -/
theorem C20_html_header_drops_layer_version :
    layerHeader sampleExternals OutputType.html sampleLayer.layer_properties =
      cstr "VK_LAYER_TEST (test layer) Vulkan version 1" ∧
    layerHeader sampleExternals OutputType.text sampleLayer.layer_properties =
      cstr "VK_LAYER_TEST (test layer) Vulkan version 1, layer version 7" ∧
    layerHeaderHtmlSpec sampleExternals sampleLayer.layer_properties =
      cstr "VK_LAYER_TEST (test layer) Vulkan version 1, layer version 7" ∧
    layerHeader sampleExternals OutputType.html sampleLayer.layer_properties ≠
      layerHeaderHtmlSpec sampleExternals sampleLayer.layer_properties ∧
    (∀ (X : Externals) (props : VkLayerProperties) (v : Nat),
      layerHeader X OutputType.html { props with implementationVersion := v } =
        layerHeader X OutputType.html props) := by
  refine ⟨by decide, by decide, by decide, by decide, fun X props v => rfl⟩

end VulkanInfo
